import Mathlib

/-!
# Lobby session manager of the "Nicht Lachen" server (`server.js`)

A shallow embedding of the socket handlers of `server.js`, and of the command methods of
the client proxy in `multiplayer-client.js`.

* The two global maps `lobbies` and `playerLobbies` are JavaScript `Map`s keyed by
  strings; they are modelled as insertion-ordered association lists (`JsMap`).
* A handler is a function from the state before to the state after together with
  the list of events it emits, in emission order.  `Date.now()` is an input of the
  step (one reading per handler run), and so is the base-36 text of
  `Math.random()` that `generateLobbyCode` cuts the code out of.
* A payload field is an `Option String`: `none` is a field that is missing
  (`undefined`).  The whole payload is optional too (`socket.emit('startGame')`
  without argument delivers `undefined`).  A handler body runs inside
  `try { ... } catch`, so a `TypeError` ends the handler with the generic error
  event of its `catch` block; mutations made before the throw stay.
* `socket.emit(name, ...)` on the server sends the event `name` to the client of
  that socket; `io.to(room).emit` sends to a room, `io.emit` to every connection.
  Room membership (`socket.join`, `socket.leave`) is state of socket.io, not of the
  two maps, and is not modelled: an event records the room it was sent to.
* `console.log` is not modelled.
-/

namespace NichtLachen

/-! ## JavaScript primitives -/

/-- White space and line terminators that `String.prototype.trim` strips. -/
def isJsWhitespace (c : Char) : Bool :=
  let n := c.toNat
  n == 0x09 || n == 0x0A || n == 0x0B || n == 0x0C || n == 0x0D || n == 0x20 ||
  n == 0xA0 || n == 0x1680 || (0x2000 ≤ n && n ≤ 0x200A) || n == 0x2028 ||
  n == 0x2029 || n == 0x202F || n == 0x205F || n == 0x3000 || n == 0xFEFF

/-- Strip leading and trailing white space from a list of characters. -/
def trimChars (cs : List Char) : List Char :=
  ((cs.dropWhile isJsWhitespace).reverse.dropWhile isJsWhitespace).reverse

/-- The method `s.trim()`. -/
def trim (s : String) : String := ⟨trimChars s.data⟩

set_option maxHeartbeats 4000000 in
set_option maxRecDepth 100000 in
/-- The upper-case mapping of Unicode 14.0 above ASCII: each code point from 128 on that
`String.prototype.toUpperCase` changes (simple mappings of `UnicodeData.txt` and the
unconditional mappings of `SpecialCasing.txt`), with the code points it becomes. -/
def upperCaseTable : List (Nat × List Nat) :=
  [(181, [924]), (223, [83, 83]), (224, [192]), (225, [193]), (226, [194]), (227, [195]),
    (228, [196]), (229, [197]), (230, [198]), (231, [199]), (232, [200]), (233, [201]),
    (234, [202]), (235, [203]), (236, [204]), (237, [205]), (238, [206]), (239, [207]),
    (240, [208]), (241, [209]), (242, [210]), (243, [211]), (244, [212]), (245, [213]),
    (246, [214]), (248, [216]), (249, [217]), (250, [218]), (251, [219]), (252, [220]),
    (253, [221]), (254, [222]), (255, [376]), (257, [256]), (259, [258]), (261, [260]),
    (263, [262]), (265, [264]), (267, [266]), (269, [268]), (271, [270]), (273, [272]),
    (275, [274]), (277, [276]), (279, [278]), (281, [280]), (283, [282]), (285, [284]),
    (287, [286]), (289, [288]), (291, [290]), (293, [292]), (295, [294]), (297, [296]),
    (299, [298]), (301, [300]), (303, [302]), (305, [73]), (307, [306]), (309, [308]),
    (311, [310]), (314, [313]), (316, [315]), (318, [317]), (320, [319]), (322, [321]),
    (324, [323]), (326, [325]), (328, [327]), (329, [700, 78]), (331, [330]), (333, [332]),
    (335, [334]), (337, [336]), (339, [338]), (341, [340]), (343, [342]), (345, [344]),
    (347, [346]), (349, [348]), (351, [350]), (353, [352]), (355, [354]), (357, [356]),
    (359, [358]), (361, [360]), (363, [362]), (365, [364]), (367, [366]), (369, [368]),
    (371, [370]), (373, [372]), (375, [374]), (378, [377]), (380, [379]), (382, [381]),
    (383, [83]), (384, [579]), (387, [386]), (389, [388]), (392, [391]), (396, [395]),
    (402, [401]), (405, [502]), (409, [408]), (410, [573]), (414, [544]), (417, [416]),
    (419, [418]), (421, [420]), (424, [423]), (429, [428]), (432, [431]), (436, [435]),
    (438, [437]), (441, [440]), (445, [444]), (447, [503]), (453, [452]), (454, [452]),
    (456, [455]), (457, [455]), (459, [458]), (460, [458]), (462, [461]), (464, [463]),
    (466, [465]), (468, [467]), (470, [469]), (472, [471]), (474, [473]), (476, [475]),
    (477, [398]), (479, [478]), (481, [480]), (483, [482]), (485, [484]), (487, [486]),
    (489, [488]), (491, [490]), (493, [492]), (495, [494]), (496, [74, 780]), (498, [497]),
    (499, [497]), (501, [500]), (505, [504]), (507, [506]), (509, [508]), (511, [510]),
    (513, [512]), (515, [514]), (517, [516]), (519, [518]), (521, [520]), (523, [522]),
    (525, [524]), (527, [526]), (529, [528]), (531, [530]), (533, [532]), (535, [534]),
    (537, [536]), (539, [538]), (541, [540]), (543, [542]), (547, [546]), (549, [548]),
    (551, [550]), (553, [552]), (555, [554]), (557, [556]), (559, [558]), (561, [560]),
    (563, [562]), (572, [571]), (575, [11390]), (576, [11391]), (578, [577]), (583, [582]),
    (585, [584]), (587, [586]), (589, [588]), (591, [590]), (592, [11375]), (593, [11373]),
    (594, [11376]), (595, [385]), (596, [390]), (598, [393]), (599, [394]), (601, [399]),
    (603, [400]), (604, [42923]), (608, [403]), (609, [42924]), (611, [404]),
    (613, [42893]), (614, [42922]), (616, [407]), (617, [406]), (618, [42926]),
    (619, [11362]), (620, [42925]), (623, [412]), (625, [11374]), (626, [413]),
    (629, [415]), (637, [11364]), (640, [422]), (642, [42949]), (643, [425]),
    (647, [42929]), (648, [430]), (649, [580]), (650, [433]), (651, [434]), (652, [581]),
    (658, [439]), (669, [42930]), (670, [42928]), (837, [921]), (881, [880]), (883, [882]),
    (887, [886]), (891, [1021]), (892, [1022]), (893, [1023]), (912, [921, 776, 769]),
    (940, [902]), (941, [904]), (942, [905]), (943, [906]), (944, [933, 776, 769]),
    (945, [913]), (946, [914]), (947, [915]), (948, [916]), (949, [917]), (950, [918]),
    (951, [919]), (952, [920]), (953, [921]), (954, [922]), (955, [923]), (956, [924]),
    (957, [925]), (958, [926]), (959, [927]), (960, [928]), (961, [929]), (962, [931]),
    (963, [931]), (964, [932]), (965, [933]), (966, [934]), (967, [935]), (968, [936]),
    (969, [937]), (970, [938]), (971, [939]), (972, [908]), (973, [910]), (974, [911]),
    (976, [914]), (977, [920]), (981, [934]), (982, [928]), (983, [975]), (985, [984]),
    (987, [986]), (989, [988]), (991, [990]), (993, [992]), (995, [994]), (997, [996]),
    (999, [998]), (1001, [1000]), (1003, [1002]), (1005, [1004]), (1007, [1006]),
    (1008, [922]), (1009, [929]), (1010, [1017]), (1011, [895]), (1013, [917]),
    (1016, [1015]), (1019, [1018]), (1072, [1040]), (1073, [1041]), (1074, [1042]),
    (1075, [1043]), (1076, [1044]), (1077, [1045]), (1078, [1046]), (1079, [1047]),
    (1080, [1048]), (1081, [1049]), (1082, [1050]), (1083, [1051]), (1084, [1052]),
    (1085, [1053]), (1086, [1054]), (1087, [1055]), (1088, [1056]), (1089, [1057]),
    (1090, [1058]), (1091, [1059]), (1092, [1060]), (1093, [1061]), (1094, [1062]),
    (1095, [1063]), (1096, [1064]), (1097, [1065]), (1098, [1066]), (1099, [1067]),
    (1100, [1068]), (1101, [1069]), (1102, [1070]), (1103, [1071]), (1104, [1024]),
    (1105, [1025]), (1106, [1026]), (1107, [1027]), (1108, [1028]), (1109, [1029]),
    (1110, [1030]), (1111, [1031]), (1112, [1032]), (1113, [1033]), (1114, [1034]),
    (1115, [1035]), (1116, [1036]), (1117, [1037]), (1118, [1038]), (1119, [1039]),
    (1121, [1120]), (1123, [1122]), (1125, [1124]), (1127, [1126]), (1129, [1128]),
    (1131, [1130]), (1133, [1132]), (1135, [1134]), (1137, [1136]), (1139, [1138]),
    (1141, [1140]), (1143, [1142]), (1145, [1144]), (1147, [1146]), (1149, [1148]),
    (1151, [1150]), (1153, [1152]), (1163, [1162]), (1165, [1164]), (1167, [1166]),
    (1169, [1168]), (1171, [1170]), (1173, [1172]), (1175, [1174]), (1177, [1176]),
    (1179, [1178]), (1181, [1180]), (1183, [1182]), (1185, [1184]), (1187, [1186]),
    (1189, [1188]), (1191, [1190]), (1193, [1192]), (1195, [1194]), (1197, [1196]),
    (1199, [1198]), (1201, [1200]), (1203, [1202]), (1205, [1204]), (1207, [1206]),
    (1209, [1208]), (1211, [1210]), (1213, [1212]), (1215, [1214]), (1218, [1217]),
    (1220, [1219]), (1222, [1221]), (1224, [1223]), (1226, [1225]), (1228, [1227]),
    (1230, [1229]), (1231, [1216]), (1233, [1232]), (1235, [1234]), (1237, [1236]),
    (1239, [1238]), (1241, [1240]), (1243, [1242]), (1245, [1244]), (1247, [1246]),
    (1249, [1248]), (1251, [1250]), (1253, [1252]), (1255, [1254]), (1257, [1256]),
    (1259, [1258]), (1261, [1260]), (1263, [1262]), (1265, [1264]), (1267, [1266]),
    (1269, [1268]), (1271, [1270]), (1273, [1272]), (1275, [1274]), (1277, [1276]),
    (1279, [1278]), (1281, [1280]), (1283, [1282]), (1285, [1284]), (1287, [1286]),
    (1289, [1288]), (1291, [1290]), (1293, [1292]), (1295, [1294]), (1297, [1296]),
    (1299, [1298]), (1301, [1300]), (1303, [1302]), (1305, [1304]), (1307, [1306]),
    (1309, [1308]), (1311, [1310]), (1313, [1312]), (1315, [1314]), (1317, [1316]),
    (1319, [1318]), (1321, [1320]), (1323, [1322]), (1325, [1324]), (1327, [1326]),
    (1377, [1329]), (1378, [1330]), (1379, [1331]), (1380, [1332]), (1381, [1333]),
    (1382, [1334]), (1383, [1335]), (1384, [1336]), (1385, [1337]), (1386, [1338]),
    (1387, [1339]), (1388, [1340]), (1389, [1341]), (1390, [1342]), (1391, [1343]),
    (1392, [1344]), (1393, [1345]), (1394, [1346]), (1395, [1347]), (1396, [1348]),
    (1397, [1349]), (1398, [1350]), (1399, [1351]), (1400, [1352]), (1401, [1353]),
    (1402, [1354]), (1403, [1355]), (1404, [1356]), (1405, [1357]), (1406, [1358]),
    (1407, [1359]), (1408, [1360]), (1409, [1361]), (1410, [1362]), (1411, [1363]),
    (1412, [1364]), (1413, [1365]), (1414, [1366]), (1415, [1333, 1362]), (4304, [7312]),
    (4305, [7313]), (4306, [7314]), (4307, [7315]), (4308, [7316]), (4309, [7317]),
    (4310, [7318]), (4311, [7319]), (4312, [7320]), (4313, [7321]), (4314, [7322]),
    (4315, [7323]), (4316, [7324]), (4317, [7325]), (4318, [7326]), (4319, [7327]),
    (4320, [7328]), (4321, [7329]), (4322, [7330]), (4323, [7331]), (4324, [7332]),
    (4325, [7333]), (4326, [7334]), (4327, [7335]), (4328, [7336]), (4329, [7337]),
    (4330, [7338]), (4331, [7339]), (4332, [7340]), (4333, [7341]), (4334, [7342]),
    (4335, [7343]), (4336, [7344]), (4337, [7345]), (4338, [7346]), (4339, [7347]),
    (4340, [7348]), (4341, [7349]), (4342, [7350]), (4343, [7351]), (4344, [7352]),
    (4345, [7353]), (4346, [7354]), (4349, [7357]), (4350, [7358]), (4351, [7359]),
    (5112, [5104]), (5113, [5105]), (5114, [5106]), (5115, [5107]), (5116, [5108]),
    (5117, [5109]), (7296, [1042]), (7297, [1044]), (7298, [1054]), (7299, [1057]),
    (7300, [1058]), (7301, [1058]), (7302, [1066]), (7303, [1122]), (7304, [42570]),
    (7545, [42877]), (7549, [11363]), (7566, [42950]), (7681, [7680]), (7683, [7682]),
    (7685, [7684]), (7687, [7686]), (7689, [7688]), (7691, [7690]), (7693, [7692]),
    (7695, [7694]), (7697, [7696]), (7699, [7698]), (7701, [7700]), (7703, [7702]),
    (7705, [7704]), (7707, [7706]), (7709, [7708]), (7711, [7710]), (7713, [7712]),
    (7715, [7714]), (7717, [7716]), (7719, [7718]), (7721, [7720]), (7723, [7722]),
    (7725, [7724]), (7727, [7726]), (7729, [7728]), (7731, [7730]), (7733, [7732]),
    (7735, [7734]), (7737, [7736]), (7739, [7738]), (7741, [7740]), (7743, [7742]),
    (7745, [7744]), (7747, [7746]), (7749, [7748]), (7751, [7750]), (7753, [7752]),
    (7755, [7754]), (7757, [7756]), (7759, [7758]), (7761, [7760]), (7763, [7762]),
    (7765, [7764]), (7767, [7766]), (7769, [7768]), (7771, [7770]), (7773, [7772]),
    (7775, [7774]), (7777, [7776]), (7779, [7778]), (7781, [7780]), (7783, [7782]),
    (7785, [7784]), (7787, [7786]), (7789, [7788]), (7791, [7790]), (7793, [7792]),
    (7795, [7794]), (7797, [7796]), (7799, [7798]), (7801, [7800]), (7803, [7802]),
    (7805, [7804]), (7807, [7806]), (7809, [7808]), (7811, [7810]), (7813, [7812]),
    (7815, [7814]), (7817, [7816]), (7819, [7818]), (7821, [7820]), (7823, [7822]),
    (7825, [7824]), (7827, [7826]), (7829, [7828]), (7830, [72, 817]), (7831, [84, 776]),
    (7832, [87, 778]), (7833, [89, 778]), (7834, [65, 702]), (7835, [7776]), (7841, [7840]),
    (7843, [7842]), (7845, [7844]), (7847, [7846]), (7849, [7848]), (7851, [7850]),
    (7853, [7852]), (7855, [7854]), (7857, [7856]), (7859, [7858]), (7861, [7860]),
    (7863, [7862]), (7865, [7864]), (7867, [7866]), (7869, [7868]), (7871, [7870]),
    (7873, [7872]), (7875, [7874]), (7877, [7876]), (7879, [7878]), (7881, [7880]),
    (7883, [7882]), (7885, [7884]), (7887, [7886]), (7889, [7888]), (7891, [7890]),
    (7893, [7892]), (7895, [7894]), (7897, [7896]), (7899, [7898]), (7901, [7900]),
    (7903, [7902]), (7905, [7904]), (7907, [7906]), (7909, [7908]), (7911, [7910]),
    (7913, [7912]), (7915, [7914]), (7917, [7916]), (7919, [7918]), (7921, [7920]),
    (7923, [7922]), (7925, [7924]), (7927, [7926]), (7929, [7928]), (7931, [7930]),
    (7933, [7932]), (7935, [7934]), (7936, [7944]), (7937, [7945]), (7938, [7946]),
    (7939, [7947]), (7940, [7948]), (7941, [7949]), (7942, [7950]), (7943, [7951]),
    (7952, [7960]), (7953, [7961]), (7954, [7962]), (7955, [7963]), (7956, [7964]),
    (7957, [7965]), (7968, [7976]), (7969, [7977]), (7970, [7978]), (7971, [7979]),
    (7972, [7980]), (7973, [7981]), (7974, [7982]), (7975, [7983]), (7984, [7992]),
    (7985, [7993]), (7986, [7994]), (7987, [7995]), (7988, [7996]), (7989, [7997]),
    (7990, [7998]), (7991, [7999]), (8000, [8008]), (8001, [8009]), (8002, [8010]),
    (8003, [8011]), (8004, [8012]), (8005, [8013]), (8016, [933, 787]), (8017, [8025]),
    (8018, [933, 787, 768]), (8019, [8027]), (8020, [933, 787, 769]), (8021, [8029]),
    (8022, [933, 787, 834]), (8023, [8031]), (8032, [8040]), (8033, [8041]), (8034, [8042]),
    (8035, [8043]), (8036, [8044]), (8037, [8045]), (8038, [8046]), (8039, [8047]),
    (8048, [8122]), (8049, [8123]), (8050, [8136]), (8051, [8137]), (8052, [8138]),
    (8053, [8139]), (8054, [8154]), (8055, [8155]), (8056, [8184]), (8057, [8185]),
    (8058, [8170]), (8059, [8171]), (8060, [8186]), (8061, [8187]), (8064, [7944, 921]),
    (8065, [7945, 921]), (8066, [7946, 921]), (8067, [7947, 921]), (8068, [7948, 921]),
    (8069, [7949, 921]), (8070, [7950, 921]), (8071, [7951, 921]), (8072, [7944, 921]),
    (8073, [7945, 921]), (8074, [7946, 921]), (8075, [7947, 921]), (8076, [7948, 921]),
    (8077, [7949, 921]), (8078, [7950, 921]), (8079, [7951, 921]), (8080, [7976, 921]),
    (8081, [7977, 921]), (8082, [7978, 921]), (8083, [7979, 921]), (8084, [7980, 921]),
    (8085, [7981, 921]), (8086, [7982, 921]), (8087, [7983, 921]), (8088, [7976, 921]),
    (8089, [7977, 921]), (8090, [7978, 921]), (8091, [7979, 921]), (8092, [7980, 921]),
    (8093, [7981, 921]), (8094, [7982, 921]), (8095, [7983, 921]), (8096, [8040, 921]),
    (8097, [8041, 921]), (8098, [8042, 921]), (8099, [8043, 921]), (8100, [8044, 921]),
    (8101, [8045, 921]), (8102, [8046, 921]), (8103, [8047, 921]), (8104, [8040, 921]),
    (8105, [8041, 921]), (8106, [8042, 921]), (8107, [8043, 921]), (8108, [8044, 921]),
    (8109, [8045, 921]), (8110, [8046, 921]), (8111, [8047, 921]), (8112, [8120]),
    (8113, [8121]), (8114, [8122, 921]), (8115, [913, 921]), (8116, [902, 921]),
    (8118, [913, 834]), (8119, [913, 834, 921]), (8124, [913, 921]), (8126, [921]),
    (8130, [8138, 921]), (8131, [919, 921]), (8132, [905, 921]), (8134, [919, 834]),
    (8135, [919, 834, 921]), (8140, [919, 921]), (8144, [8152]), (8145, [8153]),
    (8146, [921, 776, 768]), (8147, [921, 776, 769]), (8150, [921, 834]),
    (8151, [921, 776, 834]), (8160, [8168]), (8161, [8169]), (8162, [933, 776, 768]),
    (8163, [933, 776, 769]), (8164, [929, 787]), (8165, [8172]), (8166, [933, 834]),
    (8167, [933, 776, 834]), (8178, [8186, 921]), (8179, [937, 921]), (8180, [911, 921]),
    (8182, [937, 834]), (8183, [937, 834, 921]), (8188, [937, 921]), (8526, [8498]),
    (8560, [8544]), (8561, [8545]), (8562, [8546]), (8563, [8547]), (8564, [8548]),
    (8565, [8549]), (8566, [8550]), (8567, [8551]), (8568, [8552]), (8569, [8553]),
    (8570, [8554]), (8571, [8555]), (8572, [8556]), (8573, [8557]), (8574, [8558]),
    (8575, [8559]), (8580, [8579]), (9424, [9398]), (9425, [9399]), (9426, [9400]),
    (9427, [9401]), (9428, [9402]), (9429, [9403]), (9430, [9404]), (9431, [9405]),
    (9432, [9406]), (9433, [9407]), (9434, [9408]), (9435, [9409]), (9436, [9410]),
    (9437, [9411]), (9438, [9412]), (9439, [9413]), (9440, [9414]), (9441, [9415]),
    (9442, [9416]), (9443, [9417]), (9444, [9418]), (9445, [9419]), (9446, [9420]),
    (9447, [9421]), (9448, [9422]), (9449, [9423]), (11312, [11264]), (11313, [11265]),
    (11314, [11266]), (11315, [11267]), (11316, [11268]), (11317, [11269]),
    (11318, [11270]), (11319, [11271]), (11320, [11272]), (11321, [11273]),
    (11322, [11274]), (11323, [11275]), (11324, [11276]), (11325, [11277]),
    (11326, [11278]), (11327, [11279]), (11328, [11280]), (11329, [11281]),
    (11330, [11282]), (11331, [11283]), (11332, [11284]), (11333, [11285]),
    (11334, [11286]), (11335, [11287]), (11336, [11288]), (11337, [11289]),
    (11338, [11290]), (11339, [11291]), (11340, [11292]), (11341, [11293]),
    (11342, [11294]), (11343, [11295]), (11344, [11296]), (11345, [11297]),
    (11346, [11298]), (11347, [11299]), (11348, [11300]), (11349, [11301]),
    (11350, [11302]), (11351, [11303]), (11352, [11304]), (11353, [11305]),
    (11354, [11306]), (11355, [11307]), (11356, [11308]), (11357, [11309]),
    (11358, [11310]), (11359, [11311]), (11361, [11360]), (11365, [570]), (11366, [574]),
    (11368, [11367]), (11370, [11369]), (11372, [11371]), (11379, [11378]),
    (11382, [11381]), (11393, [11392]), (11395, [11394]), (11397, [11396]),
    (11399, [11398]), (11401, [11400]), (11403, [11402]), (11405, [11404]),
    (11407, [11406]), (11409, [11408]), (11411, [11410]), (11413, [11412]),
    (11415, [11414]), (11417, [11416]), (11419, [11418]), (11421, [11420]),
    (11423, [11422]), (11425, [11424]), (11427, [11426]), (11429, [11428]),
    (11431, [11430]), (11433, [11432]), (11435, [11434]), (11437, [11436]),
    (11439, [11438]), (11441, [11440]), (11443, [11442]), (11445, [11444]),
    (11447, [11446]), (11449, [11448]), (11451, [11450]), (11453, [11452]),
    (11455, [11454]), (11457, [11456]), (11459, [11458]), (11461, [11460]),
    (11463, [11462]), (11465, [11464]), (11467, [11466]), (11469, [11468]),
    (11471, [11470]), (11473, [11472]), (11475, [11474]), (11477, [11476]),
    (11479, [11478]), (11481, [11480]), (11483, [11482]), (11485, [11484]),
    (11487, [11486]), (11489, [11488]), (11491, [11490]), (11500, [11499]),
    (11502, [11501]), (11507, [11506]), (11520, [4256]), (11521, [4257]), (11522, [4258]),
    (11523, [4259]), (11524, [4260]), (11525, [4261]), (11526, [4262]), (11527, [4263]),
    (11528, [4264]), (11529, [4265]), (11530, [4266]), (11531, [4267]), (11532, [4268]),
    (11533, [4269]), (11534, [4270]), (11535, [4271]), (11536, [4272]), (11537, [4273]),
    (11538, [4274]), (11539, [4275]), (11540, [4276]), (11541, [4277]), (11542, [4278]),
    (11543, [4279]), (11544, [4280]), (11545, [4281]), (11546, [4282]), (11547, [4283]),
    (11548, [4284]), (11549, [4285]), (11550, [4286]), (11551, [4287]), (11552, [4288]),
    (11553, [4289]), (11554, [4290]), (11555, [4291]), (11556, [4292]), (11557, [4293]),
    (11559, [4295]), (11565, [4301]), (42561, [42560]), (42563, [42562]), (42565, [42564]),
    (42567, [42566]), (42569, [42568]), (42571, [42570]), (42573, [42572]),
    (42575, [42574]), (42577, [42576]), (42579, [42578]), (42581, [42580]),
    (42583, [42582]), (42585, [42584]), (42587, [42586]), (42589, [42588]),
    (42591, [42590]), (42593, [42592]), (42595, [42594]), (42597, [42596]),
    (42599, [42598]), (42601, [42600]), (42603, [42602]), (42605, [42604]),
    (42625, [42624]), (42627, [42626]), (42629, [42628]), (42631, [42630]),
    (42633, [42632]), (42635, [42634]), (42637, [42636]), (42639, [42638]),
    (42641, [42640]), (42643, [42642]), (42645, [42644]), (42647, [42646]),
    (42649, [42648]), (42651, [42650]), (42787, [42786]), (42789, [42788]),
    (42791, [42790]), (42793, [42792]), (42795, [42794]), (42797, [42796]),
    (42799, [42798]), (42803, [42802]), (42805, [42804]), (42807, [42806]),
    (42809, [42808]), (42811, [42810]), (42813, [42812]), (42815, [42814]),
    (42817, [42816]), (42819, [42818]), (42821, [42820]), (42823, [42822]),
    (42825, [42824]), (42827, [42826]), (42829, [42828]), (42831, [42830]),
    (42833, [42832]), (42835, [42834]), (42837, [42836]), (42839, [42838]),
    (42841, [42840]), (42843, [42842]), (42845, [42844]), (42847, [42846]),
    (42849, [42848]), (42851, [42850]), (42853, [42852]), (42855, [42854]),
    (42857, [42856]), (42859, [42858]), (42861, [42860]), (42863, [42862]),
    (42874, [42873]), (42876, [42875]), (42879, [42878]), (42881, [42880]),
    (42883, [42882]), (42885, [42884]), (42887, [42886]), (42892, [42891]),
    (42897, [42896]), (42899, [42898]), (42900, [42948]), (42903, [42902]),
    (42905, [42904]), (42907, [42906]), (42909, [42908]), (42911, [42910]),
    (42913, [42912]), (42915, [42914]), (42917, [42916]), (42919, [42918]),
    (42921, [42920]), (42933, [42932]), (42935, [42934]), (42937, [42936]),
    (42939, [42938]), (42941, [42940]), (42943, [42942]), (42945, [42944]),
    (42947, [42946]), (42952, [42951]), (42954, [42953]), (42961, [42960]),
    (42967, [42966]), (42969, [42968]), (42998, [42997]), (43859, [42931]), (43888, [5024]),
    (43889, [5025]), (43890, [5026]), (43891, [5027]), (43892, [5028]), (43893, [5029]),
    (43894, [5030]), (43895, [5031]), (43896, [5032]), (43897, [5033]), (43898, [5034]),
    (43899, [5035]), (43900, [5036]), (43901, [5037]), (43902, [5038]), (43903, [5039]),
    (43904, [5040]), (43905, [5041]), (43906, [5042]), (43907, [5043]), (43908, [5044]),
    (43909, [5045]), (43910, [5046]), (43911, [5047]), (43912, [5048]), (43913, [5049]),
    (43914, [5050]), (43915, [5051]), (43916, [5052]), (43917, [5053]), (43918, [5054]),
    (43919, [5055]), (43920, [5056]), (43921, [5057]), (43922, [5058]), (43923, [5059]),
    (43924, [5060]), (43925, [5061]), (43926, [5062]), (43927, [5063]), (43928, [5064]),
    (43929, [5065]), (43930, [5066]), (43931, [5067]), (43932, [5068]), (43933, [5069]),
    (43934, [5070]), (43935, [5071]), (43936, [5072]), (43937, [5073]), (43938, [5074]),
    (43939, [5075]), (43940, [5076]), (43941, [5077]), (43942, [5078]), (43943, [5079]),
    (43944, [5080]), (43945, [5081]), (43946, [5082]), (43947, [5083]), (43948, [5084]),
    (43949, [5085]), (43950, [5086]), (43951, [5087]), (43952, [5088]), (43953, [5089]),
    (43954, [5090]), (43955, [5091]), (43956, [5092]), (43957, [5093]), (43958, [5094]),
    (43959, [5095]), (43960, [5096]), (43961, [5097]), (43962, [5098]), (43963, [5099]),
    (43964, [5100]), (43965, [5101]), (43966, [5102]), (43967, [5103]), (64256, [70, 70]),
    (64257, [70, 73]), (64258, [70, 76]), (64259, [70, 70, 73]), (64260, [70, 70, 76]),
    (64261, [83, 84]), (64262, [83, 84]), (64275, [1348, 1350]), (64276, [1348, 1333]),
    (64277, [1348, 1339]), (64278, [1358, 1350]), (64279, [1348, 1341]), (65345, [65313]),
    (65346, [65314]), (65347, [65315]), (65348, [65316]), (65349, [65317]),
    (65350, [65318]), (65351, [65319]), (65352, [65320]), (65353, [65321]),
    (65354, [65322]), (65355, [65323]), (65356, [65324]), (65357, [65325]),
    (65358, [65326]), (65359, [65327]), (65360, [65328]), (65361, [65329]),
    (65362, [65330]), (65363, [65331]), (65364, [65332]), (65365, [65333]),
    (65366, [65334]), (65367, [65335]), (65368, [65336]), (65369, [65337]),
    (65370, [65338]), (66600, [66560]), (66601, [66561]), (66602, [66562]),
    (66603, [66563]), (66604, [66564]), (66605, [66565]), (66606, [66566]),
    (66607, [66567]), (66608, [66568]), (66609, [66569]), (66610, [66570]),
    (66611, [66571]), (66612, [66572]), (66613, [66573]), (66614, [66574]),
    (66615, [66575]), (66616, [66576]), (66617, [66577]), (66618, [66578]),
    (66619, [66579]), (66620, [66580]), (66621, [66581]), (66622, [66582]),
    (66623, [66583]), (66624, [66584]), (66625, [66585]), (66626, [66586]),
    (66627, [66587]), (66628, [66588]), (66629, [66589]), (66630, [66590]),
    (66631, [66591]), (66632, [66592]), (66633, [66593]), (66634, [66594]),
    (66635, [66595]), (66636, [66596]), (66637, [66597]), (66638, [66598]),
    (66639, [66599]), (66776, [66736]), (66777, [66737]), (66778, [66738]),
    (66779, [66739]), (66780, [66740]), (66781, [66741]), (66782, [66742]),
    (66783, [66743]), (66784, [66744]), (66785, [66745]), (66786, [66746]),
    (66787, [66747]), (66788, [66748]), (66789, [66749]), (66790, [66750]),
    (66791, [66751]), (66792, [66752]), (66793, [66753]), (66794, [66754]),
    (66795, [66755]), (66796, [66756]), (66797, [66757]), (66798, [66758]),
    (66799, [66759]), (66800, [66760]), (66801, [66761]), (66802, [66762]),
    (66803, [66763]), (66804, [66764]), (66805, [66765]), (66806, [66766]),
    (66807, [66767]), (66808, [66768]), (66809, [66769]), (66810, [66770]),
    (66811, [66771]), (66967, [66928]), (66968, [66929]), (66969, [66930]),
    (66970, [66931]), (66971, [66932]), (66972, [66933]), (66973, [66934]),
    (66974, [66935]), (66975, [66936]), (66976, [66937]), (66977, [66938]),
    (66979, [66940]), (66980, [66941]), (66981, [66942]), (66982, [66943]),
    (66983, [66944]), (66984, [66945]), (66985, [66946]), (66986, [66947]),
    (66987, [66948]), (66988, [66949]), (66989, [66950]), (66990, [66951]),
    (66991, [66952]), (66992, [66953]), (66993, [66954]), (66995, [66956]),
    (66996, [66957]), (66997, [66958]), (66998, [66959]), (66999, [66960]),
    (67000, [66961]), (67001, [66962]), (67003, [66964]), (67004, [66965]),
    (68800, [68736]), (68801, [68737]), (68802, [68738]), (68803, [68739]),
    (68804, [68740]), (68805, [68741]), (68806, [68742]), (68807, [68743]),
    (68808, [68744]), (68809, [68745]), (68810, [68746]), (68811, [68747]),
    (68812, [68748]), (68813, [68749]), (68814, [68750]), (68815, [68751]),
    (68816, [68752]), (68817, [68753]), (68818, [68754]), (68819, [68755]),
    (68820, [68756]), (68821, [68757]), (68822, [68758]), (68823, [68759]),
    (68824, [68760]), (68825, [68761]), (68826, [68762]), (68827, [68763]),
    (68828, [68764]), (68829, [68765]), (68830, [68766]), (68831, [68767]),
    (68832, [68768]), (68833, [68769]), (68834, [68770]), (68835, [68771]),
    (68836, [68772]), (68837, [68773]), (68838, [68774]), (68839, [68775]),
    (68840, [68776]), (68841, [68777]), (68842, [68778]), (68843, [68779]),
    (68844, [68780]), (68845, [68781]), (68846, [68782]), (68847, [68783]),
    (68848, [68784]), (68849, [68785]), (68850, [68786]), (71872, [71840]),
    (71873, [71841]), (71874, [71842]), (71875, [71843]), (71876, [71844]),
    (71877, [71845]), (71878, [71846]), (71879, [71847]), (71880, [71848]),
    (71881, [71849]), (71882, [71850]), (71883, [71851]), (71884, [71852]),
    (71885, [71853]), (71886, [71854]), (71887, [71855]), (71888, [71856]),
    (71889, [71857]), (71890, [71858]), (71891, [71859]), (71892, [71860]),
    (71893, [71861]), (71894, [71862]), (71895, [71863]), (71896, [71864]),
    (71897, [71865]), (71898, [71866]), (71899, [71867]), (71900, [71868]),
    (71901, [71869]), (71902, [71870]), (71903, [71871]), (93792, [93760]),
    (93793, [93761]), (93794, [93762]), (93795, [93763]), (93796, [93764]),
    (93797, [93765]), (93798, [93766]), (93799, [93767]), (93800, [93768]),
    (93801, [93769]), (93802, [93770]), (93803, [93771]), (93804, [93772]),
    (93805, [93773]), (93806, [93774]), (93807, [93775]), (93808, [93776]),
    (93809, [93777]), (93810, [93778]), (93811, [93779]), (93812, [93780]),
    (93813, [93781]), (93814, [93782]), (93815, [93783]), (93816, [93784]),
    (93817, [93785]), (93818, [93786]), (93819, [93787]), (93820, [93788]),
    (93821, [93789]), (93822, [93790]), (93823, [93791]), (125218, [125184]),
    (125219, [125185]), (125220, [125186]), (125221, [125187]), (125222, [125188]),
    (125223, [125189]), (125224, [125190]), (125225, [125191]), (125226, [125192]),
    (125227, [125193]), (125228, [125194]), (125229, [125195]), (125230, [125196]),
    (125231, [125197]), (125232, [125198]), (125233, [125199]), (125234, [125200]),
    (125235, [125201]), (125236, [125202]), (125237, [125203]), (125238, [125204]),
    (125239, [125205]), (125240, [125206]), (125241, [125207]), (125242, [125208]),
    (125243, [125209]), (125244, [125210]), (125245, [125211]), (125246, [125212]),
    (125247, [125213]), (125248, [125214]), (125249, [125215]), (125250, [125216]),
    (125251, [125217])]

/-- The upper-case form of one character: the ASCII letters `a`..`z` become `A`..`Z`, a
character of `upperCaseTable` becomes its entry, every other character stays. -/
def upperChar (c : Char) : List Char :=
  if c.toNat < 128 then [c.toUpper]
  else
    match upperCaseTable.lookup c.toNat with
    | some (u :: us) => Char.ofNat u :: us.map Char.ofNat
    | _ => [c]

/-- The method `s.toUpperCase()`: every character is replaced by its upper-case form, which
may be longer than one character (`ß` becomes `SS`). -/
def toUpperCase (s : String) : String := ⟨s.data.flatMap upperChar⟩

/-- The method `s.substring(start, stop)` for `start ≤ stop`. -/
def substring (s : String) (start stop : Nat) : String :=
  ⟨(s.data.drop start).take (stop - start)⟩

/-- JavaScript truthiness of a string-valued expression that may be `undefined`:
`undefined` and the empty string are falsy. -/
def truthy : Option String → Bool
  | none => false
  | some s => s != ""

/-- The call `xs.slice(-n)`: the last `n` elements. -/
def sliceLast {α : Type} (n : Nat) (xs : List α) : List α :=
  xs.drop (xs.length - n)

/-! ## `Map` -/

/-- A JavaScript `Map` with string keys, in insertion order. -/
abbrev JsMap (V : Type) := List (String × V)

/-- The call `m.get(k)`. -/
def mapGet {V : Type} : JsMap V → String → Option V
  | [], _ => none
  | (k', v) :: rest, k => if k' = k then some v else mapGet rest k

/-- The call `m.set(k, v)`: an existing key keeps its position. -/
def mapSet {V : Type} : JsMap V → String → V → JsMap V
  | [], k, v => [(k, v)]
  | (k', v') :: rest, k, v =>
    if k' = k then (k, v) :: rest else (k', v') :: mapSet rest k v

/-- The call `m.delete(k)`. -/
def mapDelete {V : Type} (m : JsMap V) (k : String) : JsMap V :=
  m.filter (fun e => e.1 != k)

/-! ## Data model -/

/-- A socket id. -/
abbrev SocketId := String

/-- The `gameSettings` object of a `startGame` payload, uninterpreted. -/
abbrev GameSettings := String

/-- An entry of `lobby.players`. -/
structure Player where
  id : SocketId
  name : String
  isHost : Bool
  joinedAt : Nat
  deriving DecidableEq, Repr

/-- An entry of `lobby.chat`. -/
structure ChatMessage where
  message : String
  sender : String
  timestamp : Nat
  deriving DecidableEq, Repr

/-- The `gameState` of a lobby. -/
inductive GameState where
  | waiting
  | playing
  | finished
  deriving DecidableEq, Repr

/-- The `settings` of a lobby. -/
structure Settings where
  maxPlayers : Nat
  gameMode : String
  deriving DecidableEq, Repr

/-- A lobby object, as built by `createLobbyObject`. -/
structure Lobby where
  code : String
  host : String
  hostId : SocketId
  players : List Player
  created : Nat
  lastActivity : Nat
  gameState : GameState
  chat : List ChatMessage
  settings : Settings
  deriving DecidableEq, Repr

/-- The two global maps of `server.js`. -/
structure ServerState where
  lobbies : JsMap Lobby
  playerLobbies : JsMap String
  deriving DecidableEq, Repr

/-- The state at server start: both maps empty. -/
def ServerState.empty : ServerState := ⟨[], []⟩

/-! ## Events -/

/-- Where an event is sent: `socket.emit`, `io.to(room).emit`, `io.emit`. -/
inductive Target where
  | socket (id : SocketId)
  | room (name : String)
  | all
  deriving DecidableEq, Repr

/-- An entry of the `lobbyList` event. -/
structure LobbyInfo where
  code : String
  host : String
  playerCount : Nat
  maxPlayers : Nat
  created : Nat
  deriving DecidableEq, Repr

/-- The argument of an emitted event. -/
inductive Payload where
  | text (message : String)
  | lobbyCreated (lobbyCode : String) (lobby : Lobby) (isHost : Bool)
  | lobbyJoined (lobbyCode : String) (lobby : Lobby) (isHost : Bool)
  | lobby (lobby : Lobby)
  | lobbyStats (totalLobbies totalPlayers : Nat)
  | chatUpdated (message : ChatMessage) (fullChat : List ChatMessage)
  | gameStarted (lobby : Lobby) (players : List Player) (gameSettings : Option GameSettings)
  | reason (reason : String)
  | leaveLobby (lobbyCode : Option String)
  | lobbyList (lobbies : List LobbyInfo)
  | none
  deriving DecidableEq, Repr

/-- An emitted event: target, event name, argument. -/
structure Event where
  target : Target
  name : String
  payload : Payload
  deriving DecidableEq, Repr

/-- The call `socket.emit('error', message)`. -/
def errorTo (socket : SocketId) (message : String) : Event :=
  ⟨Target.socket socket, "error", Payload.text message⟩

/-! ## Payloads of the commands -/

/-- Payload of `createLobby`. -/
structure CreateData where
  playerName : Option String
  deriving DecidableEq, Repr

/-- Payload of `joinLobby`. -/
structure JoinData where
  lobbyCode : Option String
  playerName : Option String
  deriving DecidableEq, Repr

/-- Payload of `chatMessage`. -/
structure ChatData where
  message : Option String
  deriving DecidableEq, Repr

/-- Payload of `startGame`. -/
structure StartData where
  gameSettings : Option GameSettings
  deriving DecidableEq, Repr

/-- Payload of `kickPlayer`. -/
structure KickData where
  playerId : Option String
  deriving DecidableEq, Repr

/-! ## Helper functions of `server.js` -/

/-- The function `generateLobbyCode`, as a function of `Math.random().toString(36)`. -/
def generateLobbyCode (randomText : String) : String :=
  toUpperCase (substring randomText 2 8)

/-- The function `createLobbyObject`. -/
def createLobbyObject (code : String) (hostId : SocketId) (hostName : String) (now : Nat) :
    Lobby :=
  { code := code
    host := hostName
    hostId := hostId
    players := [{ id := hostId, name := hostName, isHost := true, joinedAt := now }]
    created := now
    lastActivity := now
    gameState := GameState.waiting
    chat := [{ message := "🎉 Lobby \"" ++ code ++ "\" wurde erstellt!"
               sender := "system"
               timestamp := now }]
    settings := { maxPlayers := 8, gameMode := "standard" } }

/-- The function `updateLobbyActivity`. -/
def updateLobbyActivity (lobbies : JsMap Lobby) (lobbyCode : String) (now : Nat) :
    JsMap Lobby :=
  match mapGet lobbies lobbyCode with
  | some lobby => mapSet lobbies lobbyCode { lobby with lastActivity := now }
  | none => lobbies

/-- The constant `maxAge` of `cleanupOldLobbies`: 24 hours in milliseconds. -/
def maxAge : Nat := 24 * 60 * 60 * 1000

/-- The function `cleanupOldLobbies`. -/
def cleanupOldLobbies (s : ServerState) (now : Nat) : ServerState :=
  { s with lobbies := s.lobbies.filter (fun e => !(decide (now - e.2.lastActivity > maxAge))) }

/-- The payload of the `lobbyStats` event. -/
def lobbyStats (lobbies : JsMap Lobby) : Event :=
  ⟨Target.all, "lobbyStats",
    Payload.lobbyStats lobbies.length ((lobbies.map (fun e => e.2.players.length)).sum)⟩

/-- The lobby object stored under `key` after the handler's mutations (the handler
holds it by reference); `fallback` is never used when `key` is in the map. -/
def lobbyAt (lobbies : JsMap Lobby) (key : String) (fallback : Lobby) : Lobby :=
  (mapGet lobbies key).getD fallback

/-! ## Socket handlers -/

/-- Handler of `createLobby`.  `socket.emit('leaveLobby', ...)` sends an event to the
client; it does not run the server's own `leaveLobby` handler. -/
def createLobby (s : ServerState) (socket : SocketId) (now : Nat) (randomText : String)
    (data : Option CreateData) : ServerState × List Event :=
  match data with
  | none => (s, [errorTo socket "Fehler beim Erstellen der Lobby"])
  | some d =>
    match d.playerName with
    | none => (s, [errorTo socket "Spielername ist erforderlich"])
    | some playerName =>
      if playerName = "" ∨ (trim playerName).length = 0 then
        (s, [errorTo socket "Spielername ist erforderlich"])
      else
        let existingLobby := mapGet s.playerLobbies socket
        let leaveEvents : List Event :=
          if truthy existingLobby then
            [⟨Target.socket socket, "leaveLobby", Payload.leaveLobby existingLobby⟩]
          else []
        let lobbyCode := generateLobbyCode randomText
        let lobby := createLobbyObject lobbyCode socket (trim playerName) now
        let lobbies := mapSet s.lobbies lobbyCode lobby
        let playerLobbies := mapSet s.playerLobbies socket lobbyCode
        (⟨lobbies, playerLobbies⟩,
          leaveEvents ++
            [⟨Target.socket socket, "lobbyCreated", Payload.lobbyCreated lobbyCode lobby true⟩,
             lobbyStats lobbies])

/-- Handler of `joinLobby`.  The lobby is looked up under the upper-cased code; the
activity update, the reverse mapping, the room and the events use the code as
received. -/
def joinLobby (s : ServerState) (socket : SocketId) (now : Nat)
    (data : Option JoinData) : ServerState × List Event :=
  match data with
  | none => (s, [errorTo socket "Fehler beim Beitreten der Lobby"])
  | some d =>
    match d.lobbyCode, d.playerName with
    | some lobbyCode, some playerName =>
      if lobbyCode = "" ∨ playerName = "" then
        (s, [errorTo socket "Lobby-Code und Spielername sind erforderlich"])
      else
        match mapGet s.lobbies (toUpperCase lobbyCode) with
        | none => (s, [errorTo socket ("Lobby \"" ++ lobbyCode ++ "\" nicht gefunden")])
        | some lobby =>
          if lobby.players.any (fun p => p.name == trim playerName) then
            (s, [errorTo socket ("Spieler \"" ++ playerName ++ "\" ist bereits in der Lobby")])
          else if lobby.players.length ≥ lobby.settings.maxPlayers then
            (s, [errorTo socket "Lobby ist voll"])
          else
            let player : Player :=
              { id := socket, name := trim playerName, isHost := false, joinedAt := now }
            let lobby1 : Lobby :=
              { lobby with
                players := lobby.players ++ [player]
                chat := lobby.chat ++
                  [{ message := "🎉 " ++ playerName ++ " ist der Lobby beigetreten!"
                     sender := "system"
                     timestamp := now }] }
            let lobbies1 := mapSet s.lobbies (toUpperCase lobbyCode) lobby1
            let lobbies2 := updateLobbyActivity lobbies1 lobbyCode now
            let playerLobbies := mapSet s.playerLobbies socket lobbyCode
            let joined := lobbyAt lobbies2 (toUpperCase lobbyCode) lobby1
            (⟨lobbies2, playerLobbies⟩,
              [⟨Target.socket socket, "lobbyJoined", Payload.lobbyJoined lobbyCode joined false⟩,
               ⟨Target.room lobbyCode, "lobbyUpdated", Payload.lobby joined⟩,
               lobbyStats lobbies2])
    | _, _ => (s, [errorTo socket "Lobby-Code und Spielername sind erforderlich"])

/-- Handler of `chatMessage`.  A missing `message` makes `message.trim()` throw, which
the `catch` block turns into the generic error. -/
def chatMessage (s : ServerState) (socket : SocketId) (now : Nat)
    (data : Option ChatData) : ServerState × List Event :=
  match data with
  | none => (s, [errorTo socket "Fehler beim Senden der Nachricht"])
  | some d =>
    match mapGet s.playerLobbies socket with
    | none => (s, [errorTo socket "Du bist in keiner Lobby"])
    | some lobbyCode =>
      if lobbyCode = "" then (s, [errorTo socket "Du bist in keiner Lobby"])
      else
        match mapGet s.lobbies lobbyCode with
        | none => (s, [errorTo socket "Lobby nicht gefunden"])
        | some lobby =>
          match lobby.players.find? (fun p => p.id == socket) with
          | none => (s, [errorTo socket "Du bist nicht in dieser Lobby"])
          | some player =>
            match d.message with
            | none => (s, [errorTo socket "Fehler beim Senden der Nachricht"])
            | some message =>
              let chatMessage : ChatMessage :=
                { message := trim message, sender := player.name, timestamp := now }
              let chat1 := lobby.chat ++ [chatMessage]
              let chat2 := if chat1.length > 50 then sliceLast 50 chat1 else chat1
              let lobbies1 := mapSet s.lobbies lobbyCode { lobby with chat := chat2 }
              let lobbies2 := updateLobbyActivity lobbies1 lobbyCode now
              (⟨lobbies2, s.playerLobbies⟩,
                [⟨Target.room lobbyCode, "chatUpdated", Payload.chatUpdated chatMessage chat2⟩])

/-- Handler of `startGame`.  With an `undefined` payload, `data.gameSettings` throws
while the argument of the `gameStarted` event is built, after the lobby was updated. -/
def startGame (s : ServerState) (socket : SocketId) (now : Nat)
    (data : Option StartData) : ServerState × List Event :=
  match mapGet s.playerLobbies socket with
  | none => (s, [errorTo socket "Du bist in keiner Lobby"])
  | some lobbyCode =>
    if lobbyCode = "" then (s, [errorTo socket "Du bist in keiner Lobby"])
    else
      match mapGet s.lobbies lobbyCode with
      | none => (s, [errorTo socket "Lobby nicht gefunden"])
      | some lobby =>
        match lobby.players.find? (fun p => p.id == socket) with
        | none => (s, [errorTo socket "Nur der Host kann das Spiel starten"])
        | some player =>
          if !player.isHost then (s, [errorTo socket "Nur der Host kann das Spiel starten"])
          else if lobby.players.length < 2 then
            (s, [errorTo socket "Mindestens 2 Spieler werden benötigt"])
          else
            let lobby1 : Lobby :=
              { lobby with
                gameState := GameState.playing
                chat := lobby.chat ++
                  [{ message := "🚀 Das Spiel wurde gestartet! Alle " ++
                       toString lobby.players.length ++ " Spieler nehmen teil."
                     sender := "system"
                     timestamp := now }] }
            let lobbies1 := mapSet s.lobbies lobbyCode lobby1
            let lobbies2 := updateLobbyActivity lobbies1 lobbyCode now
            let started := lobbyAt lobbies2 lobbyCode lobby1
            (⟨lobbies2, s.playerLobbies⟩,
              match data with
              | none => [errorTo socket "Fehler beim Starten des Spiels"]
              | some d =>
                [⟨Target.room lobbyCode, "gameStarted",
                  Payload.gameStarted started started.players d.gameSettings⟩])

/-- Handler of `kickPlayer`.  A player id is a string, so a missing `playerId` finds no
player. -/
def kickPlayer (s : ServerState) (socket : SocketId) (now : Nat)
    (data : Option KickData) : ServerState × List Event :=
  match data with
  | none => (s, [errorTo socket "Fehler beim Entfernen des Spielers"])
  | some d =>
    match mapGet s.playerLobbies socket with
    | none => (s, [errorTo socket "Du bist in keiner Lobby"])
    | some lobbyCode =>
      if lobbyCode = "" then (s, [errorTo socket "Du bist in keiner Lobby"])
      else
        match mapGet s.lobbies lobbyCode with
        | none => (s, [errorTo socket "Lobby nicht gefunden"])
        | some lobby =>
          match lobby.players.find? (fun p => p.id == socket) with
          | none => (s, [errorTo socket "Nur der Host kann Spieler entfernen"])
          | some hostPlayer =>
            if !hostPlayer.isHost then
              (s, [errorTo socket "Nur der Host kann Spieler entfernen"])
            else
              match d.playerId with
              | none => (s, [errorTo socket "Spieler nicht gefunden"])
              | some playerId =>
                match lobby.players.find? (fun p => p.id == playerId) with
                | none => (s, [errorTo socket "Spieler nicht gefunden"])
                | some targetPlayer =>
                  if targetPlayer.isHost then
                    (s, [errorTo socket "Der Host kann sich nicht selbst entfernen"])
                  else
                    let lobby1 : Lobby :=
                      { lobby with
                        players := lobby.players.filter (fun p => p.id != playerId)
                        chat := lobby.chat ++
                          [{ message := "🚫 " ++ targetPlayer.name ++
                               " wurde aus der Lobby entfernt."
                             sender := "system"
                             timestamp := now }] }
                    let lobbies1 := mapSet s.lobbies lobbyCode lobby1
                    let lobbies2 := updateLobbyActivity lobbies1 lobbyCode now
                    let playerLobbies := mapDelete s.playerLobbies playerId
                    let updated := lobbyAt lobbies2 lobbyCode lobby1
                    (⟨lobbies2, playerLobbies⟩,
                      [⟨Target.room playerId, "kicked",
                          Payload.reason "Du wurdest vom Host aus der Lobby entfernt."⟩,
                       ⟨Target.room lobbyCode, "lobbyUpdated", Payload.lobby updated⟩])

/-- Handler of `leaveLobby`.  In the host branch the closing notice is pushed on a lobby
object that is deleted in the same run and sent in no event, so it leaves no trace. -/
def leaveLobby (s : ServerState) (socket : SocketId) (now : Nat) :
    ServerState × List Event :=
  match mapGet s.playerLobbies socket with
  | none => (s, [])
  | some lobbyCode =>
    if lobbyCode = "" then (s, [])
    else
      match mapGet s.lobbies lobbyCode with
      | none => (⟨s.lobbies, mapDelete s.playerLobbies socket⟩, [])
      | some lobby =>
        match lobby.players.find? (fun p => p.id == socket) with
        | none => (⟨s.lobbies, mapDelete s.playerLobbies socket⟩, [])
        | some player =>
          if player.isHost then
            let playerLobbies1 :=
              lobby.players.foldl (fun m p => mapDelete m p.id) s.playerLobbies
            let lobbies1 := mapDelete s.lobbies lobbyCode
            (⟨lobbies1, mapDelete playerLobbies1 socket⟩,
              [⟨Target.room lobbyCode, "lobbyClosed",
                  Payload.reason "Der Host hat die Lobby verlassen."⟩,
               ⟨Target.socket socket, "lobbyLeft", Payload.none⟩,
               lobbyStats lobbies1])
          else
            let lobby1 : Lobby :=
              { lobby with
                players := lobby.players.filter (fun p => p.id != socket)
                chat := lobby.chat ++
                  [{ message := "🚪 " ++ player.name ++ " hat die Lobby verlassen."
                     sender := "system"
                     timestamp := now }] }
            let lobbies1 := mapSet s.lobbies lobbyCode lobby1
            let lobbies2 := updateLobbyActivity lobbies1 lobbyCode now
            let updated := lobbyAt lobbies2 lobbyCode lobby1
            (⟨lobbies2, mapDelete s.playerLobbies socket⟩,
              [⟨Target.room lobbyCode, "lobbyUpdated", Payload.lobby updated⟩,
               ⟨Target.socket socket, "lobbyLeft", Payload.none⟩,
               lobbyStats lobbies2])

/-- Handler of `requestLobbyList`. -/
def requestLobbyList (s : ServerState) (socket : SocketId) : ServerState × List Event :=
  let publicLobbies : List LobbyInfo :=
    ((s.lobbies.map (fun e => e.2)).filter (fun lobby => lobby.gameState == GameState.waiting)).map
      (fun lobby =>
        { code := lobby.code
          host := lobby.host
          playerCount := lobby.players.length
          maxPlayers := lobby.settings.maxPlayers
          created := lobby.created })
  (s, [⟨Target.socket socket, "lobbyList", Payload.lobbyList publicLobbies⟩])

/-- Handler of `disconnect`: when the socket is mapped to a lobby it emits a
`leaveLobby` event on the socket, that is, towards the client. -/
def disconnect (s : ServerState) (socket : SocketId) : ServerState × List Event :=
  if truthy (mapGet s.playerLobbies socket) then
    (s, [⟨Target.socket socket, "leaveLobby", Payload.none⟩])
  else (s, [])

/-! ## The server as a transition system -/

/-- A command received on a socket, with the random text a `createLobby` draws. -/
inductive Command where
  | createLobby (randomText : String) (data : Option CreateData)
  | joinLobby (data : Option JoinData)
  | chatMessage (data : Option ChatData)
  | startGame (data : Option StartData)
  | kickPlayer (data : Option KickData)
  | leaveLobby
  | requestLobbyList
  | disconnect
  deriving DecidableEq, Repr

/-- One run of a handler, or one tick of the cleanup timer; `now` is `Date.now()`. -/
inductive Step where
  | command (socket : SocketId) (now : Nat) (cmd : Command)
  | cleanup (now : Nat)
  deriving DecidableEq, Repr

/-- Dispatch of a command to its handler. -/
def handle (s : ServerState) (socket : SocketId) (now : Nat) :
    Command → ServerState × List Event
  | Command.createLobby randomText data => createLobby s socket now randomText data
  | Command.joinLobby data => joinLobby s socket now data
  | Command.chatMessage data => chatMessage s socket now data
  | Command.startGame data => startGame s socket now data
  | Command.kickPlayer data => kickPlayer s socket now data
  | Command.leaveLobby => leaveLobby s socket now
  | Command.requestLobbyList => requestLobbyList s socket
  | Command.disconnect => disconnect s socket

/-- One step of the server. -/
def step (s : ServerState) : Step → ServerState × List Event
  | Step.command socket now cmd => handle s socket now cmd
  | Step.cleanup now => (cleanupOldLobbies s now, [])

/-- The state after a sequence of steps. -/
def run (s : ServerState) (steps : List Step) : ServerState :=
  steps.foldl (fun acc st => (step acc st).1) s

/-- States reachable from the empty store. -/
inductive Reachable : ServerState → Prop where
  | start : Reachable ServerState.empty
  | next {s : ServerState} (st : Step) : Reachable s → Reachable (step s st).1


/-! ## Invariant of the reachable states -/

/-- What holds of a lobby stored under `code` in every reachable state: the player
limit is 8, at most 8 players are in it, and a lobby stored under the empty code (which
no `joinLobby` can address) has at most its creator in it. -/
def LobbyInv (code : String) (lobby : Lobby) : Prop :=
  lobby.settings.maxPlayers = 8 ∧ lobby.players.length ≤ 8 ∧
    (code = "" → lobby.players.length ≤ 1)

/-- The invariant for every entry of the lobby map. -/
def StoreInv (s : ServerState) : Prop :=
  ∀ e ∈ s.lobbies, LobbyInv e.1 e.2


/-! ## Concrete runs used as examples -/

/-- A run in which `h` creates lobby `ABC123` and seven more connections join it. -/
def fullLobbyTrace : List Step :=
  [Step.command "h" 1 (Command.createLobby "0.abc123xyz" (some ⟨some "Anna"⟩)),
   Step.command "p2" 2 (Command.joinLobby (some ⟨some "ABC123", some "Ben"⟩)),
   Step.command "p3" 3 (Command.joinLobby (some ⟨some "ABC123", some "Cem"⟩)),
   Step.command "p4" 4 (Command.joinLobby (some ⟨some "ABC123", some "Dora"⟩)),
   Step.command "p5" 5 (Command.joinLobby (some ⟨some "ABC123", some "Emil"⟩)),
   Step.command "p6" 6 (Command.joinLobby (some ⟨some "ABC123", some "Finn"⟩)),
   Step.command "p7" 7 (Command.joinLobby (some ⟨some "ABC123", some "Gerd"⟩)),
   Step.command "p8" 8 (Command.joinLobby (some ⟨some "ABC123", some "Hans"⟩))]

/-- The state after `fullLobbyTrace`: lobby `ABC123` holds eight players. -/
def fullLobbyState : ServerState := run ServerState.empty fullLobbyTrace


/-- The state after `h` created a lobby while `Math.random()` returned `0`, whose
base-36 text is `0`: the generated code is the empty string. -/
def emptyCodeState : ServerState :=
  run ServerState.empty
    [Step.command "h" 1 (Command.createLobby "0" (some ⟨some "Anna"⟩))]

/-- The state after `h` created lobby `ABC123`. -/
def oneLobbyState : ServerState :=
  run ServerState.empty
    [Step.command "h" 1 (Command.createLobby "0.abc123xyz" (some ⟨some "Anna"⟩))]

/-- The state after `h` created lobby `ABC123` and `m` joined it as `Ben`. -/
def twoPlayerState : ServerState :=
  run ServerState.empty
    [Step.command "h" 1 (Command.createLobby "0.abc123xyz" (some ⟨some "Anna"⟩)),
     Step.command "m" 2 (Command.joinLobby (some ⟨some "ABC123", some "Ben"⟩))]

/-- The state after `h` created lobby `ABC123` and connection `m` joined it twice, as
`Ben` and as `Benno`. -/
def joinedTwiceState : ServerState :=
  run ServerState.empty
    [Step.command "h" 1 (Command.createLobby "0.abc123xyz" (some ⟨some "Anna"⟩)),
     Step.command "m" 2 (Command.joinLobby (some ⟨some "ABC123", some "Ben"⟩)),
     Step.command "m" 3 (Command.joinLobby (some ⟨some "ABC123", some "Benno"⟩))]

/-- A `joinLobby` by `m` followed by a `leaveLobby` by `m`, `n` times over. -/
def joinLeaveRounds : Nat → List Step
  | 0 => []
  | n + 1 =>
    Step.command "m" 2 (Command.joinLobby (some ⟨some "ABC123", some "Ben"⟩)) ::
    Step.command "m" 3 Command.leaveLobby :: joinLeaveRounds n

/-- The state after `h` created lobby `ABC123` and `m` joined and left it 25 times. -/
def manyNoticesState : ServerState :=
  run ServerState.empty
    (Step.command "h" 1 (Command.createLobby "0.abc123xyz" (some ⟨some "Anna"⟩)) ::
      joinLeaveRounds 25)


/-- What holds of the players of a lobby in every reachable state: the first record is
the host record, it carries the lobby's `hostId`, and no other record is a host. -/
def HostInv (lobby : Lobby) : Prop :=
  ∃ hostRecord rest, lobby.players = hostRecord :: rest ∧ hostRecord.isHost = true ∧
    hostRecord.id = lobby.hostId ∧ ∀ p ∈ rest, p.isHost = false

/-- The state after `h` created lobby `ABC123` and `m` joined it with a name that
consists of one blank. -/
def blankNameState : ServerState :=
  run ServerState.empty
    [Step.command "h" 1 (Command.createLobby "0.abc123xyz" (some ⟨some "Anna"⟩)),
     Step.command "m" 2 (Command.joinLobby (some ⟨some "ABC123", some " "⟩))]

/-- The state after `h` created lobby `ABC123`, `h2` created lobby `XYZ789`, and `m`
joined first `ABC123` and then `XYZ789`. -/
def twoLobbiesState : ServerState :=
  run ServerState.empty
    [Step.command "h" 1 (Command.createLobby "0.abc123xyz" (some ⟨some "Anna"⟩)),
     Step.command "h2" 2 (Command.createLobby "0.xyz789abc" (some ⟨some "Zoe"⟩)),
     Step.command "m" 3 (Command.joinLobby (some ⟨some "ABC123", some "Ben"⟩)),
     Step.command "m" 4 (Command.joinLobby (some ⟨some "XYZ789", some "Ben"⟩))]

/-- The state after three lobbies were created at times 0, 1 hour and 24 hours (in
milliseconds). -/
def agedLobbiesState : ServerState :=
  run ServerState.empty
    [Step.command "a" 0 (Command.createLobby "0.aaa111zz" (some ⟨some "Anna"⟩)),
     Step.command "b" 3600000 (Command.createLobby "0.bbb222zz" (some ⟨some "Ben"⟩)),
     Step.command "c" 86400000 (Command.createLobby "0.ccc333zz" (some ⟨some "Cem"⟩))]


/-- The digits of a base-36 numeral, as `Number.prototype.toString(36)` writes them. -/
def base36Digits : List Char := "0123456789abcdefghijklmnopqrstuvwxyz".data

/-- The upper-case letters and the digits. -/
def upperAlphanumerics : List Char := "0123456789ABCDEFGHIJKLMNOPQRSTUVWXYZ".data

/-- The state after `h` created lobby `ABC123`, `h2` created lobby `XYZ789`, and `m`
joined `ABC123` as `Ben`. -/
def memberOfFirstLobbyState : ServerState :=
  run ServerState.empty
    [Step.command "h" 1 (Command.createLobby "0.abc123xyz" (some ⟨some "Anna"⟩)),
     Step.command "h2" 2 (Command.createLobby "0.xyz789abc" (some ⟨some "Zoe"⟩)),
     Step.command "m" 3 (Command.joinLobby (some ⟨some "ABC123", some "Ben"⟩))]

/-! ## The client proxy (`multiplayer-client.js`)

The fields of `MultiplayerClient` that its command methods read or write, and the
command methods.  A method returns the client state after the call, the returned
boolean and the events it sent with `this.socket.emit`.  `showError` and `console.log`
act on the page only and are not modelled.  An argument is an `Option`: `none` is an
argument that was not passed (`undefined`). -/

/-- The fields of a `MultiplayerClient`. -/
structure ClientState where
  isConnected : Bool
  currentLobby : Option Lobby
  isHost : Bool
  playerName : String
  connectionAttempts : Nat
  deriving DecidableEq, Repr

/-- A command event sent by the client. -/
inductive ClientEmit where
  | createLobby (data : CreateData)
  | joinLobby (data : JoinData)
  | chatMessage (data : ChatData)
  | startGame (data : StartData)
  | kickPlayer (data : KickData)
  | leaveLobby
  | requestLobbyList
  deriving DecidableEq, Repr

/-- The fields as the constructor sets them. -/
def ClientState.initial : ClientState :=
  { isConnected := false, currentLobby := none, isHost := false, playerName := "",
    connectionAttempts := 0 }

/-- The listener of `connect`. -/
def MultiplayerClient.onConnect (c : ClientState) : ClientState :=
  { c with isConnected := true, connectionAttempts := 0 }

/-- The listener of `disconnect`, as far as the fields go. -/
def MultiplayerClient.onDisconnect (c : ClientState) : ClientState :=
  { c with isConnected := false }

/-- The listener of `lobbyCreated` and of `lobbyJoined`, as far as the fields go. -/
def MultiplayerClient.onLobbyEntered (c : ClientState) (lobby : Lobby) (isHost : Bool) :
    ClientState :=
  { c with currentLobby := some lobby, isHost := isHost }

/-- The method `createLobby(playerName)`. -/
def MultiplayerClient.createLobby (c : ClientState) (playerName : Option String) :
    ClientState × Bool × List ClientEmit :=
  if !c.isConnected then (c, false, [])
  else
    match playerName with
    | none => (c, false, [])
    | some name =>
      if name = "" ∨ (trim name).length = 0 then (c, false, [])
      else
        ({ c with playerName := trim name }, true,
          [ClientEmit.createLobby ⟨some (trim name)⟩])

/-- The method `joinLobby(lobbyCode, playerName)`. -/
def MultiplayerClient.joinLobby (c : ClientState) (lobbyCode playerName : Option String) :
    ClientState × Bool × List ClientEmit :=
  if !c.isConnected then (c, false, [])
  else
    match lobbyCode with
    | none => (c, false, [])
    | some code =>
      if code = "" ∨ (trim code).length = 0 then (c, false, [])
      else
        match playerName with
        | none => (c, false, [])
        | some name =>
          if name = "" ∨ (trim name).length = 0 then (c, false, [])
          else
            ({ c with playerName := trim name }, true,
              [ClientEmit.joinLobby ⟨some (toUpperCase code), some (trim name)⟩])

/-- The method `sendChatMessage(message)`. -/
def MultiplayerClient.sendChatMessage (c : ClientState) (message : Option String) :
    ClientState × Bool × List ClientEmit :=
  if !c.isConnected || c.currentLobby.isNone then (c, false, [])
  else
    match message with
    | none => (c, false, [])
    | some text =>
      if text = "" ∨ (trim text).length = 0 then (c, false, [])
      else (c, true, [ClientEmit.chatMessage ⟨some (trim text)⟩])

/-- The method `startGame(gameSettings = {})`; `none` stands for the empty object. -/
def MultiplayerClient.startGame (c : ClientState) (gameSettings : Option GameSettings) :
    ClientState × Bool × List ClientEmit :=
  if !c.isConnected || c.currentLobby.isNone then (c, false, [])
  else if !c.isHost then (c, false, [])
  else (c, true, [ClientEmit.startGame ⟨gameSettings⟩])

/-- The method `kickPlayer(playerId)`. -/
def MultiplayerClient.kickPlayer (c : ClientState) (playerId : Option String) :
    ClientState × Bool × List ClientEmit :=
  if !c.isConnected || c.currentLobby.isNone then (c, false, [])
  else if !c.isHost then (c, false, [])
  else (c, true, [ClientEmit.kickPlayer ⟨playerId⟩])

/-- The method `leaveLobby()`. -/
def MultiplayerClient.leaveLobby (c : ClientState) : ClientState × Bool × List ClientEmit :=
  if !c.isConnected then (c, false, [])
  else (c, true, [ClientEmit.leaveLobby])

/-- The method `requestLobbyList()`. -/
def MultiplayerClient.requestLobbyList (c : ClientState) :
    ClientState × Bool × List ClientEmit :=
  if !c.isConnected then (c, false, [])
  else (c, true, [ClientEmit.requestLobbyList])

/-- A client that connected, created lobby `ABC123` (so it is host) and then lost its
connection. -/
def hostAfterDisconnect : ClientState :=
  MultiplayerClient.onDisconnect
    (MultiplayerClient.onLobbyEntered (MultiplayerClient.onConnect ClientState.initial)
      (createLobbyObject "ABC123" "h" "Anna" 1) true)

/-- A client that connected and created lobby `ABC123`. -/
def connectedHost : ClientState :=
  MultiplayerClient.onLobbyEntered (MultiplayerClient.onConnect ClientState.initial)
    (createLobbyObject "ABC123" "h" "Anna" 1) true

end NichtLachen

/-! # Theorems -/

namespace NichtLachen

/-! ## Laws of the `Map` model -/

theorem mapGet_mapSet_self {V : Type} (m : JsMap V) (k : String) (v : V) :
    mapGet (mapSet m k v) k = some v := by
  induction m with
  | nil => simp [mapSet, mapGet]
  | cons e rest ih =>
    obtain ⟨k', v'⟩ := e
    by_cases h : k' = k
    · simp [mapSet, mapGet, h]
    · simp [mapSet, mapGet, h, ih]

theorem mapGet_mapSet_ne {V : Type} (m : JsMap V) (k k' : String) (v : V) (hk : k' ≠ k) :
    mapGet (mapSet m k v) k' = mapGet m k' := by
  induction m with
  | nil => simp [mapSet, mapGet, Ne.symm hk]
  | cons e rest ih =>
    obtain ⟨k₀, v₀⟩ := e
    by_cases h : k₀ = k
    · subst h
      simp [mapSet, mapGet, Ne.symm hk]
    · by_cases h' : k₀ = k'
      · subst h'
        simp [mapSet, mapGet, h]
      · simp [mapSet, mapGet, h, h', ih]

theorem mapGet_mapDelete_self {V : Type} (m : JsMap V) (k : String) :
    mapGet (mapDelete m k) k = none := by
  induction m with
  | nil => simp [mapDelete, mapGet]
  | cons e rest ih =>
    obtain ⟨k', v'⟩ := e
    by_cases h : k' = k
    · simpa [mapDelete, List.filter_cons, h] using ih
    · simpa [mapDelete, List.filter_cons, h, mapGet] using ih

theorem mapGet_mapDelete_ne {V : Type} (m : JsMap V) (k k' : String) (hk : k' ≠ k) :
    mapGet (mapDelete m k) k' = mapGet m k' := by
  induction m with
  | nil => simp [mapDelete, mapGet]
  | cons e rest ih =>
    obtain ⟨k₀, v₀⟩ := e
    by_cases h : k₀ = k
    · subst h
      simpa [mapDelete, List.filter_cons, mapGet, Ne.symm hk] using ih
    · by_cases h' : k₀ = k'
      · subst h'
        simp [mapDelete, List.filter_cons, mapGet, h]
      · simpa [mapDelete, List.filter_cons, mapGet, h, h'] using ih

theorem mapGet_mapDelete_of_none {V : Type} (m : JsMap V) (k k' : String)
    (h : mapGet m k' = none) : mapGet (mapDelete m k) k' = none := by
  by_cases hk : k' = k
  · subst hk; exact mapGet_mapDelete_self m k'
  · rw [mapGet_mapDelete_ne m k k' hk]; exact h

theorem mem_of_mapGet {V : Type} (m : JsMap V) (k : String) (v : V)
    (h : mapGet m k = some v) : (k, v) ∈ m := by
  induction m with
  | nil => simp [mapGet] at h
  | cons e rest ih =>
    obtain ⟨k', v'⟩ := e
    by_cases hk : k' = k
    · simp [mapGet, hk] at h
      simp [hk, h]
    · simp [mapGet, hk] at h
      exact List.mem_cons_of_mem _ (ih h)

theorem mem_mapSet {V : Type} (m : JsMap V) (k : String) (v : V) (e : String × V)
    (h : e ∈ mapSet m k v) : e ∈ m ∨ e = (k, v) := by
  induction m with
  | nil => simpa [mapSet] using h
  | cons e₀ rest ih =>
    obtain ⟨k', v'⟩ := e₀
    by_cases hk : k' = k
    · simp [mapSet, hk] at h
      rcases h with h | h
      · exact Or.inr h
      · exact Or.inl (List.mem_cons_of_mem _ h)
    · simp [mapSet, hk] at h
      rcases h with h | h
      · exact Or.inl (by simp [h])
      · rcases ih h with h' | h'
        · exact Or.inl (List.mem_cons_of_mem _ h')
        · exact Or.inr h'

theorem mem_mapDelete {V : Type} (m : JsMap V) (k : String) (e : String × V)
    (h : e ∈ mapDelete m k) : e ∈ m :=
  (List.mem_filter.mp h).1

/-- After the players of a lobby were removed from the reverse mapping one by one,
none of them is mapped. -/
theorem mapGet_foldl_delete_mem (players : List Player) (m : JsMap String) (p : Player)
    (hp : p ∈ players) :
    mapGet (players.foldl (fun m q => mapDelete m q.id) m) p.id = none := by
  have keep : ∀ (ps : List Player) (m : JsMap String) (k : String), mapGet m k = none →
      mapGet (ps.foldl (fun m q => mapDelete m q.id) m) k = none := by
    intro ps
    induction ps with
    | nil => intro m k h; simpa using h
    | cons q qs ih =>
      intro m k h
      simp only [List.foldl_cons]
      exact ih _ _ (mapGet_mapDelete_of_none m q.id k h)
  induction players generalizing m with
  | nil => simp at hp
  | cons q qs ih =>
    simp only [List.foldl_cons]
    rcases List.mem_cons.mp hp with h | h
    · subst h
      exact keep qs _ _ (mapGet_mapDelete_self m p.id)
    · exact ih _ h

/-- Removing the players of a lobby from the reverse mapping leaves every other
socket's entry as it was. -/
theorem mapGet_foldl_delete_other (players : List Player) (m : JsMap String) (k : String)
    (hk : ∀ p ∈ players, p.id ≠ k) :
    mapGet (players.foldl (fun m q => mapDelete m q.id) m) k = mapGet m k := by
  induction players generalizing m with
  | nil => simp
  | cons q qs ih =>
    simp only [List.foldl_cons]
    rw [ih _ (fun p hp => hk p (List.mem_cons_of_mem _ hp))]
    exact mapGet_mapDelete_ne m q.id k (Ne.symm (hk q (List.mem_cons_self _ _)))

theorem updateLobbyActivity_mapSet_self (lobbies : JsMap Lobby) (k : String) (l : Lobby)
    (now : Nat) :
    updateLobbyActivity (mapSet lobbies k l) k now =
      mapSet (mapSet lobbies k l) k { l with lastActivity := now } := by
  simp [updateLobbyActivity, mapGet_mapSet_self]

theorem mapGet_updateLobbyActivity_ne (lobbies : JsMap Lobby) (k k' : String) (now : Nat)
    (hk : k' ≠ k) :
    mapGet (updateLobbyActivity lobbies k now) k' = mapGet lobbies k' := by
  unfold updateLobbyActivity
  cases h : mapGet lobbies k with
  | none => rfl
  | some l => simp [mapGet_mapSet_ne _ _ _ _ hk]

theorem mapGet_updateLobbyActivity_self (lobbies : JsMap Lobby) (k : String) (now : Nat) :
    mapGet (updateLobbyActivity lobbies k now) k =
      (mapGet lobbies k).map (fun l => { l with lastActivity := now }) := by
  unfold updateLobbyActivity
  cases h : mapGet lobbies k with
  | none => simp [h]
  | some l => simp [mapGet_mapSet_self]

theorem mem_updateLobbyActivity (lobbies : JsMap Lobby) (k : String) (now : Nat)
    (e : String × Lobby) (h : e ∈ updateLobbyActivity lobbies k now) :
    e ∈ lobbies ∨ ∃ l, (k, l) ∈ lobbies ∧ e = (k, { l with lastActivity := now }) := by
  unfold updateLobbyActivity at h
  cases hg : mapGet lobbies k with
  | none => rw [hg] at h; exact Or.inl h
  | some l =>
    rw [hg] at h
    rcases mem_mapSet _ _ _ _ h with h' | h'
    · exact Or.inl h'
    · exact Or.inr ⟨l, mem_of_mapGet _ _ _ hg, h'⟩


/-- Every run of `kickPlayer` either is rejected (state unchanged, one error event to
the requester) or passed all five guards. -/
theorem kickPlayer_cases (s : ServerState) (socket : SocketId) (now : Nat)
    (data : Option KickData) :
    ((kickPlayer s socket now data).1 = s ∧
        ∃ msg, (kickPlayer s socket now data).2 = [errorTo socket msg]) ∨
    (∃ code lobby hostPlayer playerId targetPlayer,
        data = some ⟨some playerId⟩ ∧
        mapGet s.playerLobbies socket = some code ∧ code ≠ "" ∧
        mapGet s.lobbies code = some lobby ∧
        lobby.players.find? (fun p => p.id == socket) = some hostPlayer ∧
        hostPlayer.isHost = true ∧
        lobby.players.find? (fun p => p.id == playerId) = some targetPlayer ∧
        targetPlayer.isHost = false ∧
        (kickPlayer s socket now data).1 =
          ⟨updateLobbyActivity
              (mapSet s.lobbies code
                { lobby with
                  players := lobby.players.filter (fun p => p.id != playerId)
                  chat := lobby.chat ++
                    [{ message := "🚫 " ++ targetPlayer.name ++ " wurde aus der Lobby entfernt."
                       sender := "system"
                       timestamp := now }] })
              code now,
            mapDelete s.playerLobbies playerId⟩) := by
  cases data with
  | none => left; simp [kickPlayer, errorTo]
  | some d =>
    obtain ⟨pid⟩ := d
    cases hm : mapGet s.playerLobbies socket with
    | none => left; simp [kickPlayer, errorTo, hm]
    | some code =>
      by_cases hc : code = ""
      · left; simp [kickPlayer, errorTo, hm, hc]
      · cases hl : mapGet s.lobbies code with
        | none => left; simp [kickPlayer, errorTo, hm, hc, hl]
        | some lobby =>
          cases hh : lobby.players.find? (fun p => p.id == socket) with
          | none => left; simp [kickPlayer, errorTo, hm, hc, hl, hh]
          | some hostPlayer =>
            cases hhost : hostPlayer.isHost with
            | false => left; simp [kickPlayer, errorTo, hm, hc, hl, hh, hhost]
            | true =>
              cases pid with
              | none => left; simp [kickPlayer, errorTo, hm, hc, hl, hh, hhost]
              | some playerId =>
                cases ht : lobby.players.find? (fun p => p.id == playerId) with
                | none => left; simp [kickPlayer, errorTo, hm, hc, hl, hh, hhost, ht]
                | some targetPlayer =>
                  cases htarget : targetPlayer.isHost with
                  | true =>
                    left; simp [kickPlayer, errorTo, hm, hc, hl, hh, hhost, ht, htarget]
                  | false =>
                    refine Or.inr ⟨code, lobby, hostPlayer, playerId, targetPlayer, rfl, rfl,
                      hc, hl, hh, hhost, ht, htarget, ?_⟩
                    simp [kickPlayer, hm, hc, hl, hh, hhost, ht, htarget]


theorem upperChar_ne_nil (c : Char) : upperChar c ≠ [] := by
  unfold upperChar
  split
  · simp
  · split <;> simp

theorem toUpperCase_eq_empty (s : String) : toUpperCase s = "" ↔ s = "" := by
  constructor
  · intro h
    have h2 : (toUpperCase s).data = [] := by rw [h]
    have h3 : s.data.flatMap upperChar = [] := h2
    have h4 : s.data = [] := by
      cases hs : s.data with
      | nil => rfl
      | cons c cs =>
        rw [hs] at h3
        simp only [List.flatMap_cons, List.append_eq_nil] at h3
        exact absurd h3.1 (upperChar_ne_nil c)
    exact String.ext (by rw [h4])
  · intro h
    subst h
    rfl

/-- The upper-case mapping beyond ASCII: the long s becomes `S`, `ß` becomes `SS`, `ä`
becomes `Ä`. -/
theorem toUpperCase_examples :
    toUpperCase "abc123" = "ABC123" ∧ toUpperCase "4fzyſ8" = "4FZYS8" ∧
    toUpperCase "straße" = "STRASSE" ∧ toUpperCase "äbc" = "ÄBC" := by
  refine ⟨by decide, by decide, by decide, by decide⟩

/-- Every run of `joinLobby` either is rejected (state unchanged, one error event to
the caller) or passed the four guards and appended one player to the lobby found
under the upper-cased code. -/
theorem joinLobby_cases (s : ServerState) (socket : SocketId) (now : Nat)
    (data : Option JoinData) :
    ((joinLobby s socket now data).1 = s ∧
        ∃ msg, (joinLobby s socket now data).2 = [errorTo socket msg]) ∨
    (∃ lobbyCode playerName lobby,
        data = some ⟨some lobbyCode, some playerName⟩ ∧
        lobbyCode ≠ "" ∧ playerName ≠ "" ∧
        mapGet s.lobbies (toUpperCase lobbyCode) = some lobby ∧
        (lobby.players.any (fun p => p.name == trim playerName)) = false ∧
        lobby.players.length < lobby.settings.maxPlayers ∧
        (joinLobby s socket now data).1 =
          ⟨updateLobbyActivity
              (mapSet s.lobbies (toUpperCase lobbyCode)
                { lobby with
                  players := lobby.players ++
                    [{ id := socket, name := trim playerName, isHost := false, joinedAt := now }]
                  chat := lobby.chat ++
                    [{ message := "🎉 " ++ playerName ++ " ist der Lobby beigetreten!"
                       sender := "system"
                       timestamp := now }] })
              lobbyCode now,
            mapSet s.playerLobbies socket lobbyCode⟩) := by
  cases data with
  | none => left; simp [joinLobby, errorTo]
  | some d =>
    obtain ⟨lc, pn⟩ := d
    cases lc with
    | none => left; simp [joinLobby, errorTo]
    | some lobbyCode =>
      cases pn with
      | none => left; simp [joinLobby, errorTo]
      | some playerName =>
        by_cases hc : lobbyCode = ""
        · left; simp [joinLobby, errorTo, hc]
        · by_cases hn : playerName = ""
          · left; simp [joinLobby, errorTo, hn]
          · cases hl : mapGet s.lobbies (toUpperCase lobbyCode) with
            | none => left; simp [joinLobby, errorTo, hc, hn, hl]
            | some lobby =>
              cases hdup : lobby.players.any (fun p => p.name == trim playerName) with
              | true => left; simp [joinLobby, errorTo, hc, hn, hl, hdup]
              | false =>
                by_cases hfull : lobby.players.length ≥ lobby.settings.maxPlayers
                · left; simp [joinLobby, errorTo, hc, hn, hl, hdup, hfull]
                · right
                  refine ⟨lobbyCode, playerName, lobby, rfl, hc, hn, hl, hdup,
                    Nat.lt_of_not_ge hfull, ?_⟩
                  simp [joinLobby, hc, hn, hl, hdup, hfull]


/-- Every run of `chatMessage` either is rejected (state unchanged, one error event to
the caller) or appended the message to the chat of the caller's lobby and trimmed it. -/
theorem chatMessage_cases (s : ServerState) (socket : SocketId) (now : Nat)
    (data : Option ChatData) :
    ((chatMessage s socket now data).1 = s ∧
        ∃ msg, (chatMessage s socket now data).2 = [errorTo socket msg]) ∨
    (∃ code lobby player message,
        data = some ⟨some message⟩ ∧
        mapGet s.playerLobbies socket = some code ∧ code ≠ "" ∧
        mapGet s.lobbies code = some lobby ∧
        lobby.players.find? (fun p => p.id == socket) = some player ∧
        (chatMessage s socket now data).1 =
          ⟨updateLobbyActivity
              (mapSet s.lobbies code
                { lobby with
                  chat :=
                    if (lobby.chat ++ [ChatMessage.mk (trim message) player.name now]).length
                        > 50 then
                      sliceLast 50 (lobby.chat ++ [ChatMessage.mk (trim message) player.name now])
                    else lobby.chat ++ [ChatMessage.mk (trim message) player.name now] })
              code now,
            s.playerLobbies⟩) := by
  cases data with
  | none => left; simp [chatMessage, errorTo]
  | some d =>
    obtain ⟨msg⟩ := d
    cases hm : mapGet s.playerLobbies socket with
    | none => left; simp [chatMessage, errorTo, hm]
    | some code =>
      by_cases hc : code = ""
      · left; simp [chatMessage, errorTo, hm, hc]
      · cases hl : mapGet s.lobbies code with
        | none => left; simp [chatMessage, errorTo, hm, hc, hl]
        | some lobby =>
          cases hp : lobby.players.find? (fun p => p.id == socket) with
          | none => left; simp [chatMessage, errorTo, hm, hc, hl, hp]
          | some player =>
            cases msg with
            | none => left; simp [chatMessage, errorTo, hm, hc, hl, hp]
            | some message =>
              refine Or.inr ⟨code, lobby, player, message, rfl, rfl, hc, hl, hp, ?_⟩
              simp [chatMessage, hm, hc, hl, hp]

/-- Every run of `startGame` either is rejected (state unchanged, one error event to
the caller) or passed the guards and set the lobby to `playing`. -/
theorem startGame_cases (s : ServerState) (socket : SocketId) (now : Nat)
    (data : Option StartData) :
    ((startGame s socket now data).1 = s ∧
        ∃ msg, (startGame s socket now data).2 = [errorTo socket msg]) ∨
    (∃ code lobby player,
        mapGet s.playerLobbies socket = some code ∧ code ≠ "" ∧
        mapGet s.lobbies code = some lobby ∧
        lobby.players.find? (fun p => p.id == socket) = some player ∧
        player.isHost = true ∧ 2 ≤ lobby.players.length ∧
        (startGame s socket now data).1 =
          ⟨updateLobbyActivity
              (mapSet s.lobbies code
                { lobby with
                  gameState := GameState.playing
                  chat := lobby.chat ++
                    [{ message := "🚀 Das Spiel wurde gestartet! Alle " ++
                         toString lobby.players.length ++ " Spieler nehmen teil."
                       sender := "system"
                       timestamp := now }] })
              code now,
            s.playerLobbies⟩) := by
  cases hm : mapGet s.playerLobbies socket with
  | none => left; simp [startGame, errorTo, hm]
  | some code =>
    by_cases hc : code = ""
    · left; simp [startGame, errorTo, hm, hc]
    · cases hl : mapGet s.lobbies code with
      | none => left; simp [startGame, errorTo, hm, hc, hl]
      | some lobby =>
        cases hp : lobby.players.find? (fun p => p.id == socket) with
        | none => left; simp [startGame, errorTo, hm, hc, hl, hp]
        | some player =>
          cases hh : player.isHost with
          | false => left; simp [startGame, errorTo, hm, hc, hl, hp, hh]
          | true =>
            by_cases hn : lobby.players.length < 2
            · left; simp [startGame, errorTo, hm, hc, hl, hp, hh, hn]
            · refine Or.inr ⟨code, lobby, player, rfl, hc, hl, hp, hh, Nat.le_of_not_lt hn, ?_⟩
              simp [startGame, hm, hc, hl, hp, hh, hn]

/-- Every run of `leaveLobby` is one of: nothing happens (no mapping, or an empty code);
only the caller's mapping is cleared (stale mapping); the host closes the lobby; a
member leaves. -/
theorem leaveLobby_cases (s : ServerState) (socket : SocketId) (now : Nat) :
    leaveLobby s socket now = (s, []) ∨
    leaveLobby s socket now = (⟨s.lobbies, mapDelete s.playerLobbies socket⟩, []) ∨
    (∃ code lobby player,
        mapGet s.playerLobbies socket = some code ∧ code ≠ "" ∧
        mapGet s.lobbies code = some lobby ∧
        lobby.players.find? (fun p => p.id == socket) = some player ∧
        player.isHost = true ∧
        (leaveLobby s socket now).1 =
          ⟨mapDelete s.lobbies code,
            mapDelete (lobby.players.foldl (fun m p => mapDelete m p.id) s.playerLobbies)
              socket⟩) ∨
    (∃ code lobby player,
        mapGet s.playerLobbies socket = some code ∧ code ≠ "" ∧
        mapGet s.lobbies code = some lobby ∧
        lobby.players.find? (fun p => p.id == socket) = some player ∧
        player.isHost = false ∧
        (leaveLobby s socket now).1 =
          ⟨updateLobbyActivity
              (mapSet s.lobbies code
                { lobby with
                  players := lobby.players.filter (fun p => p.id != socket)
                  chat := lobby.chat ++
                    [{ message := "🚪 " ++ player.name ++ " hat die Lobby verlassen."
                       sender := "system"
                       timestamp := now }] })
              code now,
            mapDelete s.playerLobbies socket⟩) := by
  cases hm : mapGet s.playerLobbies socket with
  | none => left; simp [leaveLobby, hm]
  | some code =>
    by_cases hc : code = ""
    · left; simp [leaveLobby, hm, hc]
    · cases hl : mapGet s.lobbies code with
      | none => right; left; simp [leaveLobby, hm, hc, hl]
      | some lobby =>
        cases hp : lobby.players.find? (fun p => p.id == socket) with
        | none => right; left; simp [leaveLobby, hm, hc, hl, hp]
        | some player =>
          cases hh : player.isHost with
          | true =>
            right; right; left
            refine ⟨code, lobby, player, rfl, hc, hl, hp, hh, ?_⟩
            simp [leaveLobby, hm, hc, hl, hp, hh]
          | false =>
            right; right; right
            refine ⟨code, lobby, player, rfl, hc, hl, hp, hh, ?_⟩
            simp [leaveLobby, hm, hc, hl, hp, hh]

/-- Every run of `createLobby` either is rejected (state unchanged, one error event to
the caller) or stores a fresh lobby under the generated code. -/
theorem createLobby_cases (s : ServerState) (socket : SocketId) (now : Nat)
    (randomText : String) (data : Option CreateData) :
    ((createLobby s socket now randomText data).1 = s ∧
        ∃ msg, (createLobby s socket now randomText data).2 = [errorTo socket msg]) ∨
    (∃ playerName,
        data = some ⟨some playerName⟩ ∧ playerName ≠ "" ∧ (trim playerName).length ≠ 0 ∧
        (createLobby s socket now randomText data).1 =
          ⟨mapSet s.lobbies (generateLobbyCode randomText)
              (createLobbyObject (generateLobbyCode randomText) socket (trim playerName) now),
            mapSet s.playerLobbies socket (generateLobbyCode randomText)⟩) := by
  cases data with
  | none => left; simp [createLobby, errorTo]
  | some d =>
    obtain ⟨pn⟩ := d
    cases pn with
    | none => left; simp [createLobby, errorTo]
    | some playerName =>
      by_cases hn : playerName = "" ∨ (trim playerName).length = 0
      · left; simp [createLobby, errorTo, hn]
      · refine Or.inr ⟨playerName, rfl, fun h => hn (Or.inl h), fun h => hn (Or.inr h), ?_⟩
        simp [createLobby, hn]


/-! ## The invariant is preserved by every step -/

theorem lobbyInv_set_update (m : JsMap Lobby) (k k2 : String) (l : Lobby) (now : Nat)
    (hm : ∀ e ∈ m, LobbyInv e.1 e.2) (hl : LobbyInv k l) :
    ∀ e ∈ updateLobbyActivity (mapSet m k l) k2 now, LobbyInv e.1 e.2 := by
  have hset : ∀ e ∈ mapSet m k l, LobbyInv e.1 e.2 := by
    intro e he
    rcases mem_mapSet m k l e he with h | h
    · exact hm e h
    · subst h; exact hl
  intro e he
  rcases mem_updateLobbyActivity _ k2 now e he with h | ⟨l0, hl0, h⟩
  · exact hset e h
  · subst h
    exact hset (k2, l0) hl0

theorem lobbyInv_of_filter (code : String) (lobby : Lobby) (f : Player → Bool)
    (chat : List ChatMessage) (h : LobbyInv code lobby) :
    LobbyInv code { lobby with players := lobby.players.filter f, chat := chat } := by
  obtain ⟨h1, h2, h3⟩ := h
  refine ⟨h1, ?_, ?_⟩
  · exact le_trans (List.length_filter_le _ _) h2
  · intro hc
    exact le_trans (List.length_filter_le _ _) (h3 hc)

theorem storeInv_createLobby (s : ServerState) (socket : SocketId) (now : Nat)
    (randomText : String) (data : Option CreateData) (hs : StoreInv s) :
    StoreInv (createLobby s socket now randomText data).1 := by
  rcases createLobby_cases s socket now randomText data with ⟨h, _⟩ | ⟨pn, _, _, _, h⟩
  · rw [h]; exact hs
  · rw [h]
    intro e he
    rcases mem_mapSet _ _ _ e he with h' | h'
    · exact hs e h'
    · subst h'
      exact ⟨rfl, by simp [createLobbyObject], fun _ => by simp [createLobbyObject]⟩

theorem storeInv_joinLobby (s : ServerState) (socket : SocketId) (now : Nat)
    (data : Option JoinData) (hs : StoreInv s) :
    StoreInv (joinLobby s socket now data).1 := by
  rcases joinLobby_cases s socket now data with
    ⟨h, _⟩ | ⟨lc, pn, lobby, _, hc, _, hl, _, hlt, h⟩
  · rw [h]; exact hs
  · rw [h]
    obtain ⟨h1, h2, _⟩ := hs _ (mem_of_mapGet _ _ _ hl)
    apply lobbyInv_set_update _ _ _ _ _ hs
    refine ⟨h1, ?_, ?_⟩
    · simp only [List.length_append, List.length_singleton]
      rw [h1] at hlt
      exact hlt
    · intro hup
      exact absurd ((toUpperCase_eq_empty lc).mp hup) hc

theorem storeInv_chatMessage (s : ServerState) (socket : SocketId) (now : Nat)
    (data : Option ChatData) (hs : StoreInv s) :
    StoreInv (chatMessage s socket now data).1 := by
  rcases chatMessage_cases s socket now data with
    ⟨h, _⟩ | ⟨code, lobby, player, message, _, _, _, hl, _, h⟩
  · rw [h]; exact hs
  · rw [h]
    exact lobbyInv_set_update _ _ _ _ _ hs (hs _ (mem_of_mapGet _ _ _ hl))

theorem storeInv_startGame (s : ServerState) (socket : SocketId) (now : Nat)
    (data : Option StartData) (hs : StoreInv s) :
    StoreInv (startGame s socket now data).1 := by
  rcases startGame_cases s socket now data with
    ⟨h, _⟩ | ⟨code, lobby, player, _, _, hl, _, _, _, h⟩
  · rw [h]; exact hs
  · rw [h]
    exact lobbyInv_set_update _ _ _ _ _ hs (hs _ (mem_of_mapGet _ _ _ hl))

theorem storeInv_kickPlayer (s : ServerState) (socket : SocketId) (now : Nat)
    (data : Option KickData) (hs : StoreInv s) :
    StoreInv (kickPlayer s socket now data).1 := by
  rcases kickPlayer_cases s socket now data with
    ⟨h, _⟩ | ⟨code, lobby, hp, pid, tp, _, _, _, hl, _, _, _, _, h⟩
  · rw [h]; exact hs
  · rw [h]
    exact lobbyInv_set_update _ _ _ _ _ hs
      (lobbyInv_of_filter _ _ _ _ (hs _ (mem_of_mapGet _ _ _ hl)))

theorem storeInv_leaveLobby (s : ServerState) (socket : SocketId) (now : Nat)
    (hs : StoreInv s) : StoreInv (leaveLobby s socket now).1 := by
  rcases leaveLobby_cases s socket now with h | h | ⟨code, lobby, p, _, _, hl, _, _, h⟩ |
    ⟨code, lobby, p, _, _, hl, _, _, h⟩
  · rw [h]; exact hs
  · rw [h]; exact hs
  · rw [h]
    intro e he
    exact hs e (mem_mapDelete _ _ e he)
  · rw [h]
    exact lobbyInv_set_update _ _ _ _ _ hs
      (lobbyInv_of_filter _ _ _ _ (hs _ (mem_of_mapGet _ _ _ hl)))

theorem storeInv_step (s : ServerState) (st : Step) (hs : StoreInv s) :
    StoreInv (step s st).1 := by
  cases st with
  | command socket now cmd =>
    cases cmd with
    | createLobby randomText data => exact storeInv_createLobby s socket now randomText data hs
    | joinLobby data => exact storeInv_joinLobby s socket now data hs
    | chatMessage data => exact storeInv_chatMessage s socket now data hs
    | startGame data => exact storeInv_startGame s socket now data hs
    | kickPlayer data => exact storeInv_kickPlayer s socket now data hs
    | leaveLobby => exact storeInv_leaveLobby s socket now hs
    | requestLobbyList => exact hs
    | disconnect =>
      show StoreInv (disconnect s socket).1
      unfold disconnect
      split <;> exact hs
  | cleanup now =>
    intro e he
    exact hs e (List.mem_filter.mp he).1

theorem storeInv_of_reachable (s : ServerState) (hs : Reachable s) : StoreInv s := by
  induction hs with
  | start => intro e he; simp [ServerState.empty] at he
  | next st _ ih => exact storeInv_step _ st ih

theorem reachable_run (s : ServerState) (steps : List Step) (hs : Reachable s) :
    Reachable (run s steps) := by
  induction steps generalizing s with
  | nil => exact hs
  | cons st rest ih => exact ih _ (Reachable.next st hs)


/-! ## C1: the player limit -/

/-- C1 (counterexample): in a reachable state, lobby `ABC123` is full and no player in it
has the empty name, yet a `joinLobby` addressed to it with the empty name is answered
with the missing-field error, not with `Lobby ist voll`. -/
theorem full_lobby_blank_name_other_error :
    Reachable fullLobbyState ∧
    (∃ lobby, mapGet fullLobbyState.lobbies (toUpperCase "ABC123") = some lobby ∧
      lobby.players.length = lobby.settings.maxPlayers ∧
      ∀ p ∈ lobby.players, p.name ≠ "" ∧ p.name ≠ trim "") ∧
    (joinLobby fullLobbyState "x" 9 (some ⟨some "ABC123", some ""⟩)).2 =
      [errorTo "x" "Lobby-Code und Spielername sind erforderlich"] ∧
    (joinLobby fullLobbyState "x" 9 (some ⟨some "ABC123", some ""⟩)).2 ≠
      [errorTo "x" "Lobby ist voll"] := by
  refine ⟨reachable_run _ _ Reachable.start, ⟨_, rfl, by decide, by decide⟩, by decide,
    by decide⟩

/-- C1 (amended): in every reachable state every lobby in the store has
`settings.maxPlayers = 8` and `players.length <= settings.maxPlayers`; and a
`joinLobby` with a non-empty name, addressed to a lobby whose `players.length` equals
`maxPlayers` and in which no player has that name (trimmed), is rejected with the
`Lobby ist voll` error and changes nothing. -/
theorem players_le_maxPlayers_and_full_rejected (s : ServerState) (hs : Reachable s) :
    (∀ code lobby, (code, lobby) ∈ s.lobbies →
      lobby.settings.maxPlayers = 8 ∧ lobby.players.length ≤ lobby.settings.maxPlayers) ∧
    (∀ (socket : SocketId) (now : Nat) (lobbyCode playerName : String) (lobby : Lobby),
      playerName ≠ "" →
      mapGet s.lobbies (toUpperCase lobbyCode) = some lobby →
      lobby.players.length = lobby.settings.maxPlayers →
      (∀ p ∈ lobby.players, p.name ≠ trim playerName) →
      joinLobby s socket now (some ⟨some lobbyCode, some playerName⟩) =
        (s, [errorTo socket "Lobby ist voll"])) := by
  have hinv := storeInv_of_reachable s hs
  constructor
  · intro code lobby hmem
    obtain ⟨h1, h2, _⟩ := hinv (code, lobby) hmem
    exact ⟨h1, by rw [h1]; exact h2⟩
  · intro socket now lobbyCode playerName lobby hn hl hfull hfresh
    obtain ⟨h1, _, h3⟩ := hinv _ (mem_of_mapGet _ _ _ hl)
    have hc : lobbyCode ≠ "" := by
      intro hc
      have := h3 ((toUpperCase_eq_empty lobbyCode).mpr hc)
      rw [hfull, h1] at this
      omega
    have hdup : (lobby.players.any (fun p => p.name == trim playerName)) = false := by
      rw [List.any_eq_false]
      intro p hp
      simpa using hfresh p hp
    simp [joinLobby, hc, hn, hl, hdup, hfull]

/-- C1 (witness): the amended claim at the full lobby `ABC123`. -/
theorem players_le_maxPlayers_and_full_rejected_witness :
    Reachable fullLobbyState ∧
    joinLobby fullLobbyState "x" 9 (some ⟨some "abc123", some "Zoe"⟩) =
      (fullLobbyState, [errorTo "x" "Lobby ist voll"]) :=
  ⟨reachable_run _ _ Reachable.start,
    (players_le_maxPlayers_and_full_rejected fullLobbyState
      (reachable_run _ _ Reachable.start)).2 "x" 9 "abc123" "Zoe"
      ((mapGet fullLobbyState.lobbies "ABC123").getD (createLobbyObject "" "" "" 0))
      (by decide) (by decide) (by decide) (by decide)⟩


/-! ## C2: the host leaves -/

/-- With a non-empty code, a host's `leaveLobby` removes the lobby from the store and
clears the reverse mapping of every connection with a player record in it. -/
theorem leaveLobby_host_closes_of_code_ne_empty (s : ServerState) (socket : SocketId)
    (now : Nat) (code : String) (lobby : Lobby) (player : Player)
    (hm : mapGet s.playerLobbies socket = some code) (hc : code ≠ "")
    (hl : mapGet s.lobbies code = some lobby)
    (hp : lobby.players.find? (fun p => p.id == socket) = some player)
    (hh : player.isHost = true) :
    mapGet (leaveLobby s socket now).1.lobbies code = none ∧
    ∀ p ∈ lobby.players, mapGet (leaveLobby s socket now).1.playerLobbies p.id = none := by
  have hst : (leaveLobby s socket now).1 =
      ⟨mapDelete s.lobbies code,
        mapDelete (lobby.players.foldl (fun m p => mapDelete m p.id) s.playerLobbies)
          socket⟩ := by
    simp [leaveLobby, hm, hc, hl, hp, hh]
  rw [hst]
  refine ⟨mapGet_mapDelete_self _ _, ?_⟩
  intro p hpm
  exact mapGet_mapDelete_of_none _ _ _ (mapGet_foldl_delete_mem _ _ p hpm)

/-- C2 (failing input): `h` created a lobby while `Math.random()` returned `0`, so the
lobby is stored under the empty code.  The reverse mapping of `h` names this live
lobby and `h` is its host, yet `leaveLobby` by `h` returns at its first guard: the
lobby stays in the store and the reverse mapping of `h` stays. -/
theorem leaveLobby_host_empty_code_stays :
    Reachable emptyCodeState ∧
    generateLobbyCode "0" = "" ∧
    mapGet emptyCodeState.playerLobbies "h" = some "" ∧
    (∃ lobby player, mapGet emptyCodeState.lobbies "" = some lobby ∧
      lobby.players.find? (fun p => p.id == "h") = some player ∧ player.isHost = true) ∧
    leaveLobby emptyCodeState "h" 2 = (emptyCodeState, []) ∧
    (mapGet (leaveLobby emptyCodeState "h" 2).1.lobbies "").isSome = true ∧
    mapGet (leaveLobby emptyCodeState "h" 2).1.playerLobbies "h" = some "" := by
  refine ⟨reachable_run _ _ Reachable.start, by decide, by decide, ⟨_, _, rfl, rfl, rfl⟩,
    by decide, by decide, by decide⟩

/-! ## C3: starting the game -/

/-- With a non-empty code, `startGame` sets the lobby to `playing` exactly when the
caller is the host and at least two players are in the lobby; otherwise nothing
changes and the caller gets the host-only error or the too-few-players error. -/
theorem startGame_of_code_ne_empty (s : ServerState) (socket : SocketId) (now : Nat)
    (data : Option StartData) (code : String) (lobby : Lobby)
    (hm : mapGet s.playerLobbies socket = some code) (hc : code ≠ "")
    (hl : mapGet s.lobbies code = some lobby) :
    (∀ player, lobby.players.find? (fun p => p.id == socket) = some player →
      player.isHost = true → 2 ≤ lobby.players.length →
      ∃ lobby2, mapGet (startGame s socket now data).1.lobbies code = some lobby2 ∧
        lobby2.gameState = GameState.playing ∧ lobby2.players = lobby.players ∧
        (startGame s socket now data).1.playerLobbies = s.playerLobbies) ∧
    ((∀ player, lobby.players.find? (fun p => p.id == socket) = some player →
        player.isHost = false) →
      startGame s socket now data =
        (s, [errorTo socket "Nur der Host kann das Spiel starten"])) ∧
    (∀ player, lobby.players.find? (fun p => p.id == socket) = some player →
      player.isHost = true → lobby.players.length < 2 →
      startGame s socket now data =
        (s, [errorTo socket "Mindestens 2 Spieler werden benötigt"])) := by
  refine ⟨?_, ?_, ?_⟩
  · intro player hp hh hn
    have hn2 : ¬ lobby.players.length < 2 := by omega
    refine ⟨{ lobby with
        gameState := GameState.playing
        chat := lobby.chat ++
          [{ message := "🚀 Das Spiel wurde gestartet! Alle " ++
               toString lobby.players.length ++ " Spieler nehmen teil."
             sender := "system"
             timestamp := now }]
        lastActivity := now }, ?_, rfl, rfl, ?_⟩
    · simp [startGame, hm, hc, hl, hp, hh, hn2, mapGet_updateLobbyActivity_self,
        mapGet_mapSet_self]
    · simp [startGame, hm, hc, hl, hp, hh, hn2]
  · intro hnot
    cases hp : lobby.players.find? (fun p => p.id == socket) with
    | none => simp [startGame, hm, hc, hl, hp]
    | some player => simp [startGame, hm, hc, hl, hp, hnot player hp]
  · intro player hp hh hn
    simp [startGame, hm, hc, hl, hp, hh, hn]

/-- C3 (failing input): `h` is the host, alone, of the live lobby stored under the empty
code.  `startGame` by `h` is answered with `Du bist in keiner Lobby`, not with the
too-few-players error. -/
theorem startGame_host_alone_empty_code :
    Reachable emptyCodeState ∧
    mapGet emptyCodeState.playerLobbies "h" = some "" ∧
    (∃ lobby player, mapGet emptyCodeState.lobbies "" = some lobby ∧
      lobby.players.find? (fun p => p.id == "h") = some player ∧ player.isHost = true ∧
      lobby.players.length = 1) ∧
    startGame emptyCodeState "h" 2 (some ⟨none⟩) =
      (emptyCodeState, [errorTo "h" "Du bist in keiner Lobby"]) ∧
    (startGame emptyCodeState "h" 2 (some ⟨none⟩)).2 ≠
      [errorTo "h" "Mindestens 2 Spieler werden benötigt"] := by
  refine ⟨reachable_run _ _ Reachable.start, by decide, ⟨_, _, rfl, rfl, rfl, rfl⟩,
    by decide, by decide⟩


/-! ## C4: kicking a player -/

theorem two_le_length_of_mem_ne {α : Type} (l : List α) (a b : α) (ha : a ∈ l) (hb : b ∈ l)
    (hab : a ≠ b) : 2 ≤ l.length := by
  match l, ha, hb with
  | [x], ha, hb =>
    simp only [List.mem_singleton] at ha hb
    exact absurd (ha.trans hb.symm) hab
  | _ :: _ :: _, _, _ => simp

/-- C4 (counterexample): connection `m` joined lobby `ABC123` twice under two names, so
two non-host player records carry its id.  When the host kicks `m`, both records are
removed: the lobby goes from three player records to one. -/
theorem kickPlayer_removes_two_records :
    Reachable joinedTwiceState ∧
    mapGet joinedTwiceState.playerLobbies "h" = some "ABC123" ∧
    (∃ lobby hostPlayer targetPlayer,
      mapGet joinedTwiceState.lobbies "ABC123" = some lobby ∧
      lobby.players.find? (fun p => p.id == "h") = some hostPlayer ∧
      hostPlayer.isHost = true ∧
      lobby.players.find? (fun p => p.id == "m") = some targetPlayer ∧
      targetPlayer.isHost = false ∧
      lobby.players.length = 3) ∧
    (∃ lobby2,
      mapGet (kickPlayer joinedTwiceState "h" 4 (some ⟨some "m"⟩)).1.lobbies "ABC123" =
        some lobby2 ∧
      lobby2.players.length = 1) := by
  refine ⟨reachable_run _ _ Reachable.start, by decide, ⟨_, _, _, rfl, rfl, rfl, rfl, rfl, rfl⟩,
    ⟨_, rfl, rfl⟩⟩

/-- C4 (amended): in every reachable state in which the host of a lobby kicks an id
whose player record in the lobby is not the host, the lobby's players become the
former players without the records carrying that id, all other records unchanged and
in the same order (exactly one record goes when the id occurs once); every other
lobby is unchanged; the target's reverse mapping is removed and no other reverse
mapping changes. -/
theorem kickPlayer_removes_target_only (s : ServerState) (hs : Reachable s)
    (socket : SocketId) (now : Nat) (playerId code : String) (lobby : Lobby)
    (hostPlayer targetPlayer : Player)
    (hm : mapGet s.playerLobbies socket = some code)
    (hl : mapGet s.lobbies code = some lobby)
    (hh : lobby.players.find? (fun p => p.id == socket) = some hostPlayer)
    (hhost : hostPlayer.isHost = true)
    (ht : lobby.players.find? (fun p => p.id == playerId) = some targetPlayer)
    (htarget : targetPlayer.isHost = false) :
    (∃ lobby2, mapGet (kickPlayer s socket now (some ⟨some playerId⟩)).1.lobbies code =
        some lobby2 ∧
      lobby2.players = lobby.players.filter (fun p => p.id != playerId) ∧
      lobby2.players.length + (lobby.players.filter (fun p => p.id == playerId)).length =
        lobby.players.length) ∧
    (∀ code2, code2 ≠ code →
      mapGet (kickPlayer s socket now (some ⟨some playerId⟩)).1.lobbies code2 =
        mapGet s.lobbies code2) ∧
    mapGet (kickPlayer s socket now (some ⟨some playerId⟩)).1.playerLobbies playerId = none ∧
    (∀ other, other ≠ playerId →
      mapGet (kickPlayer s socket now (some ⟨some playerId⟩)).1.playerLobbies other =
        mapGet s.playerLobbies other) := by
  have hc : code ≠ "" := by
    intro hc
    obtain ⟨_, _, h3⟩ := storeInv_of_reachable s hs _ (mem_of_mapGet _ _ _ hl)
    have hne : hostPlayer ≠ targetPlayer := by
      intro heq
      rw [heq, htarget] at hhost
      exact Bool.noConfusion hhost
    have := two_le_length_of_mem_ne lobby.players hostPlayer targetPlayer
      (List.mem_of_find?_eq_some hh) (List.mem_of_find?_eq_some ht) hne
    have h4 : lobby.players.length ≤ 1 := h3 hc
    omega
  have hst : (kickPlayer s socket now (some ⟨some playerId⟩)).1 =
      ⟨updateLobbyActivity
          (mapSet s.lobbies code
            { lobby with
              players := lobby.players.filter (fun p => p.id != playerId)
              chat := lobby.chat ++
                [{ message := "🚫 " ++ targetPlayer.name ++ " wurde aus der Lobby entfernt."
                   sender := "system"
                   timestamp := now }] })
          code now,
        mapDelete s.playerLobbies playerId⟩ := by
    simp [kickPlayer, hm, hc, hl, hh, hhost, ht, htarget]
  rw [hst]
  refine ⟨⟨{ lobby with
      players := lobby.players.filter (fun p => p.id != playerId)
      chat := lobby.chat ++
        [{ message := "🚫 " ++ targetPlayer.name ++ " wurde aus der Lobby entfernt."
           sender := "system"
           timestamp := now }]
      lastActivity := now }, ?_, rfl, ?_⟩, ?_, mapGet_mapDelete_self _ _, ?_⟩
  · simp only [mapGet_updateLobbyActivity_self, mapGet_mapSet_self, Option.map_some']
  · have hsplit := List.length_eq_length_filter_add (l := lobby.players)
      (fun p => p.id != playerId)
    have hneg : (fun p : Player => !(p.id != playerId)) = (fun p => p.id == playerId) := by
      funext p; simp [bne]
    rw [hneg] at hsplit
    exact hsplit.symm
  · intro code2 hne
    rw [mapGet_updateLobbyActivity_ne _ _ _ _ hne, mapGet_mapSet_ne _ _ _ _ hne]
  · intro other hne
    exact mapGet_mapDelete_ne _ _ _ hne

/-- C4 (witness): the amended claim when the host of `ABC123` kicks `m`, who joined
once. -/
theorem kickPlayer_removes_target_only_witness :
    Reachable twoPlayerState ∧
    mapGet (kickPlayer twoPlayerState "h" 4 (some ⟨some "m"⟩)).1.playerLobbies "m" = none ∧
    mapGet (kickPlayer twoPlayerState "h" 4 (some ⟨some "m"⟩)).1.playerLobbies "h" =
      mapGet twoPlayerState.playerLobbies "h" :=
  have h := kickPlayer_removes_target_only twoPlayerState (reachable_run _ _ Reachable.start)
    "h" 4 "m" "ABC123"
    ((mapGet twoPlayerState.lobbies "ABC123").getD (createLobbyObject "" "" "" 0))
    ⟨"h", "Anna", true, 1⟩ ⟨"m", "Ben", false, 2⟩
    (by decide) (by decide) (by decide) (by decide) (by decide) (by decide)
  ⟨reachable_run _ _ Reachable.start, h.2.2.1, h.2.2.2 "h" (by decide)⟩


theorem leaveLobby_of_unmapped (s : ServerState) (socket : SocketId) (now : Nat)
    (h : mapGet s.playerLobbies socket = none) : leaveLobby s socket now = (s, []) := by
  simp [leaveLobby, h]

theorem leaveLobby_of_empty_code (s : ServerState) (socket : SocketId) (now : Nat)
    (h : mapGet s.playerLobbies socket = some "") : leaveLobby s socket now = (s, []) := by
  simp [leaveLobby, h]

/-- Past the first guard, `leaveLobby` always clears the caller's reverse mapping. -/
theorem leaveLobby_clears_caller (s : ServerState) (socket : SocketId) (now : Nat)
    (code : String) (hm : mapGet s.playerLobbies socket = some code) (hc : code ≠ "") :
    mapGet (leaveLobby s socket now).1.playerLobbies socket = none := by
  cases hl : mapGet s.lobbies code with
  | none => simp [leaveLobby, hm, hc, hl, mapGet_mapDelete_self]
  | some lobby =>
    cases hp : lobby.players.find? (fun p => p.id == socket) with
    | none => simp [leaveLobby, hm, hc, hl, hp, mapGet_mapDelete_self]
    | some player =>
      cases hh : player.isHost with
      | true => simp [leaveLobby, hm, hc, hl, hp, hh, mapGet_mapDelete_self]
      | false => simp [leaveLobby, hm, hc, hl, hp, hh, mapGet_mapDelete_self]

/-- C6: `leaveLobby` is idempotent per connection: a second `leaveLobby` by the same
connection leaves the lobby store and the reverse mapping as the first one left them,
and emits no event at all. -/
theorem leaveLobby_idempotent (s : ServerState) (socket : SocketId) (now now2 : Nat) :
    (leaveLobby (leaveLobby s socket now).1 socket now2).1 = (leaveLobby s socket now).1 ∧
    (leaveLobby (leaveLobby s socket now).1 socket now2).2 = [] := by
  cases hm : mapGet s.playerLobbies socket with
  | none =>
    rw [leaveLobby_of_unmapped s socket now hm]
    simp [leaveLobby_of_unmapped s socket now2 hm]
  | some code =>
    by_cases hc : code = ""
    · subst hc
      rw [leaveLobby_of_empty_code s socket now hm]
      simp [leaveLobby_of_empty_code s socket now2 hm]
    · have h := leaveLobby_clears_caller s socket now code hm hc
      simp [leaveLobby_of_unmapped _ socket now2 h]

/-- C5: a `kickPlayer` request made by a connection that is not the host of its lobby,
or that targets the host, or that targets an id without player record in the
requester's lobby, leaves the lobby store and the reverse mapping unchanged and emits
exactly one event, an `error` to the requester. -/
theorem kickPlayer_rejected_unchanged (s : ServerState) (socket : SocketId) (now : Nat)
    (data : Option KickData)
    (h : (¬ ∃ code lobby p, mapGet s.playerLobbies socket = some code ∧
            mapGet s.lobbies code = some lobby ∧
            lobby.players.find? (fun q => q.id == socket) = some p ∧ p.isHost = true) ∨
         (∃ code lobby playerId p, data = some ⟨some playerId⟩ ∧
            mapGet s.playerLobbies socket = some code ∧
            mapGet s.lobbies code = some lobby ∧
            lobby.players.find? (fun q => q.id == playerId) = some p ∧ p.isHost = true) ∨
         (∃ code lobby playerId, data = some ⟨some playerId⟩ ∧
            mapGet s.playerLobbies socket = some code ∧
            mapGet s.lobbies code = some lobby ∧
            ∀ p ∈ lobby.players, p.id ≠ playerId)) :
    (kickPlayer s socket now data).1 = s ∧
      ∃ msg, (kickPlayer s socket now data).2 = [errorTo socket msg] := by
  rcases kickPlayer_cases s socket now data with hrej | hok
  · exact hrej
  · obtain ⟨code, lobby, hostPlayer, playerId, targetPlayer, hd, hm, _, hl, hh, hhost, ht,
      htarget, _⟩ := hok
    exfalso
    rcases h with h | h | h
    · exact h ⟨code, lobby, hostPlayer, hm, hl, hh, hhost⟩
    · obtain ⟨code2, lobby2, playerId2, p, hd2, hm2, hl2, hp, hph⟩ := h
      rw [hd] at hd2
      rw [hm] at hm2
      simp only [Option.some.injEq, KickData.mk.injEq] at hd2 hm2
      subst hd2 hm2
      rw [hl] at hl2
      simp only [Option.some.injEq] at hl2
      subst hl2
      rw [ht] at hp
      simp only [Option.some.injEq] at hp
      subst hp
      rw [htarget] at hph
      exact Bool.noConfusion hph
    · obtain ⟨code2, lobby2, playerId2, hd2, hm2, hl2, hnone⟩ := h
      rw [hd] at hd2
      rw [hm] at hm2
      simp only [Option.some.injEq, KickData.mk.injEq] at hd2 hm2
      subst hd2 hm2
      rw [hl] at hl2
      simp only [Option.some.injEq] at hl2
      subst hl2
      have hmem := List.mem_of_find?_eq_some ht
      have hid := List.find?_some ht
      simp only [beq_iff_eq] at hid
      exact hnone targetPlayer hmem hid


/-- C5 (witness): member `m` of lobby `ABC123` asks to kick the host `h`. -/
theorem kickPlayer_rejected_unchanged_witness :
    (∃ player, (mapGet twoPlayerState.lobbies "ABC123").bind
        (fun lobby => lobby.players.find? (fun q => q.id == "h")) = some player ∧
      player.isHost = true) ∧
    (kickPlayer twoPlayerState "m" 5 (some ⟨some "h"⟩)).1 = twoPlayerState ∧
    ∃ msg, (kickPlayer twoPlayerState "m" 5 (some ⟨some "h"⟩)).2 = [errorTo "m" msg] :=
  ⟨⟨_, rfl, rfl⟩,
    kickPlayer_rejected_unchanged twoPlayerState "m" 5 (some ⟨some "h"⟩)
      (Or.inr (Or.inl ⟨"ABC123", _, "h", _, rfl, by decide, rfl, rfl, rfl⟩))⟩


/-! ## C7: the chat bound -/

set_option maxRecDepth 100000 in
/-- C7 (failing input): `h` creates lobby `ABC123`, then `m` joins and leaves it 25 times.
Each join and each leave appends a system notice and none of the two handlers trims
the chat (only `chatMessage` does), so the chat of the live lobby holds 51 entries. -/
theorem chat_exceeds_fifty_after_notices :
    Reachable manyNoticesState ∧
    (mapGet manyNoticesState.lobbies "ABC123").map (fun lobby => lobby.chat.length) =
      some 51 := by
  refine ⟨reachable_run _ _ Reachable.start, by decide⟩

/-! ## C8: the code of a new lobby -/

/-- C8 (counterexample): lobby `ABC123` of host `h` is live and the code generator
returns `ABC123` again for a `createLobby` by `h2`.  The call succeeds, and the lobby
stored under `ABC123` is now the new one: the lobby of `h` is no longer in the store. -/
theorem createLobby_overwrites_live_lobby :
    Reachable oneLobbyState ∧
    (mapGet oneLobbyState.lobbies "ABC123").map (fun lobby => lobby.hostId) = some "h" ∧
    generateLobbyCode "0.abc123xyz" = "ABC123" ∧
    (∃ lobby, (createLobby oneLobbyState "h2" 5 "0.abc123xyz" (some ⟨some "Ben"⟩)).2 =
      [⟨Target.socket "h2", "lobbyCreated", Payload.lobbyCreated "ABC123" lobby true⟩,
       ⟨Target.all, "lobbyStats", Payload.lobbyStats 1 1⟩]) ∧
    (mapGet (createLobby oneLobbyState "h2" 5 "0.abc123xyz" (some ⟨some "Ben"⟩)).1.lobbies
        "ABC123").map (fun lobby => lobby.hostId) = some "h2" ∧
    (createLobby oneLobbyState "h2" 5 "0.abc123xyz" (some ⟨some "Ben"⟩)).1.lobbies.all
      (fun e => e.2.hostId != "h") = true := by
  refine ⟨reachable_run _ _ Reachable.start, by decide, by decide, ⟨_, rfl⟩, by decide,
    by decide⟩

/-- C8 (amended): `createLobby` does not look for a collision.  After a successful
`createLobby` the new lobby is stored under the generated code and the caller is
mapped to that code; every lobby that was live under a different code is still in the
store, unchanged, under its code; a lobby that was live under the generated code has
been replaced by the new one. -/
theorem createLobby_stores_under_generated_code (s : ServerState) (socket : SocketId)
    (now : Nat) (randomText playerName : String) (hn : (trim playerName).length ≠ 0) :
    mapGet (createLobby s socket now randomText (some ⟨some playerName⟩)).1.lobbies
        (generateLobbyCode randomText) =
      some (createLobbyObject (generateLobbyCode randomText) socket (trim playerName) now) ∧
    mapGet (createLobby s socket now randomText (some ⟨some playerName⟩)).1.playerLobbies
        socket = some (generateLobbyCode randomText) ∧
    (∀ code, code ≠ generateLobbyCode randomText →
      mapGet (createLobby s socket now randomText (some ⟨some playerName⟩)).1.lobbies code =
        mapGet s.lobbies code) := by
  have hne : playerName ≠ "" := by
    intro h
    subst h
    exact hn rfl
  have hst : (createLobby s socket now randomText (some ⟨some playerName⟩)).1 =
      ⟨mapSet s.lobbies (generateLobbyCode randomText)
          (createLobbyObject (generateLobbyCode randomText) socket (trim playerName) now),
        mapSet s.playerLobbies socket (generateLobbyCode randomText)⟩ := by
    simp [createLobby, hne, hn]
  rw [hst]
  exact ⟨mapGet_mapSet_self _ _ _, mapGet_mapSet_self _ _ _,
    fun code hc => mapGet_mapSet_ne _ _ _ _ hc⟩

/-- C8 (witness): the amended claim for a `createLobby` by `h2` next to the live lobby
`ABC123`, with a generated code `XYZ789`. -/
theorem createLobby_stores_under_generated_code_witness :
    (trim "Ben").length ≠ 0 ∧
    mapGet (createLobby oneLobbyState "h2" 5 "0.xyz789" (some ⟨some "Ben"⟩)).1.lobbies
        "ABC123" = mapGet oneLobbyState.lobbies "ABC123" :=
  ⟨by decide,
    (createLobby_stores_under_generated_code oneLobbyState "h2" 5 "0.xyz789" "Ben"
      (by decide)).2.2 "ABC123" (by decide)⟩

/-! ## C9: disconnect -/

/-- The `disconnect` handler never changes the two maps. -/
theorem disconnect_state (s : ServerState) (socket : SocketId) : (disconnect s socket).1 = s := by
  unfold disconnect
  split <;> rfl

/-- C9 (failing input): host `h` of the live lobby `ABC123` disconnects.  The handler
only emits a `leaveLobby` event on the socket; the lobby and the reverse mapping stay,
whereas `leaveLobby` by `h` removes both. -/
theorem disconnect_host_keeps_lobby :
    Reachable oneLobbyState ∧
    disconnect oneLobbyState "h" =
      (oneLobbyState, [⟨Target.socket "h", "leaveLobby", Payload.none⟩]) ∧
    (mapGet (disconnect oneLobbyState "h").1.lobbies "ABC123").isSome = true ∧
    mapGet (disconnect oneLobbyState "h").1.playerLobbies "h" = some "ABC123" ∧
    (leaveLobby oneLobbyState "h" 2).1 = ⟨[], []⟩ ∧
    (disconnect oneLobbyState "h").1 ≠ (leaveLobby oneLobbyState "h" 2).1 := by
  refine ⟨reachable_run _ _ Reachable.start, by decide, by decide, by decide, by decide,
    by decide⟩

/-! ## C10: lower-case lobby codes -/

/-- C10 (failing input): lobby `ABC123` is live (last activity at time 1) and `m` joins
with the code `abc123` at time 2.  The join succeeds and adds `m` to lobby `ABC123`, but
the reverse mapping records `abc123`, the `lobbyJoined` event reports `abc123`, the
`lobbyUpdated` event goes to room `abc123`, `lastActivity` of the lobby is still 1, and
a following `chatMessage` by `m` is rejected with `Lobby nicht gefunden`. -/
theorem joinLobby_lowercase_code_recorded_raw :
    Reachable oneLobbyState ∧
    toUpperCase "abc123" = "ABC123" ∧
    (mapGet oneLobbyState.lobbies "ABC123").map (fun lobby => lobby.lastActivity) = some 1 ∧
    (mapGet (joinLobby oneLobbyState "m" 2 (some ⟨some "abc123", some "Ben"⟩)).1.lobbies
        "ABC123").map (fun lobby => lobby.players.map (fun p => p.id)) = some ["h", "m"] ∧
    mapGet (joinLobby oneLobbyState "m" 2 (some ⟨some "abc123", some "Ben"⟩)).1.playerLobbies
        "m" = some "abc123" ∧
    (∃ lobby, (joinLobby oneLobbyState "m" 2 (some ⟨some "abc123", some "Ben"⟩)).2 =
      [⟨Target.socket "m", "lobbyJoined", Payload.lobbyJoined "abc123" lobby false⟩,
       ⟨Target.room "abc123", "lobbyUpdated", Payload.lobby lobby⟩,
       ⟨Target.all, "lobbyStats", Payload.lobbyStats 1 2⟩]) ∧
    (mapGet (joinLobby oneLobbyState "m" 2 (some ⟨some "abc123", some "Ben"⟩)).1.lobbies
        "ABC123").map (fun lobby => lobby.lastActivity) = some 1 ∧
    chatMessage (joinLobby oneLobbyState "m" 2 (some ⟨some "abc123", some "Ben"⟩)).1 "m" 3
        (some ⟨some "Hallo"⟩) =
      ((joinLobby oneLobbyState "m" 2 (some ⟨some "abc123", some "Ben"⟩)).1,
        [errorTo "m" "Lobby nicht gefunden"]) := by
  refine ⟨reachable_run _ _ Reachable.start, by decide, by decide, by decide, by decide,
    ⟨_, rfl⟩, by decide, by decide⟩


/-! ## Invariants of the stored lobbies, in general -/

/-- A property of the stored lobbies that holds of a new lobby and survives each of the
five ways in which a handler changes a lobby (a player is appended, the chat or the game
state changes, the records of one non-host id are filtered out, the activity time is
set) holds after every step. -/
theorem step_preserves_lobbies (P : String → Lobby → Prop)
    (hfresh : ∀ code socket name now, P code (createLobbyObject code socket name now))
    (hjoin : ∀ code lobby socket name now msg, P code lobby → code ≠ "" →
      lobby.players.any (fun p => p.name == name) = false →
      lobby.players.length < lobby.settings.maxPlayers →
      P code { lobby with
        players := lobby.players ++ [{ id := socket, name := name, isHost := false, joinedAt := now }]
        chat := lobby.chat ++ [msg] })
    (hchat : ∀ code lobby chat gameState, P code lobby →
      P code { lobby with chat := chat, gameState := gameState })
    (hfilter : ∀ code lobby id target chat, P code lobby →
      lobby.players.find? (fun p => p.id == id) = some target → target.isHost = false →
      P code { lobby with players := lobby.players.filter (fun p => p.id != id), chat := chat })
    (hact : ∀ code lobby now, P code lobby → P code { lobby with lastActivity := now })
    (s : ServerState) (st : Step) (hs : ∀ e ∈ s.lobbies, P e.1 e.2) :
    ∀ e ∈ (step s st).1.lobbies, P e.1 e.2 := by
  have hupd : ∀ (k k2 : String) (l : Lobby) (now : Nat), P k l →
      ∀ e ∈ updateLobbyActivity (mapSet s.lobbies k l) k2 now, P e.1 e.2 := by
    intro k k2 l now hl
    have hset : ∀ e ∈ mapSet s.lobbies k l, P e.1 e.2 := by
      intro e he
      rcases mem_mapSet s.lobbies k l e he with h | h
      · exact hs e h
      · subst h; exact hl
    intro e he
    rcases mem_updateLobbyActivity _ k2 now e he with h | ⟨l0, hl0, h⟩
    · exact hset e h
    · subst h
      exact hact k2 l0 now (hset (k2, l0) hl0)
  cases st with
  | command socket now cmd =>
    cases cmd with
    | createLobby randomText data =>
      show ∀ e ∈ (createLobby s socket now randomText data).1.lobbies, P e.1 e.2
      rcases createLobby_cases s socket now randomText data with ⟨h, _⟩ | ⟨pn, _, _, _, h⟩
      · rw [h]; exact hs
      · rw [h]
        intro e he
        rcases mem_mapSet _ _ _ e he with h' | h'
        · exact hs e h'
        · subst h'
          exact hfresh _ _ _ _
    | joinLobby data =>
      show ∀ e ∈ (joinLobby s socket now data).1.lobbies, P e.1 e.2
      rcases joinLobby_cases s socket now data with
        ⟨h, _⟩ | ⟨lc, pn, lobby, _, hc, _, hl, hdup, hlt, h⟩
      · rw [h]; exact hs
      · rw [h]
        apply hupd
        exact hjoin _ lobby socket (trim pn) now _ (hs _ (mem_of_mapGet _ _ _ hl))
          (fun hup => hc ((toUpperCase_eq_empty lc).mp hup)) hdup hlt
    | chatMessage data =>
      show ∀ e ∈ (chatMessage s socket now data).1.lobbies, P e.1 e.2
      rcases chatMessage_cases s socket now data with
        ⟨h, _⟩ | ⟨code, lobby, player, message, _, _, _, hl, _, h⟩
      · rw [h]; exact hs
      · rw [h]
        apply hupd
        exact hchat code lobby _ lobby.gameState (hs _ (mem_of_mapGet _ _ _ hl))
    | startGame data =>
      show ∀ e ∈ (startGame s socket now data).1.lobbies, P e.1 e.2
      rcases startGame_cases s socket now data with
        ⟨h, _⟩ | ⟨code, lobby, player, _, _, hl, _, _, _, h⟩
      · rw [h]; exact hs
      · rw [h]
        apply hupd
        exact hchat code lobby _ GameState.playing (hs _ (mem_of_mapGet _ _ _ hl))
    | kickPlayer data =>
      show ∀ e ∈ (kickPlayer s socket now data).1.lobbies, P e.1 e.2
      rcases kickPlayer_cases s socket now data with
        ⟨h, _⟩ | ⟨code, lobby, hp, pid, tp, _, _, _, hl, _, _, ht, htarget, h⟩
      · rw [h]; exact hs
      · rw [h]
        apply hupd
        exact hfilter code lobby pid tp _ (hs _ (mem_of_mapGet _ _ _ hl)) ht htarget
    | leaveLobby =>
      show ∀ e ∈ (leaveLobby s socket now).1.lobbies, P e.1 e.2
      rcases leaveLobby_cases s socket now with h | h | ⟨code, lobby, p, _, _, hl, _, _, h⟩ |
        ⟨code, lobby, p, _, _, hl, hp, hnh, h⟩
      · rw [h]; exact hs
      · rw [h]; exact hs
      · rw [h]
        intro e he
        exact hs e (mem_mapDelete _ _ e he)
      · rw [h]
        apply hupd
        exact hfilter code lobby socket p _ (hs _ (mem_of_mapGet _ _ _ hl)) hp hnh
    | requestLobbyList => exact hs
    | disconnect =>
      show ∀ e ∈ (disconnect s socket).1.lobbies, P e.1 e.2
      rw [disconnect_state]
      exact hs
  | cleanup now =>
    intro e he
    exact hs e (List.mem_filter.mp he).1


/-! ## C11: the host record -/

theorem hostInv_filter (lobby : Lobby) (pid : String) (target : Player)
    (chat : List ChatMessage) (h : HostInv lobby)
    (ht : lobby.players.find? (fun p => p.id == pid) = some target)
    (hnh : target.isHost = false) :
    HostInv { lobby with players := lobby.players.filter (fun p => p.id != pid), chat := chat } ∧
    (lobby.players.filter (fun p => p.id != pid)).head? = lobby.players.head? := by
  obtain ⟨hostRecord, rest, hp, hh, hid, hrest⟩ := h
  have hne : (hostRecord.id == pid) = false := by
    cases hb : hostRecord.id == pid with
    | false => rfl
    | true =>
      rw [hp] at ht
      simp only [List.find?_cons, hb, Option.some.injEq] at ht
      subst ht
      rw [hh] at hnh
      exact Bool.noConfusion hnh
  have hkeep : lobby.players.filter (fun p => p.id != pid) =
      hostRecord :: rest.filter (fun p => p.id != pid) := by
    rw [hp, List.filter_cons_of_pos]
    simp [bne, hne]
  refine ⟨⟨hostRecord, rest.filter (fun p => p.id != pid), hkeep, hh, hid, ?_⟩, ?_⟩
  · intro p hpm
    exact hrest p (List.mem_filter.mp hpm).1
  · rw [hkeep, hp]
    rfl

theorem hostInv_step (s : ServerState) (st : Step) (hs : ∀ e ∈ s.lobbies, HostInv e.2) :
    ∀ e ∈ (step s st).1.lobbies, HostInv e.2 := by
  apply step_preserves_lobbies (fun _ lobby => HostInv lobby) _ _ _ _ _ s st hs
  · intro code socket name now
    exact ⟨_, [], rfl, rfl, rfl, by simp⟩
  · intro code lobby socket name now msg h _ _ _
    obtain ⟨hostRecord, rest, hp, hh, hid, hrest⟩ := h
    refine ⟨hostRecord, rest ++ [⟨socket, name, false, now⟩], ?_, hh, hid, ?_⟩
    · show lobby.players ++ _ = _
      rw [hp]
      rfl
    · intro p hpm
      rcases List.mem_append.mp hpm with h1 | h1
      · exact hrest p h1
      · simp only [List.mem_singleton] at h1
        subst h1
        rfl
  · intro code lobby chat gameState h
    exact h
  · intro code lobby pid target chat h ht hnh
    exact (hostInv_filter lobby pid target chat h ht hnh).1
  · intro code lobby now h
    exact h

theorem hostInv_of_reachable (s : ServerState) (hs : Reachable s) :
    ∀ e ∈ s.lobbies, HostInv e.2 := by
  induction hs with
  | start => intro e he; simp [ServerState.empty] at he
  | next st _ ih => exact hostInv_step _ st ih

/-- What a handler does to the lobby it found under `k` and then stored back relates
every lobby in the map afterwards to a lobby that was in the map under the same code. -/
theorem rel_set_update (R : Lobby → Lobby → Prop) (hrefl : ∀ l, R l l)
    (hact : ∀ l l2 now, R l l2 → R l { l2 with lastActivity := now })
    (m : JsMap Lobby) (k k2 : String) (l l1 : Lobby) (now : Nat)
    (hl : mapGet m k = some l) (hR : R l l1) :
    ∀ e ∈ updateLobbyActivity (mapSet m k l1) k2 now, ∃ l0, (e.1, l0) ∈ m ∧ R l0 e.2 := by
  have hset : ∀ e ∈ mapSet m k l1, ∃ l0, (e.1, l0) ∈ m ∧ R l0 e.2 := by
    intro e he
    rcases mem_mapSet m k l1 e he with h | h
    · exact ⟨e.2, h, hrefl _⟩
    · subst h
      exact ⟨l, mem_of_mapGet _ _ _ hl, hR⟩
  intro e he
  rcases mem_updateLobbyActivity _ k2 now e he with h | ⟨l0, hl0, h⟩
  · exact hset e h
  · subst h
    obtain ⟨l00, hmem, hr⟩ := hset (k2, l0) hl0
    exact ⟨l00, hmem, hact _ _ _ hr⟩

/-- C11: in every reachable state every lobby in the store has exactly one player record
with `isHost = true`; it is the first record, its id is the lobby's `hostId`, and so
`players` is not empty.  No step removes or reassigns it: every lobby in the store
after a step is either the lobby that this step created with `createLobby`, or a lobby
that was in the store under the same code before the step, with the same `hostId` and
the same first (host) record. -/
theorem host_record_unique_and_kept (s : ServerState) (hs : Reachable s) :
    (∀ e ∈ s.lobbies, ∃ hostRecord,
      e.2.players.filter (fun p => p.isHost) = [hostRecord] ∧
      e.2.players.head? = some hostRecord ∧
      hostRecord.id = e.2.hostId ∧ e.2.players ≠ []) ∧
    (∀ (st : Step), ∀ e ∈ (step s st).1.lobbies,
      (∃ lobby, (e.1, lobby) ∈ s.lobbies ∧ e.2.hostId = lobby.hostId ∧
        e.2.players.head? = lobby.players.head?) ∨
      (∃ socket now randomText name,
        st = Step.command socket now (Command.createLobby randomText (some ⟨some name⟩)) ∧
        e = (generateLobbyCode randomText,
          createLobbyObject (generateLobbyCode randomText) socket (trim name) now))) := by
  have hinv := hostInv_of_reachable s hs
  constructor
  · intro e he
    obtain ⟨hostRecord, rest, hp, hh, hid, hrest⟩ := hinv e he
    refine ⟨hostRecord, ?_, ?_, hid, ?_⟩
    · rw [hp, List.filter_cons_of_pos hh]
      congr 1
      rw [List.filter_eq_nil_iff]
      intro p hpm
      simp [hrest p hpm]
    · rw [hp]; rfl
    · rw [hp]; simp
  · intro st e he
    have hsame : ∀ e ∈ s.lobbies, ∃ lobby, (e.1, lobby) ∈ s.lobbies ∧
        e.2.hostId = lobby.hostId ∧ e.2.players.head? = lobby.players.head? :=
      fun e he => ⟨e.2, he, rfl, rfl⟩
    have hupd := rel_set_update
      (fun l l2 => l2.hostId = l.hostId ∧ l2.players.head? = l.players.head?)
      (fun _ => ⟨rfl, rfl⟩) (fun _ _ _ h => h) s.lobbies
    cases st with
    | command socket now cmd =>
      cases cmd with
      | createLobby randomText data =>
        change e ∈ (createLobby s socket now randomText data).1.lobbies at he
        rcases createLobby_cases s socket now randomText data with ⟨h, _⟩ | ⟨pn, hd, _, _, h⟩
        · rw [h] at he; exact Or.inl (hsame e he)
        · rw [h] at he
          rcases mem_mapSet _ _ _ e he with h2 | h2
          · exact Or.inl (hsame e h2)
          · exact Or.inr ⟨socket, now, randomText, pn, by rw [hd], h2⟩
      | joinLobby data =>
        change e ∈ (joinLobby s socket now data).1.lobbies at he
        rcases joinLobby_cases s socket now data with
          ⟨h, _⟩ | ⟨lc, pn, lobby, _, _, _, hl, _, _, h⟩
        · rw [h] at he; exact Or.inl (hsame e he)
        · rw [h] at he
          obtain ⟨hostRecord, rest, hp, _⟩ := hinv _ (mem_of_mapGet _ _ _ hl)
          refine Or.inl (hupd _ _ lobby _ now hl ?_ e he)
          refine ⟨rfl, ?_⟩
          show (lobby.players ++ _).head? = lobby.players.head?
          rw [hp]; rfl
      | chatMessage data =>
        change e ∈ (chatMessage s socket now data).1.lobbies at he
        rcases chatMessage_cases s socket now data with
          ⟨h, _⟩ | ⟨code, lobby, player, message, _, _, _, hl, _, h⟩
        · rw [h] at he; exact Or.inl (hsame e he)
        · rw [h] at he
          refine Or.inl (hupd _ _ lobby _ now hl ?_ e he)
          exact ⟨rfl, rfl⟩
      | startGame data =>
        change e ∈ (startGame s socket now data).1.lobbies at he
        rcases startGame_cases s socket now data with
          ⟨h, _⟩ | ⟨code, lobby, player, _, _, hl, _, _, _, h⟩
        · rw [h] at he; exact Or.inl (hsame e he)
        · rw [h] at he
          refine Or.inl (hupd _ _ lobby _ now hl ?_ e he)
          exact ⟨rfl, rfl⟩
      | kickPlayer data =>
        change e ∈ (kickPlayer s socket now data).1.lobbies at he
        rcases kickPlayer_cases s socket now data with
          ⟨h, _⟩ | ⟨code, lobby, hp, pid, tp, _, _, _, hl, _, _, ht, htarget, h⟩
        · rw [h] at he; exact Or.inl (hsame e he)
        · rw [h] at he
          refine Or.inl (hupd _ _ lobby _ now hl ?_ e he)
          exact ⟨rfl,
            (hostInv_filter lobby pid tp [] (hinv _ (mem_of_mapGet _ _ _ hl)) ht htarget).2⟩
      | leaveLobby =>
        change e ∈ (leaveLobby s socket now).1.lobbies at he
        rcases leaveLobby_cases s socket now with h | h | ⟨code, lobby, p, _, _, hl, _, _, h⟩ |
          ⟨code, lobby, p, _, _, hl, hp, hnh, h⟩
        · rw [h] at he; exact Or.inl (hsame e he)
        · rw [h] at he; exact Or.inl (hsame e he)
        · rw [h] at he
          exact Or.inl (hsame e (mem_mapDelete _ _ e he))
        · rw [h] at he
          refine Or.inl (hupd _ _ lobby _ now hl ?_ e he)
          exact ⟨rfl,
            (hostInv_filter lobby socket p [] (hinv _ (mem_of_mapGet _ _ _ hl)) hp hnh).2⟩
      | requestLobbyList => exact Or.inl (hsame e he)
      | disconnect =>
        change e ∈ (disconnect s socket).1.lobbies at he
        rw [disconnect_state] at he
        exact Or.inl (hsame e he)
    | cleanup now =>
      exact Or.inl (hsame e (List.mem_filter.mp he).1)

/-- C11 (witness): the host record of lobby `ABC123` after `m` joined it. -/
theorem host_record_unique_and_kept_witness :
    Reachable twoPlayerState ∧
    ∀ e ∈ twoPlayerState.lobbies, ∃ hostRecord,
      e.2.players.filter (fun p => p.isHost) = [hostRecord] ∧
      e.2.players.head? = some hostRecord ∧
      hostRecord.id = e.2.hostId ∧ e.2.players ≠ [] :=
  ⟨reachable_run _ _ Reachable.start,
    (host_record_unique_and_kept twoPlayerState (reachable_run _ _ Reachable.start)).1⟩


/-! ## C12: display names -/

theorem names_nodup_step (s : ServerState) (st : Step)
    (hs : ∀ e ∈ s.lobbies, (e.2.players.map (fun p => p.name)).Nodup) :
    ∀ e ∈ (step s st).1.lobbies, (e.2.players.map (fun p => p.name)).Nodup := by
  apply step_preserves_lobbies (fun _ lobby => (lobby.players.map (fun p => p.name)).Nodup)
    _ _ _ _ _ s st hs
  · intro code socket name now
    simp [createLobbyObject]
  · intro code lobby socket name now msg h _ hdup _
    show ((lobby.players ++ _).map (fun p => p.name)).Nodup
    rw [List.map_append, List.nodup_append]
    refine ⟨h, by simp, ?_⟩
    intro a ha hb
    simp only [List.map_cons, List.map_nil, List.mem_singleton] at hb
    subst hb
    obtain ⟨p, hp, hpn⟩ := List.mem_map.mp ha
    rw [List.any_eq_false] at hdup
    have := hdup p hp
    simp only [beq_iff_eq] at this
    exact this hpn
  · intro code lobby chat gameState h
    exact h
  · intro code lobby pid target chat h _ _
    exact List.Nodup.sublist (List.Sublist.map _ (List.filter_sublist _)) h
  · intro code lobby now h
    exact h

theorem names_nodup_of_reachable (s : ServerState) (hs : Reachable s) :
    ∀ e ∈ s.lobbies, (e.2.players.map (fun p => p.name)).Nodup := by
  induction hs with
  | start => intro e he; simp [ServerState.empty] at he
  | next st _ ih => exact names_nodup_step _ st ih

/-- C12 (counterexample): in lobby `ABC123` a player has the empty name (`m` joined with
a name of one blank).  A `joinLobby` with the empty `playerName`, which after trimming
equals that player's name, is answered with the missing-field error, not with the
duplicate-name error. -/
theorem joinLobby_empty_name_not_duplicate_error :
    Reachable blankNameState ∧
    (∃ lobby, mapGet blankNameState.lobbies (toUpperCase "ABC123") = some lobby ∧
      ∃ p ∈ lobby.players, p.name = trim "") ∧
    joinLobby blankNameState "x" 3 (some ⟨some "ABC123", some ""⟩) =
      (blankNameState, [errorTo "x" "Lobby-Code und Spielername sind erforderlich"]) ∧
    (joinLobby blankNameState "x" 3 (some ⟨some "ABC123", some ""⟩)).2 ≠
      [errorTo "x" ("Spieler \"" ++ "" ++ "\" ist bereits in der Lobby")] := by
  refine ⟨reachable_run _ _ Reachable.start, ⟨_, rfl, ⟨"m", "", false, 2⟩, by decide, by decide⟩,
    by decide, by decide⟩

/-- C12 (amended): in every reachable state the names of the players of a lobby are
pairwise distinct; and a `joinLobby` with a non-empty code and a non-empty name that,
after trimming, equals the name of a player in the lobby found under the upper-cased
code is rejected with the duplicate-name error and leaves the store unchanged. -/
theorem names_distinct_and_duplicate_rejected (s : ServerState) (hs : Reachable s) :
    (∀ e ∈ s.lobbies, (e.2.players.map (fun p => p.name)).Nodup) ∧
    (∀ (socket : SocketId) (now : Nat) (lobbyCode playerName : String) (lobby : Lobby),
      lobbyCode ≠ "" → playerName ≠ "" →
      mapGet s.lobbies (toUpperCase lobbyCode) = some lobby →
      (∃ p ∈ lobby.players, p.name = trim playerName) →
      joinLobby s socket now (some ⟨some lobbyCode, some playerName⟩) =
        (s, [errorTo socket ("Spieler \"" ++ playerName ++ "\" ist bereits in der Lobby")])) := by
  refine ⟨names_nodup_of_reachable s hs, ?_⟩
  intro socket now lobbyCode playerName lobby hc hn hl hex
  have hdup : (lobby.players.any (fun p => p.name == trim playerName)) = true := by
    rw [List.any_eq_true]
    obtain ⟨p, hp, hpn⟩ := hex
    exact ⟨p, hp, by simp [hpn]⟩
  simp [joinLobby, hc, hn, hl, hdup]

/-- C12 (witness): a second `Ben` (with blanks around the name) for lobby `ABC123`. -/
theorem names_distinct_and_duplicate_rejected_witness :
    Reachable twoPlayerState ∧
    joinLobby twoPlayerState "x" 3 (some ⟨some "abc123", some " Ben "⟩) =
      (twoPlayerState, [errorTo "x" "Spieler \" Ben \" ist bereits in der Lobby"]) :=
  ⟨reachable_run _ _ Reachable.start,
    (names_distinct_and_duplicate_rejected twoPlayerState
      (reachable_run _ _ Reachable.start)).2 "x" 3 "abc123" " Ben "
      ((mapGet twoPlayerState.lobbies "ABC123").getD (createLobbyObject "" "" "" 0))
      (by decide) (by decide) (by decide) ⟨⟨"m", "Ben", false, 2⟩, by decide, by decide⟩⟩

/-! ## C13: one record per connection -/

/-- C13 (failing input): connection `m` joined lobby `ABC123` twice under two names, and
it then has two player records in that lobby; and connection `m` joined `ABC123` and
then `XYZ789`, and it then has a player record in each of the two live lobbies. -/
theorem connection_with_two_records :
    Reachable joinedTwiceState ∧
    (mapGet joinedTwiceState.lobbies "ABC123").map
        (fun lobby => (lobby.players.filter (fun p => p.id == "m")).map (fun p => p.name)) =
      some ["Ben", "Benno"] ∧
    Reachable twoLobbiesState ∧
    (mapGet twoLobbiesState.lobbies "ABC123").map
        (fun lobby => (lobby.players.filter (fun p => p.id == "m")).length) = some 1 ∧
    (mapGet twoLobbiesState.lobbies "XYZ789").map
        (fun lobby => (lobby.players.filter (fun p => p.id == "m")).length) = some 1 ∧
    mapGet twoLobbiesState.playerLobbies "m" = some "XYZ789" := by
  refine ⟨reachable_run _ _ Reachable.start, by decide, reachable_run _ _ Reachable.start,
    by decide, by decide, by decide⟩

/-! ## C14: blank fields of `joinLobby` -/

/-- C14 (failing input): lobby `ABC123` is live and `m` sends `joinLobby` with a
`playerName` of one blank.  The guard `!playerName` lets it pass (a blank is truthy):
the join succeeds with a `lobbyJoined` event and a player record with the empty name is
added to the lobby. -/
theorem joinLobby_whitespace_name_accepted :
    Reachable oneLobbyState ∧
    (" ".data.all isJsWhitespace) = true ∧
    (∃ lobby, (joinLobby oneLobbyState "m" 2 (some ⟨some "ABC123", some " "⟩)).2 =
      [⟨Target.socket "m", "lobbyJoined", Payload.lobbyJoined "ABC123" lobby false⟩,
       ⟨Target.room "ABC123", "lobbyUpdated", Payload.lobby lobby⟩,
       ⟨Target.all, "lobbyStats", Payload.lobbyStats 1 2⟩]) ∧
    (mapGet (joinLobby oneLobbyState "m" 2 (some ⟨some "ABC123", some " "⟩)).1.lobbies
        "ABC123").map (fun lobby => lobby.players) =
      some [⟨"h", "Anna", true, 1⟩, ⟨"m", "", false, 2⟩] := by
  refine ⟨reachable_run _ _ Reachable.start, by decide, ⟨_, rfl⟩, by decide⟩


/-! ## Facts about `trim` and `slice` -/

/-- The method `trim` returns the empty string exactly for a string that consists of white
space only (the empty string included). -/
theorem trim_length_eq_zero_iff (s : String) :
    (trim s).length = 0 ↔ s.data.all isJsWhitespace = true := by
  have hlen : (trim s).length = (trimChars s.data).length := rfl
  rw [hlen, List.length_eq_zero, List.all_eq_true]
  unfold trimChars
  rw [List.reverse_eq_nil_iff, List.dropWhile_eq_nil_iff]
  constructor
  · intro h
    have hd : s.data.dropWhile isJsWhitespace = [] := by
      cases hcs : s.data.dropWhile isJsWhitespace with
      | nil => rfl
      | cons c cs =>
        exfalso
        have hc : isJsWhitespace c = true := h c (by rw [hcs]; simp)
        have hne : s.data.dropWhile isJsWhitespace ≠ [] := by rw [hcs]; simp
        have hhead := List.head_dropWhile_not isJsWhitespace s.data hne
        simp only [hcs, List.head_cons] at hhead
        rw [hc] at hhead
        exact Bool.noConfusion hhead
    exact List.dropWhile_eq_nil_iff.mp hd
  · intro h x hx
    rw [List.dropWhile_eq_nil_iff.mpr h] at hx
    simp at hx

theorem trim_eq_empty_of_whitespace (s : String) (h : s.data.all isJsWhitespace = true) :
    trim s = "" := by
  have h0 := (trim_length_eq_zero_iff s).mpr h
  have hd : (trim s).data = [] := List.length_eq_zero.mp h0
  exact String.ext (by rw [hd])

theorem sliceLast_of_length_le {α : Type} (n : Nat) (xs : List α) (h : xs.length ≤ n) :
    sliceLast n xs = xs := by
  unfold sliceLast
  rw [Nat.sub_eq_zero_of_le h]
  rfl

theorem length_sliceLast {α : Type} (n : Nat) (xs : List α) :
    (sliceLast n xs).length = min n xs.length := by
  unfold sliceLast
  rw [List.length_drop]
  omega

theorem getLast?_sliceLast_append {α : Type} (n : Nat) (xs : List α) (x : α) (hn : 0 < n) :
    (sliceLast n (xs ++ [x])).getLast? = some x := by
  unfold sliceLast
  have hlen : (xs ++ [x]).length - n ≤ xs.length := by
    simp only [List.length_append, List.length_singleton]
    omega
  rw [List.drop_append_of_le_length hlen]
  simp

/-- The chat that `chatMessage` stores is always the last 50 entries of the old chat
followed by the new entry. -/
theorem chat_trim_eq_sliceLast (chat : List ChatMessage) :
    (if chat.length > 50 then sliceLast 50 chat else chat) = sliceLast 50 chat := by
  split
  · rfl
  · next h => exact (sliceLast_of_length_le 50 chat (Nat.le_of_not_lt h)).symm

/-! ## C15 and C16: chat messages -/

/-- With a non-empty code, a `chatMessage` by a connection with a player record in its
lobby stores the last 50 entries of the old chat followed by the new entry, whose text
is the trimmed message, and emits `chatUpdated` to the lobby's room. -/
theorem chatMessage_appends_of_code_ne_empty (s : ServerState) (socket : SocketId)
    (now : Nat) (message code : String) (lobby : Lobby) (player : Player)
    (hm : mapGet s.playerLobbies socket = some code) (hc : code ≠ "")
    (hl : mapGet s.lobbies code = some lobby)
    (hp : lobby.players.find? (fun p => p.id == socket) = some player) :
    mapGet (chatMessage s socket now (some ⟨some message⟩)).1.lobbies code =
      some { lobby with
        chat := sliceLast 50 (lobby.chat ++ [⟨trim message, player.name, now⟩])
        lastActivity := now } ∧
    (chatMessage s socket now (some ⟨some message⟩)).1.playerLobbies = s.playerLobbies ∧
    (chatMessage s socket now (some ⟨some message⟩)).2 =
      [⟨Target.room code, "chatUpdated",
        Payload.chatUpdated ⟨trim message, player.name, now⟩
          (sliceLast 50 (lobby.chat ++ [⟨trim message, player.name, now⟩]))⟩] := by
  have hres : chatMessage s socket now (some ⟨some message⟩) =
      (⟨updateLobbyActivity
          (mapSet s.lobbies code
            { lobby with
              chat := sliceLast 50 (lobby.chat ++ [⟨trim message, player.name, now⟩]) })
          code now, s.playerLobbies⟩,
        [⟨Target.room code, "chatUpdated",
          Payload.chatUpdated ⟨trim message, player.name, now⟩
            (sliceLast 50 (lobby.chat ++ [⟨trim message, player.name, now⟩]))⟩]) := by
    have htrim := chat_trim_eq_sliceLast (lobby.chat ++ [⟨trim message, player.name, now⟩])
    simp only [chatMessage, hm, hc, hl, hp, if_false, htrim]
  rw [hres]
  refine ⟨?_, rfl, rfl⟩
  simp only [mapGet_updateLobbyActivity_self, mapGet_mapSet_self, Option.map_some']

/-- C15 (failing input): member `m` of lobby `ABC123` sends a `chatMessage` of three
blanks.  It is not rejected: a `chatUpdated` event goes to the room and the chat of the
lobby ends with a new entry whose text is the empty string. -/
theorem chatMessage_blank_text_accepted :
    Reachable twoPlayerState ∧
    ("   ".data.all isJsWhitespace) = true ∧
    (chatMessage twoPlayerState "m" 3 (some ⟨some "   "⟩)).2 =
      [⟨Target.room "ABC123", "chatUpdated",
        Payload.chatUpdated ⟨"", "Ben", 3⟩
          [⟨"🎉 Lobby \"ABC123\" wurde erstellt!", "system", 1⟩,
           ⟨"🎉 Ben ist der Lobby beigetreten!", "system", 2⟩,
           ⟨"", "Ben", 3⟩]⟩] ∧
    (mapGet twoPlayerState.lobbies "ABC123").map (fun lobby => lobby.chat.length) = some 2 ∧
    (mapGet (chatMessage twoPlayerState "m" 3 (some ⟨some "   "⟩)).1.lobbies "ABC123").map
        (fun lobby => lobby.chat.getLast?) = some (some ⟨"", "Ben", 3⟩) := by
  refine ⟨reachable_run _ _ Reachable.start, by decide, by decide, by decide, by decide⟩

/-- The handler has no check of the message text: with a non-empty code, a `chatMessage`
by a connection with a player record in its lobby whose message is empty or white space
only appends an entry with the empty text, and emits `chatUpdated`. -/
theorem chatMessage_blank_text_appended (s : ServerState) (socket : SocketId) (now : Nat)
    (message code : String) (lobby : Lobby) (player : Player)
    (hm : mapGet s.playerLobbies socket = some code) (hc : code ≠ "")
    (hl : mapGet s.lobbies code = some lobby)
    (hp : lobby.players.find? (fun p => p.id == socket) = some player)
    (hws : message.data.all isJsWhitespace = true) :
    ∃ lobby2, mapGet (chatMessage s socket now (some ⟨some message⟩)).1.lobbies code =
        some lobby2 ∧
      lobby2.chat = sliceLast 50 (lobby.chat ++ [⟨"", player.name, now⟩]) ∧
      lobby2.chat.getLast? = some ⟨"", player.name, now⟩ ∧
      (chatMessage s socket now (some ⟨some message⟩)).2 =
        [⟨Target.room code, "chatUpdated",
          Payload.chatUpdated ⟨"", player.name, now⟩ lobby2.chat⟩] := by
  obtain ⟨h1, _, h3⟩ := chatMessage_appends_of_code_ne_empty s socket now message code lobby
    player hm hc hl hp
  rw [trim_eq_empty_of_whitespace message hws] at h1 h3
  exact ⟨_, h1, rfl, getLast?_sliceLast_append 50 lobby.chat _ (by decide), h3⟩

/-- The chat after a `chatMessage` that passed the guards has `min 50 (old length + 1)`
entries and ends with the new entry. -/
theorem chatMessage_chat_length_and_last (chat : List ChatMessage) (entry : ChatMessage) :
    (sliceLast 50 (chat ++ [entry])).length = min 50 (chat.length + 1) ∧
    (sliceLast 50 (chat ++ [entry])).getLast? = some entry ∧
    ∃ evicted, chat ++ [entry] = evicted ++ sliceLast 50 (chat ++ [entry]) := by
  refine ⟨?_, getLast?_sliceLast_append 50 chat entry (by decide), ?_⟩
  · rw [length_sliceLast]
    simp
  · exact ⟨(chat ++ [entry]).take ((chat ++ [entry]).length - 50),
      (List.take_append_drop _ _).symm⟩

/-- C16 (failing input): `h` is host of the live lobby stored under the empty code and has
a player record in it.  A `chatMessage` by `h` with text `Hallo` is answered with
`Du bist in keiner Lobby`; the chat of the lobby still has its single entry. -/
theorem chatMessage_member_empty_code_rejected :
    Reachable emptyCodeState ∧
    mapGet emptyCodeState.playerLobbies "h" = some "" ∧
    (∃ lobby player, mapGet emptyCodeState.lobbies "" = some lobby ∧
      lobby.players.find? (fun p => p.id == "h") = some player ∧ lobby.chat.length = 1) ∧
    chatMessage emptyCodeState "h" 2 (some ⟨some "Hallo"⟩) =
      (emptyCodeState, [errorTo "h" "Du bist in keiner Lobby"]) ∧
    (mapGet (chatMessage emptyCodeState "h" 2 (some ⟨some "Hallo"⟩)).1.lobbies "").map
        (fun lobby => lobby.chat.length) = some 1 := by
  refine ⟨reachable_run _ _ Reachable.start, by decide, ⟨_, _, rfl, rfl, rfl⟩, by decide,
    by decide⟩


/-! ## C17: creating a lobby -/

/-- C17: `createLobby` with a `playerName` that is empty or white space only is rejected
with an error and leaves the store unchanged; with any other name it stores, under the
generated code, a lobby whose players are exactly the record of the caller (name
trimmed, `isHost = true`), whose `gameState` is `waiting`, whose chat is exactly one
entry with sender `system`, whose `settings.maxPlayers` is 8, and it maps the caller to
that code. -/
theorem createLobby_rejects_blank_or_stores_lobby (s : ServerState) (socket : SocketId)
    (now : Nat) (randomText playerName : String) :
    (playerName.data.all isJsWhitespace = true →
      createLobby s socket now randomText (some ⟨some playerName⟩) =
        (s, [errorTo socket "Spielername ist erforderlich"])) ∧
    (playerName.data.all isJsWhitespace = false →
      ∃ lobby,
        mapGet (createLobby s socket now randomText (some ⟨some playerName⟩)).1.lobbies
          (generateLobbyCode randomText) = some lobby ∧
        lobby.players = [⟨socket, trim playerName, true, now⟩] ∧
        lobby.gameState = GameState.waiting ∧
        (∃ entry, lobby.chat = [entry] ∧ entry.sender = "system") ∧
        lobby.settings.maxPlayers = 8 ∧
        mapGet (createLobby s socket now randomText (some ⟨some playerName⟩)).1.playerLobbies
          socket = some (generateLobbyCode randomText)) := by
  constructor
  · intro hws
    have h0 := (trim_length_eq_zero_iff playerName).mpr hws
    simp [createLobby, h0]
  · intro hws
    have h0 : (trim playerName).length ≠ 0 := by
      intro h
      rw [(trim_length_eq_zero_iff playerName).mp h] at hws
      exact Bool.noConfusion hws
    have hne : playerName ≠ "" := by
      intro h
      subst h
      exact h0 rfl
    have hst : (createLobby s socket now randomText (some ⟨some playerName⟩)).1 =
        ⟨mapSet s.lobbies (generateLobbyCode randomText)
            (createLobbyObject (generateLobbyCode randomText) socket (trim playerName) now),
          mapSet s.playerLobbies socket (generateLobbyCode randomText)⟩ := by
      simp [createLobby, hne, h0]
    rw [hst]
    exact ⟨_, mapGet_mapSet_self _ _ _, rfl, rfl, ⟨_, rfl, rfl⟩, rfl, mapGet_mapSet_self _ _ _⟩

/-- C17 (witness): a name of blanks and tabs is rejected, the name ` Ben ` is stored
trimmed. -/
theorem createLobby_rejects_blank_or_stores_lobby_witness :
    createLobby oneLobbyState "h2" 5 "0.xyz789abc" (some ⟨some " \t "⟩) =
      (oneLobbyState, [errorTo "h2" "Spielername ist erforderlich"]) ∧
    ∃ lobby,
      mapGet (createLobby oneLobbyState "h2" 5 "0.xyz789abc" (some ⟨some " Ben "⟩)).1.lobbies
        (generateLobbyCode "0.xyz789abc") = some lobby ∧
      lobby.players = [⟨"h2", trim " Ben ", true, 5⟩] ∧
      lobby.gameState = GameState.waiting ∧
      (∃ entry, lobby.chat = [entry] ∧ entry.sender = "system") ∧
      lobby.settings.maxPlayers = 8 ∧
      mapGet (createLobby oneLobbyState "h2" 5 "0.xyz789abc"
        (some ⟨some " Ben "⟩)).1.playerLobbies "h2" = some (generateLobbyCode "0.xyz789abc") :=
  ⟨(createLobby_rejects_blank_or_stores_lobby oneLobbyState "h2" 5 "0.xyz789abc" " \t ").1
      (by decide),
    (createLobby_rejects_blank_or_stores_lobby oneLobbyState "h2" 5 "0.xyz789abc" " Ben ").2
      (by decide)⟩

/-! ## C18: the cleanup timer -/

/-- C18: after `cleanupOldLobbies` at time `now` the store holds exactly the lobbies that
were in it with `now - lastActivity <= 24 hours` (in integers: `now <= lastActivity +
86400000`), each unchanged and in the same order; the reverse mapping is untouched.  In
particular a lobby last active 25 hours ago is removed, one last active 1 hour ago
stays, and one last active exactly 24 hours ago stays. -/
theorem cleanupOldLobbies_keeps_recent (s : ServerState) (now : Nat) :
    (∀ e, e ∈ (cleanupOldLobbies s now).lobbies ↔
      e ∈ s.lobbies ∧ now ≤ e.2.lastActivity + 24 * 60 * 60 * 1000) ∧
    List.Sublist (cleanupOldLobbies s now).lobbies s.lobbies ∧
    (cleanupOldLobbies s now).playerLobbies = s.playerLobbies ∧
    (∀ e ∈ s.lobbies, now = e.2.lastActivity + 25 * 60 * 60 * 1000 →
      e ∉ (cleanupOldLobbies s now).lobbies) ∧
    (∀ e ∈ s.lobbies, now = e.2.lastActivity + 1 * 60 * 60 * 1000 →
      e ∈ (cleanupOldLobbies s now).lobbies) ∧
    (∀ e ∈ s.lobbies, now = e.2.lastActivity + 24 * 60 * 60 * 1000 →
      e ∈ (cleanupOldLobbies s now).lobbies) := by
  have hmem : ∀ e, e ∈ (cleanupOldLobbies s now).lobbies ↔
      e ∈ s.lobbies ∧ now ≤ e.2.lastActivity + 24 * 60 * 60 * 1000 := by
    intro e
    simp only [cleanupOldLobbies, maxAge, List.mem_filter, Bool.not_eq_true',
      decide_eq_false_iff_not, gt_iff_lt, not_lt]
    constructor
    · rintro ⟨h1, h2⟩
      exact ⟨h1, by omega⟩
    · rintro ⟨h1, h2⟩
      exact ⟨h1, by omega⟩
  refine ⟨hmem, List.filter_sublist _, rfl, ?_, ?_, ?_⟩
  · intro e _ hnow hin
    have := ((hmem e).mp hin).2
    omega
  · intro e he hnow
    exact (hmem e).mpr ⟨he, by omega⟩
  · intro e he hnow
    exact (hmem e).mpr ⟨he, by omega⟩

/-- C18 (witness): three lobbies last active at 0, 1 hour and 24 hours; the cleanup runs
at 25 hours.  The first lobby (25 hours old) is removed, the second (exactly 24 hours
old) and the third (1 hour old) stay. -/
theorem cleanupOldLobbies_keeps_recent_witness :
    (cleanupOldLobbies agedLobbiesState 90000000).lobbies.map (fun e => e.1) =
      ["BBB222", "CCC333"] ∧
    ("AAA111", createLobbyObject "AAA111" "a" "Anna" 0) ∉
      (cleanupOldLobbies agedLobbiesState 90000000).lobbies ∧
    ("BBB222", createLobbyObject "BBB222" "b" "Ben" 3600000) ∈
      (cleanupOldLobbies agedLobbiesState 90000000).lobbies ∧
    ("CCC333", createLobbyObject "CCC333" "c" "Cem" 86400000) ∈
      (cleanupOldLobbies agedLobbiesState 90000000).lobbies :=
  ⟨by decide,
    (cleanupOldLobbies_keeps_recent agedLobbiesState 90000000).2.2.2.1 _ (by decide)
      (by decide),
    (cleanupOldLobbies_keeps_recent agedLobbiesState 90000000).2.2.2.2.2 _ (by decide)
      (by decide),
    (cleanupOldLobbies_keeps_recent agedLobbiesState 90000000).2.2.2.2.1 _ (by decide)
      (by decide)⟩

/-! ## C19: the lobby list -/

/-- C19: `requestLobbyList` leaves the lobby store and the reverse mapping unchanged and
emits one `lobbyList` event to the caller.  The list has, in store order, one entry
`{code, host, playerCount, maxPlayers, created}` for each lobby in the store whose
`gameState` is `waiting`, and no other entry. -/
theorem requestLobbyList_lists_waiting (s : ServerState) (socket : SocketId) :
    (requestLobbyList s socket).1 = s ∧
    ∃ list, (requestLobbyList s socket).2 =
        [⟨Target.socket socket, "lobbyList", Payload.lobbyList list⟩] ∧
      list = (s.lobbies.filter (fun e => e.2.gameState == GameState.waiting)).map
        (fun e => ⟨e.2.code, e.2.host, e.2.players.length, e.2.settings.maxPlayers,
          e.2.created⟩) ∧
      list.length = s.lobbies.countP (fun e => e.2.gameState == GameState.waiting) ∧
      ∀ info, info ∈ list ↔ ∃ e ∈ s.lobbies, e.2.gameState = GameState.waiting ∧
        info = ⟨e.2.code, e.2.host, e.2.players.length, e.2.settings.maxPlayers,
          e.2.created⟩ := by
  refine ⟨rfl, _, rfl, ?_, ?_, ?_⟩
  · rw [List.filter_map]
    simp only [List.map_map]
    rfl
  · rw [List.filter_map]
    simp only [List.length_map, List.countP_eq_length_filter]
    rfl
  · intro info
    simp only [List.mem_map, List.mem_filter, beq_iff_eq]
    constructor
    · rintro ⟨lobby, ⟨⟨e, he, rfl⟩, hw⟩, rfl⟩
      exact ⟨e, he, hw, rfl⟩
    · rintro ⟨e, he, hw, rfl⟩
      exact ⟨e.2, ⟨⟨e, he, rfl⟩, hw⟩, rfl⟩

/-! ## C20: the statistics event -/

/-- No run of `kickPlayer` emits a `lobbyStats` event. -/
theorem kickPlayer_emits_no_lobbyStats (s : ServerState) (socket : SocketId) (now : Nat)
    (data : Option KickData) :
    ∀ e ∈ (kickPlayer s socket now data).2, e.name ≠ "lobbyStats" := by
  rcases kickPlayer_cases s socket now data with
    ⟨_, msg, h⟩ | ⟨code, lobby, hp, pid, tp, hd, hm, hc, hl, hh, hhost, ht, htarget, _⟩
  · rw [h]
    intro e he
    simp only [List.mem_singleton] at he
    subst he
    show "error" ≠ "lobbyStats"
    decide
  · subst hd
    simp [kickPlayer, hm, hc, hl, hh, hhost, ht, htarget]

/-- C20 (failing input): host `h` of lobby `ABC123` kicks member `m`.  The kick succeeds
and the lobby goes from two players to one, but the events are `kicked` and
`lobbyUpdated` only: no `lobbyStats` event is emitted.  A `leaveLobby` by `m` in the
same state ends with the `lobbyStats` event of the state after it. -/
theorem kickPlayer_success_without_lobbyStats :
    Reachable twoPlayerState ∧
    (mapGet twoPlayerState.lobbies "ABC123").map (fun lobby => lobby.players.length) =
      some 2 ∧
    (mapGet (kickPlayer twoPlayerState "h" 3 (some ⟨some "m"⟩)).1.lobbies "ABC123").map
        (fun lobby => lobby.players.length) = some 1 ∧
    (kickPlayer twoPlayerState "h" 3 (some ⟨some "m"⟩)).2.map (fun e => (e.target, e.name)) =
      [(Target.room "m", "kicked"), (Target.room "ABC123", "lobbyUpdated")] ∧
    (kickPlayer twoPlayerState "h" 3 (some ⟨some "m"⟩)).2.all
        (fun e => e.name != "lobbyStats") = true ∧
    (leaveLobby twoPlayerState "m" 3).2.getLast? =
      some ⟨Target.all, "lobbyStats", Payload.lobbyStats 1 1⟩ := by
  refine ⟨reachable_run _ _ Reachable.start, by decide, by decide, by decide, by decide,
    by decide⟩


/-! ## C21: commands of a connection that is no longer in a lobby -/

/-- A connection without reverse mapping gets `Du bist in keiner Lobby` for
`chatMessage`, `startGame` and `kickPlayer`, and nothing changes. -/
theorem commands_rejected_of_unmapped (s : ServerState) (socket : SocketId) (now : Nat)
    (h : mapGet s.playerLobbies socket = none) :
    (∀ d, chatMessage s socket now (some d) = (s, [errorTo socket "Du bist in keiner Lobby"])) ∧
    (∀ data, startGame s socket now data = (s, [errorTo socket "Du bist in keiner Lobby"])) ∧
    (∀ d, kickPlayer s socket now (some d) = (s, [errorTo socket "Du bist in keiner Lobby"])) := by
  refine ⟨?_, ?_, ?_⟩
  · intro d; simp [chatMessage, h]
  · intro data; simp [startGame, h]
  · intro d; simp [kickPlayer, h]

/-- A connection whose reverse mapping holds a non-empty code under which no lobby is
stored gets `Lobby nicht gefunden` for `chatMessage`, `startGame` and `kickPlayer`, and
nothing changes. -/
theorem commands_rejected_of_missing_lobby (s : ServerState) (socket : SocketId) (now : Nat)
    (code : String) (hm : mapGet s.playerLobbies socket = some code) (hc : code ≠ "")
    (hl : mapGet s.lobbies code = none) :
    (∀ d, chatMessage s socket now (some d) = (s, [errorTo socket "Lobby nicht gefunden"])) ∧
    (∀ data, startGame s socket now data = (s, [errorTo socket "Lobby nicht gefunden"])) ∧
    (∀ d, kickPlayer s socket now (some d) = (s, [errorTo socket "Lobby nicht gefunden"])) := by
  refine ⟨?_, ?_, ?_⟩
  · intro d; simp [chatMessage, hm, hc, hl]
  · intro data; simp [startGame, hm, hc, hl]
  · intro d; simp [kickPlayer, hm, hc, hl]

theorem mapGet_mapDelete_none_or_same {V : Type} (m : JsMap V) (k k2 : String) :
    mapGet (mapDelete m k) k2 = none ∨ mapGet (mapDelete m k) k2 = mapGet m k2 := by
  by_cases h : k2 = k
  · subst h; exact Or.inl (mapGet_mapDelete_self m k2)
  · exact Or.inr (mapGet_mapDelete_ne m k k2 h)

theorem mapGet_foldl_delete_none_or_same (players : List Player) (m : JsMap String)
    (k : String) :
    mapGet (players.foldl (fun m q => mapDelete m q.id) m) k = none ∨
    mapGet (players.foldl (fun m q => mapDelete m q.id) m) k = mapGet m k := by
  induction players generalizing m with
  | nil => exact Or.inr rfl
  | cons q qs ih =>
    simp only [List.foldl_cons]
    rcases ih (mapDelete m q.id) with h | h
    · exact Or.inl h
    · rcases mapGet_mapDelete_none_or_same m q.id k with h2 | h2
      · exact Or.inl (h.trans h2)
      · exact Or.inr (h.trans h2)

/-- A successful `kickPlayer`, one that emits the `kicked` event to `target`, removes the
reverse mapping of `target`. -/
theorem kickPlayer_kicked_unmaps (s : ServerState) (socket : SocketId) (now : Nat)
    (data : Option KickData) (target : String)
    (hk : (⟨Target.room target, "kicked",
        Payload.reason "Du wurdest vom Host aus der Lobby entfernt."⟩ : Event) ∈
      (kickPlayer s socket now data).2) :
    mapGet (kickPlayer s socket now data).1.playerLobbies target = none := by
  rcases kickPlayer_cases s socket now data with
    ⟨_, msg, h⟩ | ⟨code, lobby, hp, pid, tp, hd, hm, hc, hl, hh, hhost, ht, htarget, hst⟩
  · rw [h] at hk
    simp [errorTo] at hk
  · subst hd
    have hev : (kickPlayer s socket now (some ⟨some pid⟩)).2.map (fun e => e.target) =
        [Target.room pid, Target.room code] := by
      simp [kickPlayer, hm, hc, hl, hh, hhost, ht, htarget]
    have hev2 : (kickPlayer s socket now (some ⟨some pid⟩)).2.map (fun e => e.name) =
        ["kicked", "lobbyUpdated"] := by
      simp [kickPlayer, hm, hc, hl, hh, hhost, ht, htarget]
    have hpid : target = pid := by
      cases hevs : (kickPlayer s socket now (some ⟨some pid⟩)).2 with
      | nil => rw [hevs] at hk; simp at hk
      | cons e1 rest =>
        rw [hevs] at hk hev hev2
        cases rest with
        | nil => simp at hev
        | cons e2 rest2 =>
          simp only [List.map_cons, List.cons.injEq] at hev hev2
          rcases List.mem_cons.mp hk with h1 | h1
          · rw [← h1] at hev
            simpa using hev.1
          · rcases List.mem_cons.mp h1 with h2 | h2
            · rw [← h2] at hev2
              have h3 : "kicked" = "lobbyUpdated" := hev2.2.1
              exact absurd h3 (by decide)
            · have : rest2 = [] := by simpa using hev.2.2
              rw [this] at h2
              simp at h2
    rw [hst, hpid]
    exact mapGet_mapDelete_self _ _

/-- A `leaveLobby` that emits `lobbyClosed` to room `code` is the host branch, taken for a
non-empty code: the lobby is removed, the mappings of its players and of the caller are
removed, and every other mapping is as before or removed. -/
theorem leaveLobby_closed_state (s : ServerState) (socket : SocketId) (now : Nat)
    (code : String)
    (hk : (leaveLobby s socket now).2.head? =
      some ⟨Target.room code, "lobbyClosed", Payload.reason "Der Host hat die Lobby verlassen."⟩) :
    code ≠ "" ∧ mapGet (leaveLobby s socket now).1.lobbies code = none ∧
    (∀ lobby, mapGet s.lobbies code = some lobby → ∀ p ∈ lobby.players,
      mapGet (leaveLobby s socket now).1.playerLobbies p.id = none) ∧
    (∀ c, mapGet (leaveLobby s socket now).1.playerLobbies c = none ∨
      mapGet (leaveLobby s socket now).1.playerLobbies c = mapGet s.playerLobbies c) := by
  cases hm : mapGet s.playerLobbies socket with
  | none => simp [leaveLobby, hm] at hk
  | some code2 =>
    by_cases hc : code2 = ""
    · simp [leaveLobby, hm, hc] at hk
    · cases hl : mapGet s.lobbies code2 with
      | none => simp [leaveLobby, hm, hc, hl] at hk
      | some lobby =>
        cases hp : lobby.players.find? (fun p => p.id == socket) with
        | none => simp [leaveLobby, hm, hc, hl, hp] at hk
        | some player =>
          cases hh : player.isHost with
          | false => simp [leaveLobby, hm, hc, hl, hp, hh] at hk
          | true =>
            have hcode : code2 = code := by
              simpa [leaveLobby, hm, hc, hl, hp, hh] using hk
            subst hcode
            have hst : (leaveLobby s socket now).1 =
                ⟨mapDelete s.lobbies code2,
                  mapDelete (lobby.players.foldl (fun m p => mapDelete m p.id) s.playerLobbies)
                    socket⟩ := by
              simp [leaveLobby, hm, hc, hl, hp, hh]
            rw [hst]
            refine ⟨hc, mapGet_mapDelete_self _ _, ?_, ?_⟩
            · intro lobby2 hl2 p hpm
              rw [hl] at hl2
              simp only [Option.some.injEq] at hl2
              subst hl2
              exact mapGet_mapDelete_of_none _ _ _ (mapGet_foldl_delete_mem _ _ p hpm)
            · intro c
              rcases mapGet_mapDelete_none_or_same
                (lobby.players.foldl (fun m p => mapDelete m p.id) s.playerLobbies) socket c
                with h1 | h1
              · exact Or.inl h1
              · rcases mapGet_foldl_delete_none_or_same lobby.players s.playerLobbies c
                  with h2 | h2
                · exact Or.inl (h1.trans h2)
                · exact Or.inr (h1.trans h2)


/-- C21 (counterexample): host `h` of lobby `ABC123` kicked member `m`.  A `chatMessage`
and a `kickPlayer` that `m` then sends without payload object fail while the handler reads
the payload, before the lobby is looked up: the answer is the generic error of the `catch`
block, not a not-in-lobby or lobby-not-found error. -/
theorem stale_command_without_payload_generic_error :
    (⟨Target.room "m", "kicked",
        Payload.reason "Du wurdest vom Host aus der Lobby entfernt."⟩ : Event) ∈
      (kickPlayer twoPlayerState "h" 3 (some ⟨some "m"⟩)).2 ∧
    chatMessage (kickPlayer twoPlayerState "h" 3 (some ⟨some "m"⟩)).1 "m" 4 none =
      ((kickPlayer twoPlayerState "h" 3 (some ⟨some "m"⟩)).1,
        [errorTo "m" "Fehler beim Senden der Nachricht"]) ∧
    kickPlayer (kickPlayer twoPlayerState "h" 3 (some ⟨some "m"⟩)).1 "m" 4 none =
      ((kickPlayer twoPlayerState "h" 3 (some ⟨some "m"⟩)).1,
        [errorTo "m" "Fehler beim Entfernen des Spielers"]) ∧
    (chatMessage (kickPlayer twoPlayerState "h" 3 (some ⟨some "m"⟩)).1 "m" 4 none).2 ≠
      [errorTo "m" "Du bist in keiner Lobby"] ∧
    (chatMessage (kickPlayer twoPlayerState "h" 3 (some ⟨some "m"⟩)).1 "m" 4 none).2 ≠
      [errorTo "m" "Lobby nicht gefunden"] := by
  refine ⟨by decide, by decide, by decide, by decide, by decide⟩

/-- C21 (amended): stale commands fail cleanly.  After a successful `kickPlayer` (one that
emitted `kicked` to `target`), each `startGame` by `target`, and each `chatMessage` or
`kickPlayer` by `target` that carries a payload object, is answered with
`Du bist in keiner Lobby` to `target` alone.  After a host's `leaveLobby` closed the lobby
`code` (it emitted `lobbyClosed` to that room), each such command by a connection that
had a player record in that lobby or whose reverse mapping named it is answered with
`Du bist in keiner Lobby` or `Lobby nicht gefunden` to that connection alone.  A
`chatMessage` or `kickPlayer` without payload object is answered with the generic error
of its handler to the caller alone.  In every case both maps are unchanged. -/
theorem stale_commands_rejected (s : ServerState) (requester : SocketId) (now now2 : Nat) :
    (∀ (data : Option KickData) (target : String),
      (⟨Target.room target, "kicked",
          Payload.reason "Du wurdest vom Host aus der Lobby entfernt."⟩ : Event) ∈
        (kickPlayer s requester now data).2 →
      (∀ d, chatMessage (kickPlayer s requester now data).1 target now2 (some d) =
        ((kickPlayer s requester now data).1, [errorTo target "Du bist in keiner Lobby"])) ∧
      (∀ data2, startGame (kickPlayer s requester now data).1 target now2 data2 =
        ((kickPlayer s requester now data).1, [errorTo target "Du bist in keiner Lobby"])) ∧
      (∀ d, kickPlayer (kickPlayer s requester now data).1 target now2 (some d) =
        ((kickPlayer s requester now data).1, [errorTo target "Du bist in keiner Lobby"])) ∧
      chatMessage (kickPlayer s requester now data).1 target now2 none =
        ((kickPlayer s requester now data).1,
          [errorTo target "Fehler beim Senden der Nachricht"]) ∧
      kickPlayer (kickPlayer s requester now data).1 target now2 none =
        ((kickPlayer s requester now data).1,
          [errorTo target "Fehler beim Entfernen des Spielers"])) ∧
    (∀ (code : String) (c : SocketId),
      (leaveLobby s requester now).2.head? =
        some ⟨Target.room code, "lobbyClosed",
          Payload.reason "Der Host hat die Lobby verlassen."⟩ →
      (mapGet s.playerLobbies c = some code ∨
        ∃ lobby p, mapGet s.lobbies code = some lobby ∧ p ∈ lobby.players ∧ p.id = c) →
      ∃ msg, (msg = "Du bist in keiner Lobby" ∨ msg = "Lobby nicht gefunden") ∧
        (∀ d, chatMessage (leaveLobby s requester now).1 c now2 (some d) =
          ((leaveLobby s requester now).1, [errorTo c msg])) ∧
        (∀ data2, startGame (leaveLobby s requester now).1 c now2 data2 =
          ((leaveLobby s requester now).1, [errorTo c msg])) ∧
        (∀ d, kickPlayer (leaveLobby s requester now).1 c now2 (some d) =
          ((leaveLobby s requester now).1, [errorTo c msg])) ∧
        chatMessage (leaveLobby s requester now).1 c now2 none =
          ((leaveLobby s requester now).1, [errorTo c "Fehler beim Senden der Nachricht"]) ∧
        kickPlayer (leaveLobby s requester now).1 c now2 none =
          ((leaveLobby s requester now).1,
            [errorTo c "Fehler beim Entfernen des Spielers"])) := by
  constructor
  · intro data target hk
    obtain ⟨h1, h2, h3⟩ := commands_rejected_of_unmapped _ target now2
      (kickPlayer_kicked_unmaps s requester now data target hk)
    exact ⟨h1, h2, h3, rfl, rfl⟩
  · intro code c hk hc
    obtain ⟨hne, hgone, hplayers, hothers⟩ := leaveLobby_closed_state s requester now code hk
    have hcases : mapGet (leaveLobby s requester now).1.playerLobbies c = none ∨
        mapGet (leaveLobby s requester now).1.playerLobbies c = some code := by
      rcases hc with hmap | ⟨lobby, p, hl, hp, hid⟩
      · rcases hothers c with h | h
        · exact Or.inl h
        · exact Or.inr (h.trans hmap)
      · subst hid
        exact Or.inl (hplayers lobby hl p hp)
    rcases hcases with h | h
    · obtain ⟨h1, h2, h3⟩ := commands_rejected_of_unmapped _ c now2 h
      exact ⟨"Du bist in keiner Lobby", Or.inl rfl, h1, h2, h3, rfl, rfl⟩
    · obtain ⟨h1, h2, h3⟩ := commands_rejected_of_missing_lobby _ c now2 code h hne hgone
      exact ⟨"Lobby nicht gefunden", Or.inr rfl, h1, h2, h3, rfl, rfl⟩

/-- C21 (witness): host `h` of lobby `ABC123` kicks member `m`, and then `m` sends a chat
message; host `h` closes lobby `ABC123`, and then `m` sends commands. -/
theorem stale_commands_rejected_witness :
    (⟨Target.room "m", "kicked",
        Payload.reason "Du wurdest vom Host aus der Lobby entfernt."⟩ : Event) ∈
      (kickPlayer twoPlayerState "h" 3 (some ⟨some "m"⟩)).2 ∧
    chatMessage (kickPlayer twoPlayerState "h" 3 (some ⟨some "m"⟩)).1 "m" 4
        (some ⟨some "Hallo"⟩) =
      ((kickPlayer twoPlayerState "h" 3 (some ⟨some "m"⟩)).1,
        [errorTo "m" "Du bist in keiner Lobby"]) ∧
    (leaveLobby twoPlayerState "h" 3).2.head? =
      some ⟨Target.room "ABC123", "lobbyClosed",
        Payload.reason "Der Host hat die Lobby verlassen."⟩ ∧
    ∃ msg, (msg = "Du bist in keiner Lobby" ∨ msg = "Lobby nicht gefunden") ∧
      (∀ d, chatMessage (leaveLobby twoPlayerState "h" 3).1 "m" 4 (some d) =
        ((leaveLobby twoPlayerState "h" 3).1, [errorTo "m" msg])) ∧
      (∀ data2, startGame (leaveLobby twoPlayerState "h" 3).1 "m" 4 data2 =
        ((leaveLobby twoPlayerState "h" 3).1, [errorTo "m" msg])) ∧
      (∀ d, kickPlayer (leaveLobby twoPlayerState "h" 3).1 "m" 4 (some d) =
        ((leaveLobby twoPlayerState "h" 3).1, [errorTo "m" msg])) ∧
      chatMessage (leaveLobby twoPlayerState "h" 3).1 "m" 4 none =
        ((leaveLobby twoPlayerState "h" 3).1,
          [errorTo "m" "Fehler beim Senden der Nachricht"]) ∧
      kickPlayer (leaveLobby twoPlayerState "h" 3).1 "m" 4 none =
        ((leaveLobby twoPlayerState "h" 3).1,
          [errorTo "m" "Fehler beim Entfernen des Spielers"]) :=
  ⟨by decide,
    ((stale_commands_rejected twoPlayerState "h" 3 4).1 (some ⟨some "m"⟩) "m"
      (by decide)).1 ⟨some "Hallo"⟩,
    by decide,
    (stale_commands_rejected twoPlayerState "h" 3 4).2 "ABC123" "m" (by decide)
      (Or.inl (by decide))⟩

/-! ## C22: a rejected `joinLobby` -/

/-- The lobby lookup of `joinLobby` upper-cases with the full mapping: with the lobby
`4FZYS8` live, a `joinLobby` whose code is written with a long s finds that lobby, and the
join is performed. -/
theorem joinLobby_long_s_code_finds_lobby :
    (mapGet (createLobby ServerState.empty "h" 1 "0.4fzys8" (some ⟨some "Anna"⟩)).1.lobbies
        "4FZYS8").isSome = true ∧
    ((mapGet (joinLobby (createLobby ServerState.empty "h" 1 "0.4fzys8"
          (some ⟨some "Anna"⟩)).1 "m" 2 (some ⟨some "4fzyſ8", some "Ben"⟩)).1.lobbies
        "4FZYS8").map (fun lobby => lobby.players.map (fun p => p.name))) =
      some ["Anna", "Ben"] := by
  refine ⟨by decide, by decide⟩

/-- C22: a `joinLobby` that is rejected for a missing (or empty) field, an unknown lobby
code, a duplicate name or a full lobby leaves the lobby store and the reverse mapping
unchanged, and the only event is one `error` event to the caller: no `lobbyJoined`,
`lobbyUpdated` or `lobbyStats`. -/
theorem joinLobby_rejected_unchanged (s : ServerState) (socket : SocketId) (now : Nat)
    (lobbyCode playerName : Option String)
    (h : (truthy lobbyCode = false ∨ truthy playerName = false) ∨
      (∃ code, lobbyCode = some code ∧ mapGet s.lobbies (toUpperCase code) = none) ∨
      (∃ code name lobby, lobbyCode = some code ∧ playerName = some name ∧
        mapGet s.lobbies (toUpperCase code) = some lobby ∧
        ∃ p ∈ lobby.players, p.name = trim name) ∨
      (∃ code lobby, lobbyCode = some code ∧
        mapGet s.lobbies (toUpperCase code) = some lobby ∧
        lobby.players.length ≥ lobby.settings.maxPlayers)) :
    (joinLobby s socket now (some ⟨lobbyCode, playerName⟩)).1 = s ∧
    (∃ msg, (joinLobby s socket now (some ⟨lobbyCode, playerName⟩)).2 =
      [errorTo socket msg]) ∧
    ∀ e ∈ (joinLobby s socket now (some ⟨lobbyCode, playerName⟩)).2,
      e.name ≠ "lobbyJoined" ∧ e.name ≠ "lobbyUpdated" ∧ e.name ≠ "lobbyStats" := by
  have hrej : (joinLobby s socket now (some ⟨lobbyCode, playerName⟩)).1 = s ∧
      ∃ msg, (joinLobby s socket now (some ⟨lobbyCode, playerName⟩)).2 =
        [errorTo socket msg] := by
    rcases joinLobby_cases s socket now (some ⟨lobbyCode, playerName⟩) with
      hr | ⟨lc, pn, lobby, hd, hc, hn, hl, hdup, hlt, _⟩
    · exact hr
    · exfalso
      simp only [Option.some.injEq, JoinData.mk.injEq] at hd
      obtain ⟨h1, h2⟩ := hd
      subst h1 h2
      rcases h with h | ⟨code, hcode, hnone⟩ | ⟨code, name, lobby2, hcode, hname, hl2, p, hp, hpn⟩ |
        ⟨code, lobby2, hcode, hl2, hfull⟩
      · rcases h with h | h
        · simp [truthy, hc] at h
        · simp [truthy, hn] at h
      · simp only [Option.some.injEq] at hcode
        subst hcode
        rw [hl] at hnone
        exact Option.noConfusion hnone
      · simp only [Option.some.injEq] at hcode hname
        subst hcode hname
        rw [hl] at hl2
        simp only [Option.some.injEq] at hl2
        subst hl2
        rw [List.any_eq_false] at hdup
        have := hdup p hp
        simp [hpn] at this
      · simp only [Option.some.injEq] at hcode
        subst hcode
        rw [hl] at hl2
        simp only [Option.some.injEq] at hl2
        subst hl2
        omega
  refine ⟨hrej.1, hrej.2, ?_⟩
  obtain ⟨msg, hmsg⟩ := hrej.2
  rw [hmsg]
  intro e he
  simp only [List.mem_singleton] at he
  subst he
  exact ⟨by show "error" ≠ "lobbyJoined"; decide, by show "error" ≠ "lobbyUpdated"; decide,
    by show "error" ≠ "lobbyStats"; decide⟩

/-- C22 (witness): a ninth player for the full lobby `ABC123`. -/
theorem joinLobby_rejected_unchanged_witness :
    (∃ lobby, mapGet fullLobbyState.lobbies (toUpperCase "ABC123") = some lobby ∧
      lobby.players.length ≥ lobby.settings.maxPlayers) ∧
    (joinLobby fullLobbyState "x" 9 (some ⟨some "ABC123", some "Zoe"⟩)).1 = fullLobbyState :=
  ⟨⟨_, rfl, by decide⟩,
    (joinLobby_rejected_unchanged fullLobbyState "x" 9 (some "ABC123") (some "Zoe")
      (Or.inr (Or.inr (Or.inr ⟨"ABC123", _, rfl, rfl, by decide⟩)))).1⟩


/-! ## C23: the generated code -/

theorem flatMap_eq_map_of_singleton {α β : Type} (f : α → List β) (g : α → β) (l : List α)
    (h : ∀ a ∈ l, f a = [g a]) : l.flatMap f = l.map g := by
  induction l with
  | nil => rfl
  | cons a as ih =>
    rw [List.flatMap_cons, h a (List.mem_cons_self _ _),
      ih (fun b hb => h b (List.mem_cons_of_mem _ hb))]
    rfl

/-- When the characters of the base-36 text from position 2 on are base-36 digits, the
generated code has at most 6 characters, exactly 6 when the text has at least 8
characters, and every character of the code is an upper-case letter or a digit. -/
theorem generateLobbyCode_shape (randomText : String)
    (hdigits : ∀ c ∈ randomText.data.drop 2, c ∈ base36Digits) :
    (generateLobbyCode randomText).length ≤ 6 ∧
    (8 ≤ randomText.length → (generateLobbyCode randomText).length = 6) ∧
    ∀ c ∈ (generateLobbyCode randomText).data, c ∈ upperAlphanumerics := by
  have hup : ∀ d ∈ base36Digits, upperChar d = [d.toUpper] ∧ d.toUpper ∈ upperAlphanumerics := by
    decide
  have hdata : (generateLobbyCode randomText).data =
      ((randomText.data.drop 2).take (8 - 2)).map Char.toUpper := by
    show ((randomText.data.drop 2).take (8 - 2)).flatMap upperChar = _
    exact flatMap_eq_map_of_singleton _ _ _
      (fun c hc => (hup c (hdigits c (List.mem_of_mem_take hc))).1)
  have hlen : (generateLobbyCode randomText).length =
      min 6 (randomText.data.length - 2) := by
    show (generateLobbyCode randomText).data.length = _
    rw [hdata]
    simp
  have hlen2 : randomText.length = randomText.data.length := rfl
  refine ⟨by omega, fun h => by omega, ?_⟩
  intro c hc
  rw [hdata] at hc
  obtain ⟨c0, hc0, rfl⟩ := List.mem_map.mp hc
  exact (hup c0 (hdigits c0 (List.mem_of_mem_take hc0))).2

/-- C23 (failing input): when `Math.random()` returns `0.5` its base-36 text is `0.i`, and
the code is `I`, one character long; when it returns `0` the text is `0` and the code is
the empty string.  A text with six or more digits after the point gives six characters. -/
theorem generateLobbyCode_shorter_than_six :
    generateLobbyCode "0.i" = "I" ∧ (generateLobbyCode "0.i").length = 1 ∧
    generateLobbyCode "0" = "" ∧ (generateLobbyCode "0").length = 0 ∧
    generateLobbyCode "0.4fzyo82mvyr" = "4FZYO8" := by
  refine ⟨by decide, by decide, by decide, by decide, by decide⟩

/-! ## C25: joining a second lobby -/

/-- When a connection with a player record in the lobby under `codeA` joins, with a code
sent in upper case, the different lobby under that code, its reverse mapping names the
joined lobby, the joined lobby gets its new record, and the lobby under `codeA` is left
exactly as it was, with the connection's record and without leave notice. -/
theorem joinLobby_second_lobby_of_uppercase (s : ServerState) (socket : SocketId) (now : Nat)
    (lobbyCode playerName codeA : String) (lobbyA lobbyB : Lobby)
    (hup : toUpperCase lobbyCode = lobbyCode) (hc : lobbyCode ≠ "") (hn : playerName ≠ "")
    (hA : mapGet s.lobbies codeA = some lobbyA) (hne : codeA ≠ lobbyCode)
    (hB : mapGet s.lobbies lobbyCode = some lobbyB)
    (hdup : lobbyB.players.any (fun p => p.name == trim playerName) = false)
    (hfull : lobbyB.players.length < lobbyB.settings.maxPlayers) :
    mapGet (joinLobby s socket now (some ⟨some lobbyCode, some playerName⟩)).1.playerLobbies
      socket = some lobbyCode ∧
    (∃ lobbyB2,
      mapGet (joinLobby s socket now (some ⟨some lobbyCode, some playerName⟩)).1.lobbies
        lobbyCode = some lobbyB2 ∧
      lobbyB2.players = lobbyB.players ++ [⟨socket, trim playerName, false, now⟩]) ∧
    mapGet (joinLobby s socket now (some ⟨some lobbyCode, some playerName⟩)).1.lobbies codeA =
      some lobbyA := by
  have hB2 : mapGet s.lobbies (toUpperCase lobbyCode) = some lobbyB := by rw [hup]; exact hB
  have hnf : ¬ lobbyB.players.length ≥ lobbyB.settings.maxPlayers := by omega
  have hst : (joinLobby s socket now (some ⟨some lobbyCode, some playerName⟩)).1 =
      ⟨updateLobbyActivity
          (mapSet s.lobbies (toUpperCase lobbyCode)
            { lobbyB with
              players := lobbyB.players ++
                [{ id := socket, name := trim playerName, isHost := false, joinedAt := now }]
              chat := lobbyB.chat ++
                [{ message := "🎉 " ++ playerName ++ " ist der Lobby beigetreten!"
                   sender := "system"
                   timestamp := now }] })
          lobbyCode now,
        mapSet s.playerLobbies socket lobbyCode⟩ := by
    simp [joinLobby, hc, hn, hB2, hdup, hnf]
  rw [hst, hup]
  refine ⟨mapGet_mapSet_self _ _ _,
    ⟨{ lobbyB with
        players := lobbyB.players ++
          [{ id := socket, name := trim playerName, isHost := false, joinedAt := now }]
        chat := lobbyB.chat ++
          [{ message := "🎉 " ++ playerName ++ " ist der Lobby beigetreten!"
             sender := "system"
             timestamp := now }]
        lastActivity := now }, ?_, rfl⟩, ?_⟩
  · rw [mapGet_updateLobbyActivity_self, mapGet_mapSet_self]
    rfl
  · rw [mapGet_updateLobbyActivity_ne _ _ _ _ hne, mapGet_mapSet_ne _ _ _ _ hne]
    exact hA

/-- C25 (failing input): `m` has a player record in lobby `ABC123` and joins lobby `XYZ789`
with the code `xyz789`.  The join succeeds and `m` gets a record in `XYZ789`; lobby
`ABC123` is unchanged and still holds the record of `m`; but the reverse mapping of `m`
is `xyz789`, under which no lobby is stored. -/
theorem joinLobby_second_lobby_lowercase_mapping :
    Reachable memberOfFirstLobbyState ∧
    (mapGet memberOfFirstLobbyState.lobbies "ABC123").map
        (fun lobby => lobby.players.map (fun p => p.id)) = some ["h", "m"] ∧
    (mapGet (joinLobby memberOfFirstLobbyState "m" 4
        (some ⟨some "xyz789", some "Ben"⟩)).1.lobbies "XYZ789").map
        (fun lobby => lobby.players.map (fun p => p.id)) = some ["h2", "m"] ∧
    mapGet (joinLobby memberOfFirstLobbyState "m" 4
        (some ⟨some "xyz789", some "Ben"⟩)).1.lobbies "ABC123" =
      mapGet memberOfFirstLobbyState.lobbies "ABC123" ∧
    mapGet (joinLobby memberOfFirstLobbyState "m" 4
        (some ⟨some "xyz789", some "Ben"⟩)).1.playerLobbies "m" = some "xyz789" ∧
    mapGet (joinLobby memberOfFirstLobbyState "m" 4
        (some ⟨some "xyz789", some "Ben"⟩)).1.lobbies "xyz789" = none := by
  refine ⟨reachable_run _ _ Reachable.start, by decide, by decide, by decide, by decide,
    by decide⟩

/-! ## C26: creating a lobby while in a lobby -/

/-- C26 (failing input): member `m` of lobby `ABC123` calls `createLobby`, and host `h` of
lobby `ABC123` calls `createLobby`.  The handler emits a `leaveLobby` event towards the
client and goes on: in both cases lobby `ABC123` is in the store afterwards exactly as
before, with the record of the caller, who is now also the host of the new lobby. -/
theorem createLobby_keeps_old_membership :
    Reachable twoPlayerState ∧
    mapGet twoPlayerState.playerLobbies "m" = some "ABC123" ∧
    (createLobby twoPlayerState "m" 3 "0.xyz789abc" (some ⟨some "Ben"⟩)).2.head? =
      some ⟨Target.socket "m", "leaveLobby", Payload.leaveLobby (some "ABC123")⟩ ∧
    mapGet (createLobby twoPlayerState "m" 3 "0.xyz789abc" (some ⟨some "Ben"⟩)).1.lobbies
        "ABC123" = mapGet twoPlayerState.lobbies "ABC123" ∧
    (mapGet (createLobby twoPlayerState "m" 3 "0.xyz789abc" (some ⟨some "Ben"⟩)).1.lobbies
        "ABC123").map (fun lobby => lobby.players.map (fun p => p.id)) = some ["h", "m"] ∧
    (mapGet (createLobby twoPlayerState "m" 3 "0.xyz789abc" (some ⟨some "Ben"⟩)).1.lobbies
        "XYZ789").map (fun lobby => lobby.players.map (fun p => p.id)) = some ["m"] ∧
    mapGet twoPlayerState.playerLobbies "h" = some "ABC123" ∧
    mapGet (createLobby twoPlayerState "h" 3 "0.xyz789abc" (some ⟨some "Anna"⟩)).1.lobbies
        "ABC123" = mapGet twoPlayerState.lobbies "ABC123" ∧
    (mapGet (createLobby twoPlayerState "h" 3 "0.xyz789abc" (some ⟨some "Anna"⟩)).1.lobbies
        "ABC123").map (fun lobby => lobby.hostId) = some "h" ∧
    (mapGet (createLobby twoPlayerState "h" 3 "0.xyz789abc" (some ⟨some "Anna"⟩)).1.lobbies
        "XYZ789").map (fun lobby => lobby.hostId) = some "h" := by
  refine ⟨reachable_run _ _ Reachable.start, by decide, by decide, by decide, by decide,
    by decide, by decide, by decide, by decide, by decide⟩


/-! ## C24: the client proxy -/

/-- C24 (counterexample): a client that created a lobby (it has a current lobby and is
host) and then lost its connection.  `startGame` and `kickPlayer` return `false` and send
nothing, although there is a current lobby and `isHost` is true. -/
theorem client_host_disconnected_cannot_start :
    hostAfterDisconnect.currentLobby.isSome = true ∧
    hostAfterDisconnect.isHost = true ∧
    hostAfterDisconnect.isConnected = false ∧
    MultiplayerClient.startGame hostAfterDisconnect none = (hostAfterDisconnect, false, []) ∧
    MultiplayerClient.kickPlayer hostAfterDisconnect (some "m") =
      (hostAfterDisconnect, false, []) := by
  refine ⟨by decide, by decide, by decide, by decide, by decide⟩

/-- C24 (amended): the client proxy fails fast.  Every one of `createLobby`, `joinLobby`,
`requestLobbyList`, `startGame` and `kickPlayer` returns `false` and sends nothing when
`isConnected` is false; `createLobby` and `joinLobby` return `false` and send nothing
when a required argument (player name, lobby code) is missing, empty or white space
only; `startGame` and `kickPlayer` return `false` and send nothing when there is no
current lobby or `isHost` is false.  In every other case the call returns `true` and
sends exactly one command event, with the player name trimmed and the lobby code in
upper case. -/
theorem client_proxy_fast_fail (c : ClientState) (lobbyCode playerName playerId : Option String)
    (gameSettings : Option GameSettings) :
    (c.isConnected = false →
      MultiplayerClient.createLobby c playerName = (c, false, []) ∧
      MultiplayerClient.joinLobby c lobbyCode playerName = (c, false, []) ∧
      MultiplayerClient.requestLobbyList c = (c, false, []) ∧
      MultiplayerClient.startGame c gameSettings = (c, false, []) ∧
      MultiplayerClient.kickPlayer c playerId = (c, false, [])) ∧
    ((∀ name, playerName = some name → name.data.all isJsWhitespace = true) →
      MultiplayerClient.createLobby c playerName = (c, false, []) ∧
      MultiplayerClient.joinLobby c lobbyCode playerName = (c, false, [])) ∧
    ((∀ code, lobbyCode = some code → code.data.all isJsWhitespace = true) →
      MultiplayerClient.joinLobby c lobbyCode playerName = (c, false, [])) ∧
    ((c.currentLobby = none ∨ c.isHost = false) →
      MultiplayerClient.startGame c gameSettings = (c, false, []) ∧
      MultiplayerClient.kickPlayer c playerId = (c, false, [])) ∧
    (c.isConnected = true →
      MultiplayerClient.requestLobbyList c = (c, true, [ClientEmit.requestLobbyList]) ∧
      (∀ name, playerName = some name → name.data.all isJsWhitespace = false →
        MultiplayerClient.createLobby c playerName =
          ({ c with playerName := trim name }, true,
            [ClientEmit.createLobby ⟨some (trim name)⟩]) ∧
        ∀ code, lobbyCode = some code → code.data.all isJsWhitespace = false →
          MultiplayerClient.joinLobby c lobbyCode playerName =
            ({ c with playerName := trim name }, true,
              [ClientEmit.joinLobby ⟨some (toUpperCase code), some (trim name)⟩])) ∧
      (∀ lobby, c.currentLobby = some lobby → c.isHost = true →
        MultiplayerClient.startGame c gameSettings =
          (c, true, [ClientEmit.startGame ⟨gameSettings⟩]) ∧
        MultiplayerClient.kickPlayer c playerId =
          (c, true, [ClientEmit.kickPlayer ⟨playerId⟩]))) := by
  have hblank : ∀ (t : String), t.data.all isJsWhitespace = true →
      (t = "" ∨ (trim t).length = 0) :=
    fun t h => Or.inr ((trim_length_eq_zero_iff t).mpr h)
  have hfull : ∀ (t : String), t.data.all isJsWhitespace = false →
      ¬ (t = "" ∨ (trim t).length = 0) := by
    intro t h hor
    have h0 : (trim t).length = 0 := by
      rcases hor with h1 | h1
      · subst h1; rfl
      · exact h1
    rw [(trim_length_eq_zero_iff t).mp h0] at h
    exact Bool.noConfusion h
  refine ⟨?_, ?_, ?_, ?_, ?_⟩
  · intro hcon
    simp [MultiplayerClient.createLobby, MultiplayerClient.joinLobby,
      MultiplayerClient.requestLobbyList, MultiplayerClient.startGame,
      MultiplayerClient.kickPlayer, hcon]
  · intro hname
    cases hcon : c.isConnected with
    | false =>
      simp [MultiplayerClient.createLobby, MultiplayerClient.joinLobby, hcon]
    | true =>
      cases playerName with
      | none =>
        constructor
        · simp [MultiplayerClient.createLobby, hcon]
        · cases lobbyCode with
          | none => simp [MultiplayerClient.joinLobby, hcon]
          | some code =>
            by_cases hcode : code = "" ∨ (trim code).length = 0
            · simp [MultiplayerClient.joinLobby, hcon, hcode]
            · simp [MultiplayerClient.joinLobby, hcon, hcode]
      | some name =>
        have hb := hblank name (hname name rfl)
        constructor
        · simp [MultiplayerClient.createLobby, hcon, hb]
        · cases lobbyCode with
          | none => simp [MultiplayerClient.joinLobby, hcon]
          | some code =>
            by_cases hcode : code = "" ∨ (trim code).length = 0
            · simp [MultiplayerClient.joinLobby, hcon, hcode]
            · simp [MultiplayerClient.joinLobby, hcon, hcode, hb]
  · intro hcode
    cases hcon : c.isConnected with
    | false => simp [MultiplayerClient.joinLobby, hcon]
    | true =>
      cases lobbyCode with
      | none => simp [MultiplayerClient.joinLobby, hcon]
      | some code =>
        have hb := hblank code (hcode code rfl)
        simp [MultiplayerClient.joinLobby, hcon, hb]
  · intro hno
    rcases hno with hno | hno
    · simp [MultiplayerClient.startGame, MultiplayerClient.kickPlayer, hno]
    · cases hcur : (!c.isConnected || c.currentLobby.isNone) with
      | true => simp [MultiplayerClient.startGame, MultiplayerClient.kickPlayer, hcur]
      | false => simp [MultiplayerClient.startGame, MultiplayerClient.kickPlayer, hcur, hno]
  · intro hcon
    refine ⟨?_, ?_, ?_⟩
    · simp [MultiplayerClient.requestLobbyList, hcon]
    · intro name hname hws
      subst hname
      have hn := hfull name hws
      refine ⟨?_, ?_⟩
      · simp [MultiplayerClient.createLobby, hcon, hn]
      · intro code hcode hwc
        subst hcode
        have hc := hfull code hwc
        simp [MultiplayerClient.joinLobby, hcon, hn, hc]
    · intro lobby hcur hhost
      simp [MultiplayerClient.startGame, MultiplayerClient.kickPlayer, hcon, hcur, hhost]

/-- C24 (witness): a disconnected host cannot start; a connected host joins with the code
`abc123` and the name ` Ben `, and kicks `m`. -/
theorem client_proxy_fast_fail_witness :
    MultiplayerClient.startGame hostAfterDisconnect none = (hostAfterDisconnect, false, []) ∧
    MultiplayerClient.joinLobby connectedHost (some "abc123") (some " Ben ") =
      ({ connectedHost with playerName := trim " Ben " }, true,
        [ClientEmit.joinLobby ⟨some (toUpperCase "abc123"), some (trim " Ben ")⟩]) ∧
    MultiplayerClient.kickPlayer connectedHost (some "m") =
      (connectedHost, true, [ClientEmit.kickPlayer ⟨some "m"⟩]) :=
  ⟨((client_proxy_fast_fail hostAfterDisconnect none none none none).1 (by decide)).2.2.2.1,
    ((client_proxy_fast_fail connectedHost (some "abc123") (some " Ben ") none none).2.2.2.2
      (by decide)).2.1 " Ben " rfl (by decide) |>.2 "abc123" rfl (by decide),
    (((client_proxy_fast_fail connectedHost none none (some "m") none).2.2.2.2
      (by decide)).2.2 (createLobbyObject "ABC123" "h" "Anna" 1) (by decide) (by decide)).2⟩

end NichtLachen
